import Mathlib

/-!
# The varnish plugin of collectd (src/varnish.c)

A shallow embedding of `src/varnish.c` and the properties of its metric
mapping, instance configuration and collection cycle.

Conventions of the embedding:

* C strings are Lean strings, one `Char` per C `char`.
* The calls made to the daemon (`plugin_dispatch_values`,
  `plugin_register_complex_read`) and to the varnish API are recorded, in call
  order, in lists.
* `malloc` and `strdup` draw their outcome from an oracle kept in the state
  (`plugin_state.mallocs`), so that the `ENOMEM` paths are part of the model.
* The file is compiled for one of two API generations (`HAVE_VARNISH_V2`,
  `HAVE_VARNISH_V3`); the generation is a parameter of every function that
  contains a conditional section.
-/

namespace Varnish

/-! ## Build parameters and library functions -/

/-- The API generation the file is compiled for. Exactly one of the macros
`HAVE_VARNISH_V2` and `HAVE_VARNISH_V3` is defined (to 1) by the build: with
both or neither the typedef of `c_varnish_stats_t` (lines 132-139) does not
compile. Under that reading `#if HAVE_VARNISH_V2` and `#ifdef HAVE_VARNISH_V2`
(line 313) select the same code. -/
inductive Generation where
  | V2
  | V3
  deriving DecidableEq, Repr

/-- What the translation unit takes from its surroundings: the generation it
is compiled for, the constant `DATA_MAX_NAME_LEN` of plugin.h (the size of the
name buffers; plugin.h is not part of the sources at hand, so the constant is a
parameter) and the global `hostname_g` of the daemon. -/
structure Env where
  gen : Generation
  DATA_MAX_NAME_LEN : Nat
  hostname_g : String

/-- Value of `EINVAL` in errno.h (Linux). -/
def EINVAL : Int := 22

/-- Value of `ENOMEM` in errno.h (Linux). -/
def ENOMEM : Int := 12

/-- ASCII lower-casing of a C string, as `tolower` does in the C locale. -/
def lower (s : String) : List Char := s.data.map Char.toLower

/-- The libc function `strcasecmp`: 0 exactly when the two strings are equal up
to ASCII case. The callers only compare the result with 0; the sign of a
non-zero result is not modelled. -/
def strcasecmp (a b : String) : Int := if lower a = lower b then 0 else 1

/-- The libc function `strcmp`, with the same convention as `strcasecmp`. -/
def strcmp (a b : String) : Int := if a = b then 0 else 1

/-- Modelled from the spec: `sstrncpy (dest, src, n)` of common.c (not part of
the sources at hand) copies the name `src` into the member `dest`. The callers
pass the size `n` of the destination: the copy is bounded, and the buffer holds
the first `n - 1` characters of `src`, terminated. -/
def sstrncpy (src : String) (n : Nat) : String := String.mk (src.data.take (n - 1))

/-- Modelled from the spec: `ssnprintf (dest, n, "varnish/%s", arg)` of common.c
(not part of the sources at hand) derives the name of the task from the
instance: the formatted text, cut to the `n - 1` characters that fit the
buffer of size `n` the caller passes. -/
def ssnprintf_varnish (n : Nat) (arg : String) : String :=
  String.mk (("varnish/".data ++ arg.data).take (n - 1))

/-! ## Configuration items (liboconfig) -/

/-- Modelled from the spec: `oconfig_value_t` of liboconfig (not part of the
sources at hand): a positional argument of a configuration item is a string, a
number or a boolean. The payload of a number is never read by this plugin. -/
inductive oconfig_value_t where
  | string (s : String)
  | number (x : Int)
  | boolean (b : Bool)
  deriving DecidableEq, Repr

/-- Modelled from the spec: `oconfig_item_t` of liboconfig (not part of the
sources at hand): a key, its positional arguments (`values`, `values_num`) and
its child items (`children`, `children_num`). -/
inductive oconfig_item_t where
  | mk (key : String) (values : List oconfig_value_t) (children : List oconfig_item_t)

/-- Field `key` of a configuration item. -/
def oconfig_item_t.key : oconfig_item_t → String
  | .mk k _ _ => k

/-- Field `values` of a configuration item. -/
def oconfig_item_t.values : oconfig_item_t → List oconfig_value_t
  | .mk _ v _ => v

/-- Field `children` of a configuration item. -/
def oconfig_item_t.children : oconfig_item_t → List oconfig_item_t
  | .mk _ _ c => c

/-- Field `values_num` of a configuration item. -/
def oconfig_item_t.values_num (ci : oconfig_item_t) : Nat := ci.values.length

/-- Modelled from the spec: `cf_util_get_boolean (ci, &ret)` of configfile.c
(not part of the sources at hand) reads the single boolean argument of an
item. It returns status 0 and stores the boolean when the item has exactly one
argument, a boolean; otherwise a non-zero status, and the destination
`ret_bool` keeps its value. The result is (status, new value of the
destination). -/
def cf_util_get_boolean (ci : oconfig_item_t) (ret_bool : Bool) : Int × Bool :=
  match ci.values with
  | [oconfig_value_t.boolean b] => (0, b)
  | _ => (-1, ret_bool)

/-! ## Data model of the plugin -/

/-- The structure `user_config_s` (lines 142-159). `instance` is `none` for the
NULL pointer. The members `monitor_sm` and `monitor_sma` exist in generation V2
only; in generation V3 no function reads or writes them. -/
structure user_config_t where
  «instance» : Option String
  monitor_cache : Bool
  monitor_connections : Bool
  monitor_esi : Bool
  monitor_backend : Bool
  monitor_fetch : Bool
  monitor_hcb : Bool
  monitor_shm : Bool
  monitor_sms : Bool
  monitor_sm : Bool
  monitor_sma : Bool
  monitor_totals : Bool
  monitor_workers : Bool
  deriving DecidableEq, Repr

/-- The configuration right after `memset (conf, 0, sizeof (*conf))` and
`conf->instance = NULL`. -/
def conf_zero : user_config_t :=
  { «instance» := none, monitor_cache := false, monitor_connections := false,
    monitor_esi := false, monitor_backend := false, monitor_fetch := false,
    monitor_hcb := false, monitor_shm := false, monitor_sms := false,
    monitor_sm := false, monitor_sma := false, monitor_totals := false,
    monitor_workers := false }

/-- One call of `plugin_register_complex_read (group, name, varnish_read, NULL,
&ud)`: the group, the name and the configuration `ud.data` points to. -/
structure read_task where
  group : String
  name : String
  data : user_config_t
  deriving DecidableEq, Repr

/-- State of the plugin between calls: the static flag `have_instance` (line
162), the read tasks registered so far (in call order) and the oracle for the
allocations still to come (`true`: the allocation succeeds; an exhausted oracle
lets every allocation succeed). -/
structure plugin_state where
  have_instance : Bool
  reads : List read_task
  mallocs : List Bool
  deriving DecidableEq, Repr

/-- State of the plugin when the daemon has loaded it: `have_instance = 0`,
nothing registered. -/
def plugin_state.initial (mallocs : List Bool) : plugin_state :=
  { have_instance := false, reads := [], mallocs := mallocs }

/-- One allocation (`malloc`, `strdup`): its outcome and the state after it. -/
def malloc (st : plugin_state) : Bool × plugin_state :=
  match st.mallocs with
  | [] => (true, st)
  | ok :: rest => (ok, { st with mallocs := rest })

/-- Modelled from the spec: `cf_util_get_string (ci, &ret)` of configfile.c (not
part of the sources at hand) reads the single string argument of an item. It
returns status 0 and a copy of the string when the item has exactly one
argument, a string, and the copy (`strdup`) can be allocated; otherwise a
non-zero status, and the destination is left alone. The result is (status,
string stored in the destination, state after the call). -/
def cf_util_get_string (ci : oconfig_item_t) (st : plugin_state) :
    Int × Option String × plugin_state :=
  match ci.values with
  | [oconfig_value_t.string s] =>
    let (strdup_ok, st) := malloc st
    if strdup_ok then (0, some s, st) else (-1, none, st)
  | _ => (-1, none, st)

/-! ## Instance configuration (lines 391-556) -/

/-- Body of the loop over the children of an Instance block (lines 463-496):
the option named by the key of the child, compared without regard to case,
receives the boolean of the child through `cf_util_get_boolean`; the status of
`cf_util_get_boolean` is dropped, as in the source. A child with any other key
is reported with a warning and changes nothing. The keys `CollectSMA` and
`CollectSM` are compiled in generation V2 only. -/
def varnish_config_instance_child (gen : Generation) (conf : user_config_t)
    (child : oconfig_item_t) : user_config_t :=
  if strcasecmp "CollectCache" child.key = 0 then
    { conf with monitor_cache := (cf_util_get_boolean child conf.monitor_cache).2 }
  else if strcasecmp "CollectConnections" child.key = 0 then
    { conf with monitor_connections := (cf_util_get_boolean child conf.monitor_connections).2 }
  else if strcasecmp "CollectESI" child.key = 0 then
    { conf with monitor_esi := (cf_util_get_boolean child conf.monitor_esi).2 }
  else if strcasecmp "CollectBackend" child.key = 0 then
    { conf with monitor_backend := (cf_util_get_boolean child conf.monitor_backend).2 }
  else if strcasecmp "CollectFetch" child.key = 0 then
    { conf with monitor_fetch := (cf_util_get_boolean child conf.monitor_fetch).2 }
  else if strcasecmp "CollectHCB" child.key = 0 then
    { conf with monitor_hcb := (cf_util_get_boolean child conf.monitor_hcb).2 }
  else if strcasecmp "CollectSHM" child.key = 0 then
    { conf with monitor_shm := (cf_util_get_boolean child conf.monitor_shm).2 }
  else if strcasecmp "CollectSMS" child.key = 0 then
    { conf with monitor_sms := (cf_util_get_boolean child conf.monitor_sms).2 }
  else if gen = Generation.V2 ∧ strcasecmp "CollectSMA" child.key = 0 then
    { conf with monitor_sma := (cf_util_get_boolean child conf.monitor_sma).2 }
  else if gen = Generation.V2 ∧ strcasecmp "CollectSM" child.key = 0 then
    { conf with monitor_sm := (cf_util_get_boolean child conf.monitor_sm).2 }
  else if strcasecmp "CollectTotals" child.key = 0 then
    { conf with monitor_totals := (cf_util_get_boolean child conf.monitor_totals).2 }
  else if strcasecmp "CollectWorkers" child.key = 0 then
    { conf with monitor_workers := (cf_util_get_boolean child conf.monitor_workers).2 }
  else
    conf

/-- The loop `for (i = 0; i < ci->children_num; i++)` of lines 461-497, over
the children in order. -/
def varnish_config_instance_children (gen : Generation) (conf : user_config_t)
    (children : List oconfig_item_t) : user_config_t :=
  children.foldl (varnish_config_instance_child gen) conf

/-- The condition of lines 499-512: no category flag is set. The members
`monitor_sma` and `monitor_sm` take part in generation V2 only. -/
def no_metric (gen : Generation) (conf : user_config_t) : Bool :=
  !conf.monitor_cache
    && !conf.monitor_connections
    && !conf.monitor_esi
    && !conf.monitor_backend
    && !conf.monitor_fetch
    && !conf.monitor_hcb
    && !conf.monitor_shm
    && !conf.monitor_sms
    && (gen != Generation.V2 || (!conf.monitor_sma && !conf.monitor_sm))
    && !conf.monitor_totals
    && !conf.monitor_workers

/-- What a call of `varnish_config_instance` leaves behind: the status it
returns, the configuration `conf` as it stands when the function returns
(`none` when it was never allocated or has been freed) and the state of the
plugin. -/
structure config_result where
  status : Int
  conf : Option user_config_t
  state : plugin_state
  deriving DecidableEq, Repr

/-- The instance a block asks for (lines 436-453): the single string argument,
unless it is "localhost"; `none`, the default instance, for "localhost" and
for a block without a string argument. -/
def block_instance (ci : oconfig_item_t) : Option String :=
  match ci.values with
  | [oconfig_value_t.string s] => if s = "localhost" then none else some s
  | _ => none

/-- The name of the read task of a configuration (lines 520-521):
`ssnprintf (callback_name, sizeof (callback_name), "varnish/%s", ...)` with
"localhost" for the NULL instance. -/
def callback_name (env : Env) (conf : user_config_t) : String :=
  ssnprintf_varnish env.DATA_MAX_NAME_LEN
    (match conf.«instance» with
     | none => "localhost"
     | some s => s)

/-- Lines 461-534 of `varnish_config_instance`: what the function does once the
positional argument has been dealt with and `conf` holds the instance. The
children are applied to `conf`; a configuration without any metric is
refused with `EINVAL`; otherwise the read task is registered and
`have_instance` is set. -/
def varnish_config_instance_options (env : Env) (ci : oconfig_item_t) (conf : user_config_t)
    (st : plugin_state) : config_result :=
  -- lines 461-497
  let conf := varnish_config_instance_children env.gen conf ci.children
  -- lines 499-518
  if no_metric env.gen conf then
    { status := EINVAL, conf := some conf, state := st }
  else
    -- lines 520-534
    let st : plugin_state := { st with
      reads := st.reads
        ++ [{ group := "varnish", name := callback_name env conf, data := conf }] }
    let st : plugin_state := { st with have_instance := true }
    { status := 0, conf := some conf, state := st }

/-- The function `varnish_config_instance` (lines 423-535); its lines 461-534
are `varnish_config_instance_options`. -/
def varnish_config_instance (env : Env) (ci : oconfig_item_t) (st : plugin_state) :
    config_result :=
  -- conf = malloc (sizeof (*conf)); if (conf == NULL) return (ENOMEM);
  let (conf_ok, st) := malloc st
  if !conf_ok then
    { status := ENOMEM, conf := none, state := st }
  else
    -- memset (conf, 0, sizeof (*conf)); conf->instance = NULL;
    let conf := conf_zero
    if ci.values_num = 1 then
      let (status, ret_string, st) := cf_util_get_string ci st
      if status ≠ 0 then
        -- sfree (conf); return (status);
        { status := status, conf := none, state := st }
      else
        let conf : user_config_t := { conf with «instance» := ret_string }
        if conf.«instance».elim false (fun s => strcmp "localhost" s = 0) then
          -- sfree (conf->instance); conf->instance = NULL;
          let conf : user_config_t := { conf with «instance» := none }
          varnish_config_instance_options env ci conf st
        else
          varnish_config_instance_options env ci conf st
    else if ci.values_num > 1 then
      -- return (EINVAL);
      { status := EINVAL, conf := some conf, state := st }
    else
      varnish_config_instance_options env ci conf st

/-- The function `varnish_init` (lines 391-421): when no Instance block has
been registered, it registers one read task with the default settings. -/
def varnish_init (st : plugin_state) : Int × plugin_state :=
  if st.have_instance then
    (0, st)
  else
    let (conf_ok, st) := malloc st
    if !conf_ok then
      (ENOMEM, st)
    else
      let conf := conf_zero
      -- Default settings:
      let conf : user_config_t := { conf with «instance» := none }
      let conf : user_config_t := { conf with monitor_cache := true }
      let conf : user_config_t := { conf with monitor_backend := true }
      let conf : user_config_t := { conf with monitor_connections := true }
      let conf : user_config_t := { conf with monitor_shm := true }
      (0, { st with
        reads := st.reads ++ [{ group := "varnish", name := "varnish/localhost", data := conf }] })

/-- Body of the loop of `varnish_config` (lines 543-552): an `Instance` child
is handed to `varnish_config_instance`, whose status is dropped; any other
child is reported with a warning and skipped. -/
def varnish_config_child (env : Env) (st : plugin_state) (child : oconfig_item_t) :
    plugin_state :=
  if strcasecmp "Instance" child.key = 0 then
    (varnish_config_instance env child st).state
  else
    st

/-- The function `varnish_config` (lines 537-556). -/
def varnish_config (env : Env) (ci : oconfig_item_t) (st : plugin_state) :
    Int × plugin_state :=
  (0, ci.children.foldl (varnish_config_child env) st)

/-! ## Counter snapshots and observations -/

/-- Members of the counter block (`c_varnish_stats_t`: `struct varnish_stats` in
generation V2, `struct VSC_C_main` in generation V3; the varnish headers are
not part of the sources at hand). The members listed are those of the header
table of lines 25-123, in its order. -/
inductive Field where
  | uptime
  | client_conn
  | client_drop
  | client_req
  | cache_hit
  | cache_hitpass
  | cache_miss
  | backend_conn
  | backend_unhealthy
  | backend_busy
  | backend_fail
  | backend_reuse
  | backend_toolate
  | backend_recycle
  | backend_unused
  | fetch_head
  | fetch_length
  | fetch_chunked
  | fetch_eof
  | fetch_bad
  | fetch_close
  | fetch_oldhttp
  | fetch_zero
  | fetch_failed
  | n_sess_mem
  | n_sess
  | n_object
  | n_vampireobject
  | n_objectcore
  | n_objecthead
  | n_smf
  | n_smf_frag
  | n_smf_large
  | n_vbe_conn
  | n_wrk
  | n_wrk_create
  | n_wrk_failed
  | n_wrk_max
  | n_wrk_queue
  | n_wrk_overflow
  | n_wrk_drop
  | n_backend
  | n_expired
  | n_lru_nuked
  | n_lru_saved
  | n_lru_moved
  | n_deathrow
  | losthdr
  | n_objsendfile
  | n_objwrite
  | n_objoverflow
  | s_sess
  | s_req
  | s_pipe
  | s_pass
  | s_fetch
  | s_hdrbytes
  | s_bodybytes
  | sess_closed
  | sess_pipeline
  | sess_readahead
  | sess_linger
  | sess_herd
  | shm_records
  | shm_writes
  | shm_flushes
  | shm_cont
  | shm_cycles
  | sm_nreq
  | sm_nobj
  | sm_balloc
  | sm_bfree
  | sma_nreq
  | sma_nobj
  | sma_nbytes
  | sma_balloc
  | sma_bfree
  | sms_nreq
  | sms_nobj
  | sms_nbytes
  | sms_balloc
  | sms_bfree
  | backend_req
  | n_vcl
  | n_vcl_avail
  | n_vcl_discard
  | n_purge
  | n_purge_add
  | n_purge_retire
  | n_purge_obj_test
  | n_purge_re_test
  | n_purge_dups
  | hcb_nolock
  | hcb_lock
  | hcb_insert
  | esi_parse
  | esi_errors
  deriving DecidableEq, Repr

/-- A snapshot of the counter block: the value of each member. The members are
of type `uint64_t` (see `uint64_snapshot`). -/
abbrev c_varnish_stats_t := Field → Nat

/-- A snapshot all of whose members hold a `uint64_t` value. -/
def uint64_snapshot (stats : c_varnish_stats_t) : Prop := ∀ f, stats f < 2 ^ 64

/-- The type `gauge_t` of plugin.h, a C `double`. The only doubles the plugin
handles are conversions of `uint64_t` members, which are non-negative
integers: a `gauge_t` is represented by the integer it holds. -/
abbrev gauge_t := Nat

/-- The type `counter_t` of plugin.h, `unsigned long long`. -/
abbrev counter_t := Nat

/-- Number of low bits an integer loses when it is stored with the 53
significant bits of a `double`; `fuel` bounds the search (11 is enough for a
`uint64_t`). -/
def lost_bits : Nat → Nat → Nat
  | 0, _ => 0
  | fuel + 1, n => if n < 2 ^ 53 then 0 else 1 + lost_bits fuel (n / 2)

/-- Conversion of a `uint64_t` argument to the `gauge_t` parameter of
`varnish_submit` (IEEE 754 binary64, round to nearest, ties to even): a value
below 2^53 is kept; a larger one is rounded to 53 significant bits. -/
def uint64_to_gauge (n : Nat) : gauge_t :=
  let sh := lost_bits 11 n
  let q := n / 2 ^ sh
  let r := n % 2 ^ sh
  if 2 * r < 2 ^ sh then q * 2 ^ sh
  else if 2 * r > 2 ^ sh then (q + 1) * 2 ^ sh
  else if q % 2 = 0 then q * 2 ^ sh
  else (q + 1) * 2 ^ sh

/-- Conversion of a `gauge_t` to `counter_t` in `values[0].counter = value`. The
doubles at hand are integers; the only one out of the range of `counter_t` is
2^64 (reached from members above 2^64 - 1025), where C leaves the result
undefined and the model wraps around. -/
def gauge_to_counter (g : gauge_t) : counter_t := g % 2 ^ 64

/-- The union `value_t` of plugin.h as `varnish_submit` fills it: the member
that was written and its value. -/
inductive value_t where
  | counter (c : counter_t)
  | gauge (g : gauge_t)
  deriving DecidableEq, Repr

/-- The structure `value_list_t` of plugin.h as `varnish_submit` fills it; the
members it leaves at their `VALUE_LIST_INIT` value (time, interval, meta) are
left out. Each name is a buffer of `DATA_MAX_NAME_LEN` bytes. -/
structure value_list_t where
  values : List value_t
  host : String
  plugin : String
  plugin_instance : String
  type : String
  type_instance : String
  deriving DecidableEq, Repr

/-- The function `varnish_submit` (lines 164-186): the value list it hands to
`plugin_dispatch_values`. -/
def varnish_submit (env : Env) (plugin_instance : Option String)
    (type type_instance : String) (value : gauge_t) : value_list_t :=
  let values : List value_t :=
    if strcasecmp "gauge" type = 0 then
      [value_t.gauge value]
    else
      [value_t.counter (gauge_to_counter value)]
  { values := values,
    host := sstrncpy env.hostname_g env.DATA_MAX_NAME_LEN,
    plugin := sstrncpy "varnish" env.DATA_MAX_NAME_LEN,
    plugin_instance :=
      (match plugin_instance with
       | some s => sstrncpy s env.DATA_MAX_NAME_LEN
       | none => ""),
    type := sstrncpy type env.DATA_MAX_NAME_LEN,
    type_instance := sstrncpy type_instance env.DATA_MAX_NAME_LEN }

/-- The function `varnish_monitor` (lines 188-322): the value lists handed to
`plugin_dispatch_values`, in call order. Each member of the snapshot is
converted to `gauge_t` where it is passed to `varnish_submit`. The sections
under `#if HAVE_VARNISH_V2` are those guarded by `env.gen = Generation.V2`. -/
def varnish_monitor (env : Env) (conf : user_config_t) (stats : c_varnish_stats_t) :
    List value_list_t :=
  (if conf.monitor_cache then
    [ varnish_submit env conf.«instance» "derive" "cache_hit" (uint64_to_gauge (stats Field.cache_hit)),
      varnish_submit env conf.«instance» "derive" "cache_miss" (uint64_to_gauge (stats Field.cache_miss)),
      varnish_submit env conf.«instance» "derive" "cache_hitpass" (uint64_to_gauge (stats Field.cache_hitpass)) ]
   else [])
  ++
  (if conf.monitor_connections then
    [ varnish_submit env conf.«instance» "derive" "client_connections-accepted" (uint64_to_gauge (stats Field.client_conn)),
      varnish_submit env conf.«instance» "derive" "client_connections-dropped" (uint64_to_gauge (stats Field.client_drop)),
      varnish_submit env conf.«instance» "derive" "client_requests-received" (uint64_to_gauge (stats Field.client_req)) ]
   else [])
  ++
  (if conf.monitor_esi then
    [ varnish_submit env conf.«instance» "derive" "esi_errors" (uint64_to_gauge (stats Field.esi_errors)) ]
    ++ (if env.gen = Generation.V2 then
      [ varnish_submit env conf.«instance» "derive" "esi_parsed" (uint64_to_gauge (stats Field.esi_parse)) ]
      else [])
   else [])
  ++
  (if conf.monitor_backend then
    [ varnish_submit env conf.«instance» "derive" "backend_connections-success" (uint64_to_gauge (stats Field.backend_conn)),
      varnish_submit env conf.«instance» "derive" "backend_connections-not-attempted" (uint64_to_gauge (stats Field.backend_unhealthy)),
      varnish_submit env conf.«instance» "derive" "backend_connections-too-many" (uint64_to_gauge (stats Field.backend_busy)),
      varnish_submit env conf.«instance» "derive" "backend_connections-failures" (uint64_to_gauge (stats Field.backend_fail)),
      varnish_submit env conf.«instance» "derive" "backend_connections-reuses" (uint64_to_gauge (stats Field.backend_reuse)),
      varnish_submit env conf.«instance» "derive" "backend_connections-was-closed" (uint64_to_gauge (stats Field.backend_toolate)),
      varnish_submit env conf.«instance» "derive" "backend_connections-recycles" (uint64_to_gauge (stats Field.backend_recycle)) ]
    ++ (if env.gen = Generation.V2 then
      [ varnish_submit env conf.«instance» "derive" "backend_connections-unused" (uint64_to_gauge (stats Field.backend_unused)) ]
      else [])
   else [])
  ++
  (if conf.monitor_fetch then
    [ varnish_submit env conf.«instance» "derive" "fetch_head" (uint64_to_gauge (stats Field.fetch_head)),
      varnish_submit env conf.«instance» "derive" "fetch_length" (uint64_to_gauge (stats Field.fetch_length)),
      varnish_submit env conf.«instance» "derive" "fetch_chunked" (uint64_to_gauge (stats Field.fetch_chunked)),
      varnish_submit env conf.«instance» "derive" "fetch_eof" (uint64_to_gauge (stats Field.fetch_eof)),
      varnish_submit env conf.«instance» "derive" "fetch_bad-headers" (uint64_to_gauge (stats Field.fetch_bad)),
      varnish_submit env conf.«instance» "derive" "fetch_close" (uint64_to_gauge (stats Field.fetch_close)),
      varnish_submit env conf.«instance» "derive" "fetch_oldhttp" (uint64_to_gauge (stats Field.fetch_oldhttp)),
      varnish_submit env conf.«instance» "derive" "fetch_zero" (uint64_to_gauge (stats Field.fetch_zero)),
      varnish_submit env conf.«instance» "derive" "fetch_failed" (uint64_to_gauge (stats Field.fetch_failed)) ]
   else [])
  ++
  (if conf.monitor_hcb then
    [ varnish_submit env conf.«instance» "derive" "hcb_nolock" (uint64_to_gauge (stats Field.hcb_nolock)),
      varnish_submit env conf.«instance» "derive" "hcb_lock" (uint64_to_gauge (stats Field.hcb_lock)),
      varnish_submit env conf.«instance» "derive" "hcb_insert" (uint64_to_gauge (stats Field.hcb_insert)) ]
   else [])
  ++
  (if conf.monitor_shm then
    [ varnish_submit env conf.«instance» "derive" "shm_records" (uint64_to_gauge (stats Field.shm_records)),
      varnish_submit env conf.«instance» "derive" "shm_writes" (uint64_to_gauge (stats Field.shm_writes)),
      varnish_submit env conf.«instance» "derive" "shm_flushes" (uint64_to_gauge (stats Field.shm_flushes)),
      varnish_submit env conf.«instance» "derive" "shm_contention" (uint64_to_gauge (stats Field.shm_cont)),
      varnish_submit env conf.«instance» "derive" "shm_cycles" (uint64_to_gauge (stats Field.shm_cycles)) ]
   else [])
  ++
  (if env.gen = Generation.V2 ∧ conf.monitor_sm then
    [ varnish_submit env conf.«instance» "derive" "sm_nreq" (uint64_to_gauge (stats Field.sm_nreq)),
      varnish_submit env conf.«instance» "derive" "sm_nobj" (uint64_to_gauge (stats Field.sm_nobj)),
      varnish_submit env conf.«instance» "gauge" "sm_balloc" (uint64_to_gauge (stats Field.sm_balloc)),
      varnish_submit env conf.«instance» "gauge" "sm_bfree" (uint64_to_gauge (stats Field.sm_bfree)) ]
   else [])
  ++
  (if env.gen = Generation.V2 ∧ conf.monitor_sma then
    [ varnish_submit env conf.«instance» "derive" "sma_req" (uint64_to_gauge (stats Field.sma_nreq)),
      varnish_submit env conf.«instance» "derive" "sma_nobj" (uint64_to_gauge (stats Field.sma_nobj)),
      varnish_submit env conf.«instance» "gauge" "sma_nbytes" (uint64_to_gauge (stats Field.sma_nbytes)),
      varnish_submit env conf.«instance» "gauge" "sma_balloc" (uint64_to_gauge (stats Field.sma_balloc)),
      varnish_submit env conf.«instance» "gauge" "sma_bfree" (uint64_to_gauge (stats Field.sma_bfree)) ]
   else [])
  ++
  (if conf.monitor_sms then
    [ varnish_submit env conf.«instance» "derive" "sms_nreq" (uint64_to_gauge (stats Field.sms_nreq)),
      varnish_submit env conf.«instance» "derive" "sms_nobj" (uint64_to_gauge (stats Field.sms_nobj)),
      varnish_submit env conf.«instance» "gauge" "sms_nbytes" (uint64_to_gauge (stats Field.sms_nbytes)),
      varnish_submit env conf.«instance» "gauge" "sms_balloc" (uint64_to_gauge (stats Field.sms_balloc)),
      varnish_submit env conf.«instance» "gauge" "sms_bfree" (uint64_to_gauge (stats Field.sms_bfree)) ]
   else [])
  ++
  (if conf.monitor_totals then
    [ varnish_submit env conf.«instance» "derive" "sessions" (uint64_to_gauge (stats Field.s_sess)),
      varnish_submit env conf.«instance» "derive" "requests" (uint64_to_gauge (stats Field.s_req)),
      varnish_submit env conf.«instance» "derive" "pipe" (uint64_to_gauge (stats Field.s_pipe)),
      varnish_submit env conf.«instance» "derive" "pass" (uint64_to_gauge (stats Field.s_pass)),
      varnish_submit env conf.«instance» "derive" "fetches" (uint64_to_gauge (stats Field.s_fetch)),
      varnish_submit env conf.«instance» "derive" "header-bytes" (uint64_to_gauge (stats Field.s_hdrbytes)),
      varnish_submit env conf.«instance» "derive" "body-bytes" (uint64_to_gauge (stats Field.s_bodybytes)) ]
   else [])
  ++
  (if conf.monitor_workers then
    [ varnish_submit env conf.«instance» "gauge" "threads" (uint64_to_gauge (stats Field.n_wrk)),
      varnish_submit env conf.«instance» "derive" "threads_created" (uint64_to_gauge (stats Field.n_wrk_create)),
      varnish_submit env conf.«instance» "derive" "threads_failed" (uint64_to_gauge (stats Field.n_wrk_failed)),
      varnish_submit env conf.«instance» "derive" "threads_limited" (uint64_to_gauge (stats Field.n_wrk_max)),
      varnish_submit env conf.«instance» "derive" "requests_dropped" (uint64_to_gauge (stats Field.n_wrk_drop)) ]
    ++ (if env.gen = Generation.V2 then
      [ varnish_submit env conf.«instance» "derive" "requests_queued" (uint64_to_gauge (stats Field.n_wrk_queue)),
        varnish_submit env conf.«instance» "derive" "requests_overflowed" (uint64_to_gauge (stats Field.n_wrk_overflow)) ]
      else [])
   else [])

/-! ## The collection cycle (lines 324-378) -/

/-- The structure `user_data_t` of plugin.h: `data` is `none` for NULL. -/
structure user_data_t where
  data : Option user_config_t
  deriving DecidableEq, Repr

/-- Calls into the varnish API, as `varnish_read` makes them. -/
inductive api_call where
  | VSM_New
  | VSC_Setup
  | VSC_Open
  | VSC_Main
  | VSM_Close
  | VSL_OpenStats (name : Option String)
  deriving DecidableEq, Repr

/-- What a call of `varnish_read` leaves behind: its status, the value lists
dispatched and the calls made into the varnish API, both in call order. -/
structure read_result where
  status : Int
  dispatched : List value_list_t
  calls : List api_call
  deriving DecidableEq, Repr

/-- The function `varnish_read` (lines 325-353 for generation V3, lines 356-377
for generation V2). `ud` is `none` for a NULL pointer. `source` is what the
varnish API finds on this cycle: `none` when the counter block cannot be
opened (`VSC_Open` reports an error, `VSL_OpenStats` returns NULL), and the
snapshot otherwise. -/
def varnish_read (env : Env) (ud : Option user_data_t) (source : Option c_varnish_stats_t) :
    read_result :=
  -- if ((ud == NULL) || (ud->data == NULL)) return (EINVAL);
  match ud.bind user_data_t.data with
  | none => { status := EINVAL, dispatched := [], calls := [] }
  | some conf =>
    match env.gen with
    | Generation.V3 =>
      -- vd = VSM_New(); VSC_Setup(vd); if (VSC_Open (vd, 1)) return (-1);
      match source with
      | none =>
        { status := -1, dispatched := [],
          calls := [api_call.VSM_New, api_call.VSC_Setup, api_call.VSC_Open] }
      | some stats =>
        -- stats = VSC_Main(vd); varnish_monitor (conf, stats); VSM_Close (vd);
        { status := 0, dispatched := varnish_monitor env conf stats,
          calls := [api_call.VSM_New, api_call.VSC_Setup, api_call.VSC_Open,
                    api_call.VSC_Main, api_call.VSM_Close] }
    | Generation.V2 =>
      -- stats = VSL_OpenStats (conf->instance); if (stats == NULL) return (-1);
      match source with
      | none =>
        { status := -1, dispatched := [],
          calls := [api_call.VSL_OpenStats conf.«instance»] }
      | some stats =>
        { status := 0, dispatched := varnish_monitor env conf stats,
          calls := [api_call.VSL_OpenStats conf.«instance»] }

/-! ## The mapping as a table

The description of the metric mapper as data: categories in a fixed order,
each with a fixed list of (member, kind, metric name). `emit` is the mapper of
the specification over that table; it is compared with `varnish_monitor`
below. -/

/-- The categories, in the order in which `varnish_monitor` treats them. -/
inductive Category where
  | cache
  | connections
  | esi
  | backend
  | fetch
  | hcb
  | shm
  | sm
  | sma
  | sms
  | totals
  | workers
  deriving DecidableEq, Repr

/-- The fixed enumeration order of the categories. -/
def Category.all : List Category :=
  [Category.cache, Category.connections, Category.esi, Category.backend, Category.fetch,
   Category.hcb, Category.shm, Category.sm, Category.sma, Category.sms, Category.totals,
   Category.workers]

/-- One line of the mapping table: the member read, the kind (`type`) and the
metric name (`type_instance`) it is submitted under. -/
structure table_entry where
  field : Field
  type : String
  name : String
  deriving DecidableEq, Repr

/-- The field list of each category that both generations have. -/
def category_common : Category → List table_entry
  | Category.cache =>
    [ ⟨Field.cache_hit, "derive", "cache_hit"⟩,
      ⟨Field.cache_miss, "derive", "cache_miss"⟩,
      ⟨Field.cache_hitpass, "derive", "cache_hitpass"⟩ ]
  | Category.connections =>
    [ ⟨Field.client_conn, "derive", "client_connections-accepted"⟩,
      ⟨Field.client_drop, "derive", "client_connections-dropped"⟩,
      ⟨Field.client_req, "derive", "client_requests-received"⟩ ]
  | Category.esi =>
    [ ⟨Field.esi_errors, "derive", "esi_errors"⟩ ]
  | Category.backend =>
    [ ⟨Field.backend_conn, "derive", "backend_connections-success"⟩,
      ⟨Field.backend_unhealthy, "derive", "backend_connections-not-attempted"⟩,
      ⟨Field.backend_busy, "derive", "backend_connections-too-many"⟩,
      ⟨Field.backend_fail, "derive", "backend_connections-failures"⟩,
      ⟨Field.backend_reuse, "derive", "backend_connections-reuses"⟩,
      ⟨Field.backend_toolate, "derive", "backend_connections-was-closed"⟩,
      ⟨Field.backend_recycle, "derive", "backend_connections-recycles"⟩ ]
  | Category.fetch =>
    [ ⟨Field.fetch_head, "derive", "fetch_head"⟩,
      ⟨Field.fetch_length, "derive", "fetch_length"⟩,
      ⟨Field.fetch_chunked, "derive", "fetch_chunked"⟩,
      ⟨Field.fetch_eof, "derive", "fetch_eof"⟩,
      ⟨Field.fetch_bad, "derive", "fetch_bad-headers"⟩,
      ⟨Field.fetch_close, "derive", "fetch_close"⟩,
      ⟨Field.fetch_oldhttp, "derive", "fetch_oldhttp"⟩,
      ⟨Field.fetch_zero, "derive", "fetch_zero"⟩,
      ⟨Field.fetch_failed, "derive", "fetch_failed"⟩ ]
  | Category.hcb =>
    [ ⟨Field.hcb_nolock, "derive", "hcb_nolock"⟩,
      ⟨Field.hcb_lock, "derive", "hcb_lock"⟩,
      ⟨Field.hcb_insert, "derive", "hcb_insert"⟩ ]
  | Category.shm =>
    [ ⟨Field.shm_records, "derive", "shm_records"⟩,
      ⟨Field.shm_writes, "derive", "shm_writes"⟩,
      ⟨Field.shm_flushes, "derive", "shm_flushes"⟩,
      ⟨Field.shm_cont, "derive", "shm_contention"⟩,
      ⟨Field.shm_cycles, "derive", "shm_cycles"⟩ ]
  | Category.sm => []
  | Category.sma => []
  | Category.sms =>
    [ ⟨Field.sms_nreq, "derive", "sms_nreq"⟩,
      ⟨Field.sms_nobj, "derive", "sms_nobj"⟩,
      ⟨Field.sms_nbytes, "gauge", "sms_nbytes"⟩,
      ⟨Field.sms_balloc, "gauge", "sms_balloc"⟩,
      ⟨Field.sms_bfree, "gauge", "sms_bfree"⟩ ]
  | Category.totals =>
    [ ⟨Field.s_sess, "derive", "sessions"⟩,
      ⟨Field.s_req, "derive", "requests"⟩,
      ⟨Field.s_pipe, "derive", "pipe"⟩,
      ⟨Field.s_pass, "derive", "pass"⟩,
      ⟨Field.s_fetch, "derive", "fetches"⟩,
      ⟨Field.s_hdrbytes, "derive", "header-bytes"⟩,
      ⟨Field.s_bodybytes, "derive", "body-bytes"⟩ ]
  | Category.workers =>
    [ ⟨Field.n_wrk, "gauge", "threads"⟩,
      ⟨Field.n_wrk_create, "derive", "threads_created"⟩,
      ⟨Field.n_wrk_failed, "derive", "threads_failed"⟩,
      ⟨Field.n_wrk_max, "derive", "threads_limited"⟩,
      ⟨Field.n_wrk_drop, "derive", "requests_dropped"⟩ ]

/-- The lines of each category that exist in the legacy generation (V2) only;
they follow the common lines of the category. -/
def category_legacy : Category → List table_entry
  | Category.cache => []
  | Category.connections => []
  | Category.esi =>
    [ ⟨Field.esi_parse, "derive", "esi_parsed"⟩ ]
  | Category.backend =>
    [ ⟨Field.backend_unused, "derive", "backend_connections-unused"⟩ ]
  | Category.fetch => []
  | Category.hcb => []
  | Category.shm => []
  | Category.sm =>
    [ ⟨Field.sm_nreq, "derive", "sm_nreq"⟩,
      ⟨Field.sm_nobj, "derive", "sm_nobj"⟩,
      ⟨Field.sm_balloc, "gauge", "sm_balloc"⟩,
      ⟨Field.sm_bfree, "gauge", "sm_bfree"⟩ ]
  | Category.sma =>
    [ ⟨Field.sma_nreq, "derive", "sma_req"⟩,
      ⟨Field.sma_nobj, "derive", "sma_nobj"⟩,
      ⟨Field.sma_nbytes, "gauge", "sma_nbytes"⟩,
      ⟨Field.sma_balloc, "gauge", "sma_balloc"⟩,
      ⟨Field.sma_bfree, "gauge", "sma_bfree"⟩ ]
  | Category.sms => []
  | Category.totals => []
  | Category.workers =>
    [ ⟨Field.n_wrk_queue, "derive", "requests_queued"⟩,
      ⟨Field.n_wrk_overflow, "derive", "requests_overflowed"⟩ ]

/-- The field list of a category in a generation, in table order. -/
def category_table (gen : Generation) (c : Category) : List table_entry :=
  match gen with
  | Generation.V2 => category_common c ++ category_legacy c
  | Generation.V3 => category_common c

/-- The switch of a category in a category selector. The categories `sm` and
`sma` exist in generation V2 only: in generation V3 they are never enabled. -/
def category_enabled (gen : Generation) (conf : user_config_t) : Category → Bool
  | Category.cache => conf.monitor_cache
  | Category.connections => conf.monitor_connections
  | Category.esi => conf.monitor_esi
  | Category.backend => conf.monitor_backend
  | Category.fetch => conf.monitor_fetch
  | Category.hcb => conf.monitor_hcb
  | Category.shm => conf.monitor_shm
  | Category.sm => gen = Generation.V2 && conf.monitor_sm
  | Category.sma => gen = Generation.V2 && conf.monitor_sma
  | Category.sms => conf.monitor_sms
  | Category.totals => conf.monitor_totals
  | Category.workers => conf.monitor_workers

/-- The observation of one table line: the value list `varnish_submit` builds
for the member, with the kind and the name of the line. -/
def observation (env : Env) (conf : user_config_t) (stats : c_varnish_stats_t)
    (e : table_entry) : value_list_t :=
  varnish_submit env conf.«instance» e.type e.name (uint64_to_gauge (stats e.field))

/-- The observations of one category: those of its field list, in table order,
when the category is enabled, and none otherwise. -/
def emit_category (env : Env) (conf : user_config_t) (stats : c_varnish_stats_t)
    (c : Category) : List value_list_t :=
  if category_enabled env.gen conf c then
    (category_table env.gen c).map (observation env conf stats)
  else
    []

/-- The mapper of the specification: for each category in the fixed order, the
observations of the category. -/
def emit (env : Env) (conf : user_config_t) (stats : c_varnish_stats_t) : List value_list_t :=
  (Category.all.map (emit_category env conf stats)).flatten

/-- The selector with every category switched on. -/
def conf_all (inst : Option String) : user_config_t :=
  { «instance» := inst, monitor_cache := true, monitor_connections := true,
    monitor_esi := true, monitor_backend := true, monitor_fetch := true,
    monitor_hcb := true, monitor_shm := true, monitor_sms := true,
    monitor_sm := true, monitor_sma := true, monitor_totals := true,
    monitor_workers := true }

/-! ## Outcomes of `varnish_config_instance`

Two predicates describe the two ways a call of `varnish_config_instance` can
end, relative to the state `st` it started from. -/

/-- The call was refused: nothing was registered, `have_instance` is as before,
and either no configuration is left and the status is non-zero, or the
configuration left has no metric and the status is `EINVAL`. -/
def rejected (env : Env) (st : plugin_state) (r : config_result) : Prop :=
  r.state.reads = st.reads ∧ r.state.have_instance = st.have_instance
    ∧ ((r.conf = none ∧ r.status ≠ 0)
       ∨ (∃ c, r.conf = some c ∧ no_metric env.gen c = true ∧ r.status = EINVAL))

/-- The call went through: the configuration left has a metric, the status is
0, exactly one read task was registered, for that configuration, and
`have_instance` is set. -/
def accepted (env : Env) (st : plugin_state) (r : config_result) : Prop :=
  ∃ c, r.conf = some c ∧ no_metric env.gen c = false ∧ r.status = 0
    ∧ r.state.reads = st.reads ++ [{ group := "varnish", name := callback_name env c, data := c }]
    ∧ r.state.have_instance = true

/-! ## Categories and their configuration keys -/

/-- The configuration key of a category, as compared in lines 465-490. -/
def option_key : Category → String
  | Category.cache => "CollectCache"
  | Category.connections => "CollectConnections"
  | Category.esi => "CollectESI"
  | Category.backend => "CollectBackend"
  | Category.fetch => "CollectFetch"
  | Category.hcb => "CollectHCB"
  | Category.shm => "CollectSHM"
  | Category.sm => "CollectSM"
  | Category.sma => "CollectSMA"
  | Category.sms => "CollectSMS"
  | Category.totals => "CollectTotals"
  | Category.workers => "CollectWorkers"

/-- The member of `user_config_t` that holds the flag of a category. -/
def category_flag (conf : user_config_t) : Category → Bool
  | Category.cache => conf.monitor_cache
  | Category.connections => conf.monitor_connections
  | Category.esi => conf.monitor_esi
  | Category.backend => conf.monitor_backend
  | Category.fetch => conf.monitor_fetch
  | Category.hcb => conf.monitor_hcb
  | Category.shm => conf.monitor_shm
  | Category.sm => conf.monitor_sm
  | Category.sma => conf.monitor_sma
  | Category.sms => conf.monitor_sms
  | Category.totals => conf.monitor_totals
  | Category.workers => conf.monitor_workers

/-- The configuration with the flag of one category replaced. -/
def set_flag (conf : user_config_t) (c : Category) (b : Bool) : user_config_t :=
  match c with
  | Category.cache => { conf with monitor_cache := b }
  | Category.connections => { conf with monitor_connections := b }
  | Category.esi => { conf with monitor_esi := b }
  | Category.backend => { conf with monitor_backend := b }
  | Category.fetch => { conf with monitor_fetch := b }
  | Category.hcb => { conf with monitor_hcb := b }
  | Category.shm => { conf with monitor_shm := b }
  | Category.sm => { conf with monitor_sm := b }
  | Category.sma => { conf with monitor_sma := b }
  | Category.sms => { conf with monitor_sms := b }
  | Category.totals => { conf with monitor_totals := b }
  | Category.workers => { conf with monitor_workers := b }

/-- The categories of a generation: `sm` and `sma` are compiled in generation
V2 only. -/
def category_exists (gen : Generation) (c : Category) : Bool :=
  gen = Generation.V2 || (c != Category.sm && c != Category.sma)

/-- A child item names a category when its key is, up to case, the
configuration key of the category and the category exists in the generation. -/
def names_category (gen : Generation) (c : Category) (child : oconfig_item_t) : Bool :=
  category_exists gen c && strcasecmp (option_key c) child.key = 0

/-! ## Concrete inputs used by the examples -/

/-- A build for the current generation with name buffers of 64 bytes. -/
def env_v3 : Env := { gen := Generation.V3, DATA_MAX_NAME_LEN := 64, hostname_g := "host" }

/-- A build for the legacy generation with name buffers of 64 bytes. -/
def env_v2 : Env := { gen := Generation.V2, DATA_MAX_NAME_LEN := 64, hostname_g := "host" }

/-- An option of an Instance block: `key value`. -/
def option_item (key : String) (b : Bool) : oconfig_item_t :=
  oconfig_item_t.mk key [oconfig_value_t.boolean b] []

/-- An Instance block with the given arguments and options. -/
def instance_block (values : List oconfig_value_t) (children : List oconfig_item_t) :
    oconfig_item_t :=
  oconfig_item_t.mk "Instance" values children

/-! ## Views of an observation -/

/-- The member of the union `value_t` that holds the value: `true` for
`gauge`, `false` for `counter`. -/
def value_t.is_gauge : value_t → Bool
  | value_t.gauge _ => true
  | value_t.counter _ => false

/-- Everything of a value list except the numbers: host, plugin, plugin
instance, kind (`type`), metric name (`type_instance`) and, for each value,
the member of the union it is stored in. -/
def value_list_t.shape (vl : value_list_t) :
    String × String × String × String × String × List Bool :=
  (vl.host, vl.plugin, vl.plugin_instance, vl.type, vl.type_instance,
   vl.values.map value_t.is_gauge)

/-- The table lines of the enabled categories of a selector, in the order of
the categories and, within a category, of its table. -/
def table_selected (gen : Generation) (conf : user_config_t) : List table_entry :=
  (Category.all.map
    (fun c => if category_enabled gen conf c then category_table gen c else [])).flatten

/-- The value of a member stored without change in the member of the union
that `varnish_submit` uses for the kind `type`. -/
def stored_verbatim (type : String) (v : Nat) : value_t :=
  if strcasecmp "gauge" type = 0 then value_t.gauge v else value_t.counter v

/-- A `uint64_t` value that a `double` holds exactly: the conversion to
`gauge_t` gives the value back. -/
def exact_in_double (v : Nat) : Prop := v < 2 ^ 64 ∧ uint64_to_gauge v = v

/-- The snapshot that holds the listed values and 0 in every other member. -/
def snapshot_of (l : List (Field × Nat)) : c_varnish_stats_t :=
  fun f => (l.lookup f).getD 0

/-! ## Views of a configuration -/

/-- A child of an Instance block is recognised when its key is, up to case, the
configuration key of a category of the generation (lines 465-490); any other
child takes the branch of the warning (lines 491-496). -/
def recognised (gen : Generation) (child : oconfig_item_t) : Bool :=
  Category.all.any (fun c => names_category gen c child)

/-- The configuration item with its children replaced. -/
def oconfig_item_t.with_children (ci : oconfig_item_t) (children : List oconfig_item_t) :
    oconfig_item_t :=
  oconfig_item_t.mk ci.key ci.values children

/-- A child of the plugin block is an Instance block when its key is, up to
case, "Instance" (line 545). -/
def is_instance_key (child : oconfig_item_t) : Bool :=
  strcasecmp "Instance" child.key = 0

/-- The configuration `varnish_init` builds (lines 402-409): the zeroed
structure with the default settings cache, backend, connections and shm. -/
def conf_default : user_config_t :=
  { conf_zero with monitor_cache := true, monitor_backend := true,
                   monitor_connections := true, monitor_shm := true }

/-- A sequence of calls of `varnish_config_instance`, one per block, each on
the state the call before left. -/
def configure (env : Env) (blocks : List oconfig_item_t) (st : plugin_state) : plugin_state :=
  blocks.foldl (fun st b => (varnish_config_instance env b st).state) st

/-- The invariant of the registry: every read task registered so far is bound
to a configuration with a metric, and `have_instance` is set only when a read
task has been registered. -/
def registry_ok (env : Env) (st : plugin_state) : Prop :=
  (∀ t, t ∈ st.reads → no_metric env.gen t.data = false)
  ∧ (st.have_instance = true → st.reads ≠ [])

/-! ## The header table of the source (lines 22-124) -/

/-- The column "Monitored" of the header comment of the source (lines 25-123):
`true` for a member marked Y, `false` for a member marked N. -/
def header_monitored : Field → Bool
  | Field.uptime => false
  | Field.client_conn => true
  | Field.client_drop => true
  | Field.client_req => true
  | Field.cache_hit => true
  | Field.cache_hitpass => true
  | Field.cache_miss => true
  | Field.backend_conn => true
  | Field.backend_unhealthy => true
  | Field.backend_busy => true
  | Field.backend_fail => true
  | Field.backend_reuse => true
  | Field.backend_toolate => true
  | Field.backend_recycle => true
  | Field.backend_unused => true
  | Field.fetch_head => true
  | Field.fetch_length => true
  | Field.fetch_chunked => true
  | Field.fetch_eof => true
  | Field.fetch_bad => true
  | Field.fetch_close => true
  | Field.fetch_oldhttp => true
  | Field.fetch_zero => true
  | Field.fetch_failed => true
  | Field.n_sess_mem => false
  | Field.n_sess => false
  | Field.n_object => false
  | Field.n_vampireobject => false
  | Field.n_objectcore => false
  | Field.n_objecthead => false
  | Field.n_smf => false
  | Field.n_smf_frag => false
  | Field.n_smf_large => false
  | Field.n_vbe_conn => false
  | Field.n_wrk => false
  | Field.n_wrk_create => false
  | Field.n_wrk_failed => false
  | Field.n_wrk_max => false
  | Field.n_wrk_queue => false
  | Field.n_wrk_overflow => false
  | Field.n_wrk_drop => false
  | Field.n_backend => false
  | Field.n_expired => false
  | Field.n_lru_nuked => false
  | Field.n_lru_saved => false
  | Field.n_lru_moved => false
  | Field.n_deathrow => false
  | Field.losthdr => false
  | Field.n_objsendfile => false
  | Field.n_objwrite => false
  | Field.n_objoverflow => false
  | Field.s_sess => false
  | Field.s_req => false
  | Field.s_pipe => false
  | Field.s_pass => false
  | Field.s_fetch => false
  | Field.s_hdrbytes => false
  | Field.s_bodybytes => false
  | Field.sess_closed => false
  | Field.sess_pipeline => false
  | Field.sess_readahead => false
  | Field.sess_linger => false
  | Field.sess_herd => false
  | Field.shm_records => true
  | Field.shm_writes => true
  | Field.shm_flushes => true
  | Field.shm_cont => true
  | Field.shm_cycles => true
  | Field.sm_nreq => true
  | Field.sm_nobj => true
  | Field.sm_balloc => true
  | Field.sm_bfree => true
  | Field.sma_nreq => true
  | Field.sma_nobj => true
  | Field.sma_nbytes => true
  | Field.sma_balloc => true
  | Field.sma_bfree => true
  | Field.sms_nreq => true
  | Field.sms_nobj => true
  | Field.sms_nbytes => true
  | Field.sms_balloc => true
  | Field.sms_bfree => true
  | Field.backend_req => false
  | Field.n_vcl => false
  | Field.n_vcl_avail => false
  | Field.n_vcl_discard => false
  | Field.n_purge => false
  | Field.n_purge_add => false
  | Field.n_purge_retire => false
  | Field.n_purge_obj_test => false
  | Field.n_purge_re_test => false
  | Field.n_purge_dups => false
  | Field.hcb_nolock => true
  | Field.hcb_lock => true
  | Field.hcb_insert => true
  | Field.esi_parse => true
  | Field.esi_errors => true

/-- A member of the counter block is read and submitted in a generation when
some line of the table of some category names it, that is, when
`varnish_monitor` passes it to `varnish_submit` under some selector. -/
def field_read (gen : Generation) (f : Field) : Bool :=
  Category.all.any (fun c => (category_table gen c).any (fun e => e.field = f))

/-! ## The collection cycle as a step on memory

A second embedding of lines 164-378, in state-passing style: every function
takes the memory it runs on and returns the memory it leaves. The memory holds
what outlives a call: the static `have_instance`, the configuration object the
user data of the task points to, and the records of the calls made to the
daemon and to the varnish API. Each member `conf->x` is read from the memory
as it stands where the statement is executed. The automatic variables of
`varnish_submit` (`values`, `vl`) do not outlive the call; the value list it
builds is the one of `varnish_submit`. -/

/-- The memory a collection cycle runs on: the static flag `have_instance`
(line 162), the configuration object registered for the task (the target of
`ud->data`), the value lists handed to `plugin_dispatch_values` so far and the
calls made into the varnish API so far, both in call order. -/
structure cycle_memory where
  have_instance : Bool
  conf : user_config_t
  dispatched : List value_list_t
  calls : List api_call
  deriving DecidableEq, Repr

/-- The argument `ud` of `varnish_read`: a NULL pointer, user data whose `data`
is NULL, or user data whose `data` points to the configuration object of the
memory. -/
inductive user_data_pointer where
  | null
  | null_data
  | valid
  deriving DecidableEq, Repr

/-- The call `plugin_dispatch_values (&vl)`: the daemon receives the value
list. -/
def plugin_dispatch_values (vl : value_list_t) (mem : cycle_memory) : cycle_memory :=
  { mem with dispatched := mem.dispatched ++ [vl] }

/-- A call into the varnish API: it is recorded. -/
def varnish_api (call : api_call) (mem : cycle_memory) : cycle_memory :=
  { mem with calls := mem.calls ++ [call] }

/-- The function `varnish_submit` (lines 164-186) as a step on memory: it fills
its local value list and hands it to `plugin_dispatch_values`. -/
def varnish_submit_mem (env : Env) (plugin_instance : Option String)
    (type type_instance : String) (value : gauge_t) (mem : cycle_memory) : cycle_memory :=
  plugin_dispatch_values (varnish_submit env plugin_instance type type_instance value) mem

/-- The block `if (conf->monitor_cache)` of `varnish_monitor`, as a
step on memory. -/
def varnish_monitor_cache (env : Env) (stats : c_varnish_stats_t) (mem : cycle_memory) :
    cycle_memory :=
  if mem.conf.monitor_cache then
    let mem := varnish_submit_mem env mem.conf.«instance» "derive" "cache_hit"
      (uint64_to_gauge (stats Field.cache_hit)) mem
    let mem := varnish_submit_mem env mem.conf.«instance» "derive" "cache_miss"
      (uint64_to_gauge (stats Field.cache_miss)) mem
    let mem := varnish_submit_mem env mem.conf.«instance» "derive" "cache_hitpass"
      (uint64_to_gauge (stats Field.cache_hitpass)) mem
    mem
  else
    mem

/-- The block `if (conf->monitor_connections)` of `varnish_monitor`, as a
step on memory. -/
def varnish_monitor_connections (env : Env) (stats : c_varnish_stats_t) (mem : cycle_memory) :
    cycle_memory :=
  if mem.conf.monitor_connections then
    let mem := varnish_submit_mem env mem.conf.«instance» "derive" "client_connections-accepted"
      (uint64_to_gauge (stats Field.client_conn)) mem
    let mem := varnish_submit_mem env mem.conf.«instance» "derive" "client_connections-dropped"
      (uint64_to_gauge (stats Field.client_drop)) mem
    let mem := varnish_submit_mem env mem.conf.«instance» "derive" "client_requests-received"
      (uint64_to_gauge (stats Field.client_req)) mem
    mem
  else
    mem

/-- The block `if (conf->monitor_esi)` of `varnish_monitor`, as a
step on memory. -/
def varnish_monitor_esi (env : Env) (stats : c_varnish_stats_t) (mem : cycle_memory) :
    cycle_memory :=
  if mem.conf.monitor_esi then
    let mem := varnish_submit_mem env mem.conf.«instance» "derive" "esi_errors"
      (uint64_to_gauge (stats Field.esi_errors)) mem
    if env.gen = Generation.V2 then
      let mem := varnish_submit_mem env mem.conf.«instance» "derive" "esi_parsed"
        (uint64_to_gauge (stats Field.esi_parse)) mem
      mem
    else
      mem
  else
    mem

/-- The block `if (conf->monitor_backend)` of `varnish_monitor`, as a
step on memory. -/
def varnish_monitor_backend (env : Env) (stats : c_varnish_stats_t) (mem : cycle_memory) :
    cycle_memory :=
  if mem.conf.monitor_backend then
    let mem := varnish_submit_mem env mem.conf.«instance» "derive" "backend_connections-success"
      (uint64_to_gauge (stats Field.backend_conn)) mem
    let mem := varnish_submit_mem env mem.conf.«instance» "derive" "backend_connections-not-attempted"
      (uint64_to_gauge (stats Field.backend_unhealthy)) mem
    let mem := varnish_submit_mem env mem.conf.«instance» "derive" "backend_connections-too-many"
      (uint64_to_gauge (stats Field.backend_busy)) mem
    let mem := varnish_submit_mem env mem.conf.«instance» "derive" "backend_connections-failures"
      (uint64_to_gauge (stats Field.backend_fail)) mem
    let mem := varnish_submit_mem env mem.conf.«instance» "derive" "backend_connections-reuses"
      (uint64_to_gauge (stats Field.backend_reuse)) mem
    let mem := varnish_submit_mem env mem.conf.«instance» "derive" "backend_connections-was-closed"
      (uint64_to_gauge (stats Field.backend_toolate)) mem
    let mem := varnish_submit_mem env mem.conf.«instance» "derive" "backend_connections-recycles"
      (uint64_to_gauge (stats Field.backend_recycle)) mem
    if env.gen = Generation.V2 then
      let mem := varnish_submit_mem env mem.conf.«instance» "derive" "backend_connections-unused"
        (uint64_to_gauge (stats Field.backend_unused)) mem
      mem
    else
      mem
  else
    mem

/-- The block `if (conf->monitor_fetch)` of `varnish_monitor`, as a
step on memory. -/
def varnish_monitor_fetch (env : Env) (stats : c_varnish_stats_t) (mem : cycle_memory) :
    cycle_memory :=
  if mem.conf.monitor_fetch then
    let mem := varnish_submit_mem env mem.conf.«instance» "derive" "fetch_head"
      (uint64_to_gauge (stats Field.fetch_head)) mem
    let mem := varnish_submit_mem env mem.conf.«instance» "derive" "fetch_length"
      (uint64_to_gauge (stats Field.fetch_length)) mem
    let mem := varnish_submit_mem env mem.conf.«instance» "derive" "fetch_chunked"
      (uint64_to_gauge (stats Field.fetch_chunked)) mem
    let mem := varnish_submit_mem env mem.conf.«instance» "derive" "fetch_eof"
      (uint64_to_gauge (stats Field.fetch_eof)) mem
    let mem := varnish_submit_mem env mem.conf.«instance» "derive" "fetch_bad-headers"
      (uint64_to_gauge (stats Field.fetch_bad)) mem
    let mem := varnish_submit_mem env mem.conf.«instance» "derive" "fetch_close"
      (uint64_to_gauge (stats Field.fetch_close)) mem
    let mem := varnish_submit_mem env mem.conf.«instance» "derive" "fetch_oldhttp"
      (uint64_to_gauge (stats Field.fetch_oldhttp)) mem
    let mem := varnish_submit_mem env mem.conf.«instance» "derive" "fetch_zero"
      (uint64_to_gauge (stats Field.fetch_zero)) mem
    let mem := varnish_submit_mem env mem.conf.«instance» "derive" "fetch_failed"
      (uint64_to_gauge (stats Field.fetch_failed)) mem
    mem
  else
    mem

/-- The block `if (conf->monitor_hcb)` of `varnish_monitor`, as a
step on memory. -/
def varnish_monitor_hcb (env : Env) (stats : c_varnish_stats_t) (mem : cycle_memory) :
    cycle_memory :=
  if mem.conf.monitor_hcb then
    let mem := varnish_submit_mem env mem.conf.«instance» "derive" "hcb_nolock"
      (uint64_to_gauge (stats Field.hcb_nolock)) mem
    let mem := varnish_submit_mem env mem.conf.«instance» "derive" "hcb_lock"
      (uint64_to_gauge (stats Field.hcb_lock)) mem
    let mem := varnish_submit_mem env mem.conf.«instance» "derive" "hcb_insert"
      (uint64_to_gauge (stats Field.hcb_insert)) mem
    mem
  else
    mem

/-- The block `if (conf->monitor_shm)` of `varnish_monitor`, as a
step on memory. -/
def varnish_monitor_shm (env : Env) (stats : c_varnish_stats_t) (mem : cycle_memory) :
    cycle_memory :=
  if mem.conf.monitor_shm then
    let mem := varnish_submit_mem env mem.conf.«instance» "derive" "shm_records"
      (uint64_to_gauge (stats Field.shm_records)) mem
    let mem := varnish_submit_mem env mem.conf.«instance» "derive" "shm_writes"
      (uint64_to_gauge (stats Field.shm_writes)) mem
    let mem := varnish_submit_mem env mem.conf.«instance» "derive" "shm_flushes"
      (uint64_to_gauge (stats Field.shm_flushes)) mem
    let mem := varnish_submit_mem env mem.conf.«instance» "derive" "shm_contention"
      (uint64_to_gauge (stats Field.shm_cont)) mem
    let mem := varnish_submit_mem env mem.conf.«instance» "derive" "shm_cycles"
      (uint64_to_gauge (stats Field.shm_cycles)) mem
    mem
  else
    mem

/-- The block `if (conf->monitor_sm)` of `varnish_monitor` (generation V2 only), as a
step on memory. -/
def varnish_monitor_sm (env : Env) (stats : c_varnish_stats_t) (mem : cycle_memory) :
    cycle_memory :=
  if env.gen = Generation.V2 ∧ mem.conf.monitor_sm then
    let mem := varnish_submit_mem env mem.conf.«instance» "derive" "sm_nreq"
      (uint64_to_gauge (stats Field.sm_nreq)) mem
    let mem := varnish_submit_mem env mem.conf.«instance» "derive" "sm_nobj"
      (uint64_to_gauge (stats Field.sm_nobj)) mem
    let mem := varnish_submit_mem env mem.conf.«instance» "gauge" "sm_balloc"
      (uint64_to_gauge (stats Field.sm_balloc)) mem
    let mem := varnish_submit_mem env mem.conf.«instance» "gauge" "sm_bfree"
      (uint64_to_gauge (stats Field.sm_bfree)) mem
    mem
  else
    mem

/-- The block `if (conf->monitor_sma)` of `varnish_monitor` (generation V2 only), as a
step on memory. -/
def varnish_monitor_sma (env : Env) (stats : c_varnish_stats_t) (mem : cycle_memory) :
    cycle_memory :=
  if env.gen = Generation.V2 ∧ mem.conf.monitor_sma then
    let mem := varnish_submit_mem env mem.conf.«instance» "derive" "sma_req"
      (uint64_to_gauge (stats Field.sma_nreq)) mem
    let mem := varnish_submit_mem env mem.conf.«instance» "derive" "sma_nobj"
      (uint64_to_gauge (stats Field.sma_nobj)) mem
    let mem := varnish_submit_mem env mem.conf.«instance» "gauge" "sma_nbytes"
      (uint64_to_gauge (stats Field.sma_nbytes)) mem
    let mem := varnish_submit_mem env mem.conf.«instance» "gauge" "sma_balloc"
      (uint64_to_gauge (stats Field.sma_balloc)) mem
    let mem := varnish_submit_mem env mem.conf.«instance» "gauge" "sma_bfree"
      (uint64_to_gauge (stats Field.sma_bfree)) mem
    mem
  else
    mem

/-- The block `if (conf->monitor_sms)` of `varnish_monitor`, as a
step on memory. -/
def varnish_monitor_sms (env : Env) (stats : c_varnish_stats_t) (mem : cycle_memory) :
    cycle_memory :=
  if mem.conf.monitor_sms then
    let mem := varnish_submit_mem env mem.conf.«instance» "derive" "sms_nreq"
      (uint64_to_gauge (stats Field.sms_nreq)) mem
    let mem := varnish_submit_mem env mem.conf.«instance» "derive" "sms_nobj"
      (uint64_to_gauge (stats Field.sms_nobj)) mem
    let mem := varnish_submit_mem env mem.conf.«instance» "gauge" "sms_nbytes"
      (uint64_to_gauge (stats Field.sms_nbytes)) mem
    let mem := varnish_submit_mem env mem.conf.«instance» "gauge" "sms_balloc"
      (uint64_to_gauge (stats Field.sms_balloc)) mem
    let mem := varnish_submit_mem env mem.conf.«instance» "gauge" "sms_bfree"
      (uint64_to_gauge (stats Field.sms_bfree)) mem
    mem
  else
    mem

/-- The block `if (conf->monitor_totals)` of `varnish_monitor`, as a
step on memory. -/
def varnish_monitor_totals (env : Env) (stats : c_varnish_stats_t) (mem : cycle_memory) :
    cycle_memory :=
  if mem.conf.monitor_totals then
    let mem := varnish_submit_mem env mem.conf.«instance» "derive" "sessions"
      (uint64_to_gauge (stats Field.s_sess)) mem
    let mem := varnish_submit_mem env mem.conf.«instance» "derive" "requests"
      (uint64_to_gauge (stats Field.s_req)) mem
    let mem := varnish_submit_mem env mem.conf.«instance» "derive" "pipe"
      (uint64_to_gauge (stats Field.s_pipe)) mem
    let mem := varnish_submit_mem env mem.conf.«instance» "derive" "pass"
      (uint64_to_gauge (stats Field.s_pass)) mem
    let mem := varnish_submit_mem env mem.conf.«instance» "derive" "fetches"
      (uint64_to_gauge (stats Field.s_fetch)) mem
    let mem := varnish_submit_mem env mem.conf.«instance» "derive" "header-bytes"
      (uint64_to_gauge (stats Field.s_hdrbytes)) mem
    let mem := varnish_submit_mem env mem.conf.«instance» "derive" "body-bytes"
      (uint64_to_gauge (stats Field.s_bodybytes)) mem
    mem
  else
    mem

/-- The block `if (conf->monitor_workers)` of `varnish_monitor`, as a
step on memory. -/
def varnish_monitor_workers (env : Env) (stats : c_varnish_stats_t) (mem : cycle_memory) :
    cycle_memory :=
  if mem.conf.monitor_workers then
    let mem := varnish_submit_mem env mem.conf.«instance» "gauge" "threads"
      (uint64_to_gauge (stats Field.n_wrk)) mem
    let mem := varnish_submit_mem env mem.conf.«instance» "derive" "threads_created"
      (uint64_to_gauge (stats Field.n_wrk_create)) mem
    let mem := varnish_submit_mem env mem.conf.«instance» "derive" "threads_failed"
      (uint64_to_gauge (stats Field.n_wrk_failed)) mem
    let mem := varnish_submit_mem env mem.conf.«instance» "derive" "threads_limited"
      (uint64_to_gauge (stats Field.n_wrk_max)) mem
    let mem := varnish_submit_mem env mem.conf.«instance» "derive" "requests_dropped"
      (uint64_to_gauge (stats Field.n_wrk_drop)) mem
    if env.gen = Generation.V2 then
      let mem := varnish_submit_mem env mem.conf.«instance» "derive" "requests_queued"
        (uint64_to_gauge (stats Field.n_wrk_queue)) mem
      let mem := varnish_submit_mem env mem.conf.«instance» "derive" "requests_overflowed"
        (uint64_to_gauge (stats Field.n_wrk_overflow)) mem
      mem
    else
      mem
  else
    mem

/-- The function `varnish_monitor` (lines 188-322) as a step on memory: its
twelve blocks, in the order of the source, each on the memory the block before
left. -/
def varnish_monitor_mem (env : Env) (stats : c_varnish_stats_t) (mem : cycle_memory) :
    cycle_memory :=
  let mem := varnish_monitor_cache env stats mem
  let mem := varnish_monitor_connections env stats mem
  let mem := varnish_monitor_esi env stats mem
  let mem := varnish_monitor_backend env stats mem
  let mem := varnish_monitor_fetch env stats mem
  let mem := varnish_monitor_hcb env stats mem
  let mem := varnish_monitor_shm env stats mem
  let mem := varnish_monitor_sm env stats mem
  let mem := varnish_monitor_sma env stats mem
  let mem := varnish_monitor_sms env stats mem
  let mem := varnish_monitor_totals env stats mem
  let mem := varnish_monitor_workers env stats mem
  mem

/-- The function `varnish_read` (lines 325-353 for generation V3, lines 356-377
for generation V2) as a step on memory: the status it returns and the memory
it leaves. `source` is what the varnish API finds on this cycle, as for
`varnish_read`. -/
def varnish_read_mem (env : Env) (ud : user_data_pointer)
    (source : Option c_varnish_stats_t) (mem : cycle_memory) : Int × cycle_memory :=
  match ud with
  -- if ((ud == NULL) || (ud->data == NULL)) return (EINVAL);
  | user_data_pointer.null => (EINVAL, mem)
  | user_data_pointer.null_data => (EINVAL, mem)
  | user_data_pointer.valid =>
    -- conf = ud->data;
    match env.gen with
    | Generation.V3 =>
      -- vd = VSM_New(); VSC_Setup(vd); if (VSC_Open (vd, 1)) return (-1);
      let mem := varnish_api api_call.VSM_New mem
      let mem := varnish_api api_call.VSC_Setup mem
      let mem := varnish_api api_call.VSC_Open mem
      match source with
      | none => (-1, mem)
      | some stats =>
        -- stats = VSC_Main(vd); varnish_monitor (conf, stats); VSM_Close (vd);
        let mem := varnish_api api_call.VSC_Main mem
        let mem := varnish_monitor_mem env stats mem
        let mem := varnish_api api_call.VSM_Close mem
        (0, mem)
    | Generation.V2 =>
      -- stats = VSL_OpenStats (conf->instance); if (stats == NULL) return (-1);
      let mem := varnish_api (api_call.VSL_OpenStats mem.conf.«instance») mem
      match source with
      | none => (-1, mem)
      | some stats => (0, varnish_monitor_mem env stats mem)

/-- The user data `varnish_read` receives for a pointer, in a memory: the
argument of the embedding `varnish_read`. -/
def user_data_pointer.deref (ud : user_data_pointer) (mem : cycle_memory) :
    Option user_data_t :=
  match ud with
  | user_data_pointer.null => none
  | user_data_pointer.null_data => some { data := none }
  | user_data_pointer.valid => some { data := some mem.conf }

/-- The cycles of one read task: at each tick the daemon calls `varnish_read`
with the user data registered for the task, on the memory the tick before
left; `sources` lists what the varnish API finds at each tick. The statuses,
in the order of the ticks, and the memory after the last tick. -/
def collection_cycles (env : Env) (ud : user_data_pointer) :
    List (Option c_varnish_stats_t) → cycle_memory → List Int × cycle_memory
  | [], mem => ([], mem)
  | source :: rest, mem =>
    ((varnish_read_mem env ud source mem).1
        :: (collection_cycles env ud rest (varnish_read_mem env ud source mem).2).1,
     (collection_cycles env ud rest (varnish_read_mem env ud source mem).2).2)

/-! # Theorems -/

/-! ## Instance configuration: lemmas -/

theorem EINVAL_ne_zero : EINVAL ≠ 0 := by decide

theorem malloc_have_instance (st : plugin_state) :
    (malloc st).2.have_instance = st.have_instance := by
  unfold malloc; split <;> rfl

theorem malloc_reads (st : plugin_state) : (malloc st).2.reads = st.reads := by
  unfold malloc; split <;> rfl

theorem malloc_of_nil (st : plugin_state) (h : st.mallocs = []) : malloc st = (true, st) := by
  unfold malloc; rw [h]

theorem cf_util_get_string_have_instance (ci : oconfig_item_t) (st : plugin_state) :
    (cf_util_get_string ci st).2.2.have_instance = st.have_instance := by
  unfold cf_util_get_string
  split
  · simp only []
    split <;> exact malloc_have_instance st
  · rfl

theorem cf_util_get_string_reads (ci : oconfig_item_t) (st : plugin_state) :
    (cf_util_get_string ci st).2.2.reads = st.reads := by
  unfold cf_util_get_string
  split
  · simp only []
    split <;> exact malloc_reads st
  · rfl

theorem options_cases (env : Env) (ci : oconfig_item_t) (conf : user_config_t)
    (st st0 : plugin_state) (hr : st.reads = st0.reads)
    (hh : st.have_instance = st0.have_instance) :
    rejected env st0 (varnish_config_instance_options env ci conf st)
    ∨ accepted env st0 (varnish_config_instance_options env ci conf st) := by
  unfold varnish_config_instance_options
  simp only []
  by_cases hn : no_metric env.gen (varnish_config_instance_children env.gen conf ci.children) = true
  · left
    simp [hn, rejected, hr, hh]
  · right
    simp [hn, accepted, hr]

/-- Every call of `varnish_config_instance` is either refused or, for a block
with at most one argument, goes through. -/
theorem config_instance_cases (env : Env) (ci : oconfig_item_t) (st : plugin_state) :
    rejected env st (varnish_config_instance env ci st)
    ∨ (ci.values_num ≤ 1 ∧ accepted env st (varnish_config_instance env ci st)) := by
  have h1 := malloc_reads st
  have h2 := malloc_have_instance st
  have h3 := cf_util_get_string_reads ci (malloc st).2
  have h4 := cf_util_get_string_have_instance ci (malloc st).2
  unfold varnish_config_instance
  simp only []
  by_cases hm : (malloc st).1 = true
  · simp only [hm, Bool.not_true, Bool.false_eq_true, if_false]
    by_cases hv : ci.values_num = 1
    · simp only [hv, if_true, le_refl, true_and]
      by_cases hs : (cf_util_get_string ci (malloc st).2).1 = 0
      · simp only [hs, ne_eq, not_true_eq_false, if_false]
        split <;> exact options_cases env ci _ _ st (h3.trans h1) (h4.trans h2)
      · left
        simp [hs, rejected, h1, h2, h3, h4]
    · simp only [hv, if_false]
      by_cases hv2 : ci.values_num > 1
      · left
        simp [hv2, rejected, h1, h2, conf_zero, no_metric]
      · simp only [hv2, if_false]
        rcases options_cases env ci conf_zero (malloc st).2 st h1 h2 with h | h
        · exact Or.inl h
        · exact Or.inr ⟨by omega, h⟩
  · left
    simp [hm, h1, h2, ENOMEM, rejected]

theorem options_conf (env : Env) (ci : oconfig_item_t) (conf : user_config_t)
    (st : plugin_state) :
    (varnish_config_instance_options env ci conf st).conf
      = some (varnish_config_instance_children env.gen conf ci.children) := by
  unfold varnish_config_instance_options
  simp only []
  split <;> rfl

/-- With every allocation succeeding, a block without argument or with one
string argument gets as far as its options: the configuration the call leaves
is the zeroed one, with the instance of the block, after the children. -/
theorem config_instance_conf (env : Env) (ci : oconfig_item_t) (st : plugin_state)
    (hm : st.mallocs = [])
    (hv : ci.values = [] ∨ ∃ s, ci.values = [oconfig_value_t.string s]) :
    (varnish_config_instance env ci st).conf
      = some (varnish_config_instance_children env.gen
          { conf_zero with «instance» := block_instance ci } ci.children) := by
  unfold varnish_config_instance
  rw [malloc_of_nil st hm]
  rcases hv with hv | ⟨s, hv⟩
  · simp [oconfig_item_t.values_num, hv, options_conf, block_instance]
    rfl
  · by_cases hl : s = "localhost"
    · simp [oconfig_item_t.values_num, hv, options_conf, block_instance, cf_util_get_string,
        malloc_of_nil st hm, hl, strcmp]
    · have hl2 : ¬ ("localhost" = s) := fun h => hl h.symm
      simp [oconfig_item_t.values_num, hv, options_conf, block_instance, cf_util_get_string,
        malloc_of_nil st hm, hl, hl2, strcmp]

theorem malloc_congr (st st0 : plugin_state) (h : st.mallocs = st0.mallocs) :
    (malloc st).1 = (malloc st0).1 ∧ (malloc st).2.mallocs = (malloc st0).2.mallocs := by
  unfold malloc
  rw [h]
  split <;> simp [h]

theorem cf_util_get_string_congr (ci : oconfig_item_t) (st st0 : plugin_state)
    (h : st.mallocs = st0.mallocs) :
    (cf_util_get_string ci st).1 = (cf_util_get_string ci st0).1
    ∧ (cf_util_get_string ci st).2.1 = (cf_util_get_string ci st0).2.1
    ∧ (cf_util_get_string ci st).2.2.mallocs = (cf_util_get_string ci st0).2.2.mallocs := by
  have hm := malloc_congr st st0 h
  unfold cf_util_get_string
  split
  · simp only []
    rw [← hm.1]
    split <;> simp [hm.2]
  · simp [h]

theorem options_congr (env : Env) (ci : oconfig_item_t) (conf : user_config_t)
    (st st0 : plugin_state) :
    (varnish_config_instance_options env ci conf st).status
        = (varnish_config_instance_options env ci conf st0).status
    ∧ (varnish_config_instance_options env ci conf st).conf
        = (varnish_config_instance_options env ci conf st0).conf
    ∧ ∃ new, (varnish_config_instance_options env ci conf st).state.reads = st.reads ++ new
        ∧ (varnish_config_instance_options env ci conf st0).state.reads = st0.reads ++ new := by
  unfold varnish_config_instance_options
  simp only []
  split
  · exact ⟨rfl, rfl, [], by simp, by simp⟩
  · exact ⟨rfl, rfl, _, rfl, rfl⟩

/-- The outcome of `varnish_config_instance` does not depend on what has been
registered before: two states with the same allocations ahead give the same
status, the same configuration and the same new read tasks. -/
theorem config_instance_congr (env : Env) (ci : oconfig_item_t) (st st0 : plugin_state)
    (h : st.mallocs = st0.mallocs) :
    (varnish_config_instance env ci st).status = (varnish_config_instance env ci st0).status
    ∧ (varnish_config_instance env ci st).conf = (varnish_config_instance env ci st0).conf
    ∧ ∃ new, (varnish_config_instance env ci st).state.reads = st.reads ++ new
        ∧ (varnish_config_instance env ci st0).state.reads = st0.reads ++ new := by
  have hm := malloc_congr st st0 h
  have hs := cf_util_get_string_congr ci _ _ hm.2
  have r1 := malloc_reads st
  have r2 := malloc_reads st0
  have r3 := cf_util_get_string_reads ci (malloc st).2
  have r4 := cf_util_get_string_reads ci (malloc st0).2
  unfold varnish_config_instance
  simp only []
  rw [← hm.1, ← hs.1, ← hs.2.1]
  by_cases hb : (malloc st).1 = true
  · simp only [hb, Bool.not_true, Bool.false_eq_true, if_false]
    by_cases hv : ci.values_num = 1
    · simp only [hv, if_true]
      by_cases hz : (cf_util_get_string ci (malloc st).2).1 = 0
      · simp only [hz, ne_eq, not_true_eq_false, if_false]
        split
        · have := options_congr env ci
            { conf_zero with «instance» := none }
            (cf_util_get_string ci (malloc st).2).2.2 (cf_util_get_string ci (malloc st0).2).2.2
          rw [r3, r4, r1, r2] at this
          exact this
        · have := options_congr env ci
            { conf_zero with «instance» := (cf_util_get_string ci (malloc st).2).2.1 }
            (cf_util_get_string ci (malloc st).2).2.2 (cf_util_get_string ci (malloc st0).2).2.2
          rw [r3, r4, r1, r2] at this
          exact this
      · simp only [hz, ne_eq, not_false_eq_true, if_true]
        exact ⟨trivial, trivial, [], by simp [r3, r1], by simp [r4, r2]⟩
    · simp only [hv, if_false]
      by_cases hv2 : ci.values_num > 1
      · simp only [hv2, if_true]
        exact ⟨trivial, trivial, [], by simp [r1], by simp [r2]⟩
      · simp only [hv2, if_false]
        have := options_congr env ci conf_zero (malloc st).2 (malloc st0).2
        rw [r1, r2] at this
        exact this
  · simp only [hb, Bool.not_false, if_true]
    exact ⟨trivial, trivial, [], by simp [r1], by simp [r2]⟩

theorem varnish_init_of_have_instance (st : plugin_state) (h : st.have_instance = true) :
    varnish_init st = (0, st) := by
  unfold varnish_init
  simp [h]

/-! ## C1: a block without any metric is refused -/

/-- C1: whatever the block and the state, when the configuration that
`varnish_config_instance` leaves has all its category flags false, the call
returns `EINVAL` (non-zero), registers no read task and leaves `have_instance`
as it was; so does a call that leaves no configuration at all (failed
allocation, unreadable argument), with a non-zero status. Conversely, for a
block with at most one argument, when the configuration left has a flag set,
the call returns 0 and registers exactly one read task, bound to that
configuration. For a block whose argument is absent or a string (allocations
succeeding), the configuration left is the zeroed one after the children of
the block. -/
theorem varnish_config_instance_no_metric_rejected (env : Env) (ci : oconfig_item_t)
    (st : plugin_state) :
    (∀ c, (varnish_config_instance env ci st).conf = some c → no_metric env.gen c = true →
        (varnish_config_instance env ci st).status = EINVAL
        ∧ (varnish_config_instance env ci st).status ≠ 0
        ∧ (varnish_config_instance env ci st).state.reads = st.reads
        ∧ (varnish_config_instance env ci st).state.have_instance = st.have_instance)
    ∧ ((varnish_config_instance env ci st).conf = none →
        (varnish_config_instance env ci st).status ≠ 0
        ∧ (varnish_config_instance env ci st).state.reads = st.reads
        ∧ (varnish_config_instance env ci st).state.have_instance = st.have_instance)
    ∧ (∀ c, ci.values_num ≤ 1 → (varnish_config_instance env ci st).conf = some c →
        no_metric env.gen c = false →
        (varnish_config_instance env ci st).status = 0
        ∧ (varnish_config_instance env ci st).state.reads
            = st.reads ++ [{ group := "varnish", name := callback_name env c, data := c }]
        ∧ ((varnish_config_instance env ci st).state.reads).length = st.reads.length + 1)
    ∧ (st.mallocs = [] → (ci.values = [] ∨ ∃ s, ci.values = [oconfig_value_t.string s]) →
        (varnish_config_instance env ci st).conf
          = some (varnish_config_instance_children env.gen
              { conf_zero with «instance» := block_instance ci } ci.children)) := by
  refine ⟨?_, ?_, ?_, config_instance_conf env ci st⟩
  · intro c hc hn
    rcases config_instance_cases env ci st with ⟨hr, hh, h | ⟨c0, h0, _, hs⟩⟩ | ⟨_, c0, h0, hn0, _⟩
    · rw [h.1] at hc; cases hc
    · exact ⟨hs, by rw [hs]; exact EINVAL_ne_zero, hr, hh⟩
    · rw [h0] at hc; cases hc; rw [hn] at hn0; cases hn0
  · intro hc
    rcases config_instance_cases env ci st with ⟨hr, hh, h | ⟨c0, h0, _⟩⟩ | ⟨_, c0, h0, _⟩
    · exact ⟨h.2, hr, hh⟩
    · rw [h0] at hc; cases hc
    · rw [h0] at hc; cases hc
  · intro c _ hc hn
    rcases config_instance_cases env ci st with ⟨_, _, h | ⟨c0, h0, hn0, _⟩⟩ | ⟨_, c0, h0, _, hs, hr, _⟩
    · rw [h.1] at hc; cases hc
    · rw [h0] at hc; cases hc; rw [hn] at hn0; cases hn0
    · rw [h0] at hc; cases hc
      exact ⟨hs, hr, by rw [hr]; simp⟩

/-- Witness for C1: in the current generation, the block `Instance "cache1"`
with the option `CollectCache false` is refused with `EINVAL`, and the same
block with `CollectCache true` returns 0 and registers one read task. -/
theorem varnish_config_instance_no_metric_rejected_witness :
    (varnish_config_instance env_v3
        (instance_block [oconfig_value_t.string "cache1"] [option_item "CollectCache" false])
        (plugin_state.initial [])).status = EINVAL
    ∧ (varnish_config_instance env_v3
        (instance_block [oconfig_value_t.string "cache1"] [option_item "CollectCache" true])
        (plugin_state.initial [])).status = 0 :=
  ⟨((varnish_config_instance_no_metric_rejected env_v3
        (instance_block [oconfig_value_t.string "cache1"] [option_item "CollectCache" false])
        (plugin_state.initial [])).1 _ rfl rfl).1,
   ((varnish_config_instance_no_metric_rejected env_v3
        (instance_block [oconfig_value_t.string "cache1"] [option_item "CollectCache" true])
        (plugin_state.initial [])).2.2.1 _ (by decide) rfl rfl).1⟩

/-! ## C2: a second block with the default identity -/

/-- C2, counterexample: after the block `Instance "localhost"` with
`CollectCache true` has been registered, the block `Instance` (no argument)
with `CollectFetch true` is not refused: `varnish_config_instance` returns 0
for it and registers a second read task; `varnish_config` followed by
`varnish_init` ends with two read tasks for the default identity, both named
"varnish/localhost". -/
theorem second_default_instance_registered :
    (varnish_config_instance env_v3
        (instance_block [oconfig_value_t.string "localhost"] [option_item "CollectCache" true])
        (plugin_state.initial [])).state.reads.length = 1
    ∧ (varnish_config_instance env_v3
        (instance_block [] [option_item "CollectFetch" true])
        (varnish_config_instance env_v3
          (instance_block [oconfig_value_t.string "localhost"] [option_item "CollectCache" true])
          (plugin_state.initial [])).state).status = 0
    ∧ (varnish_config_instance env_v3
        (instance_block [] [option_item "CollectFetch" true])
        (varnish_config_instance env_v3
          (instance_block [oconfig_value_t.string "localhost"] [option_item "CollectCache" true])
          (plugin_state.initial [])).state).state.reads.length = 2
    ∧ ((varnish_init (varnish_config env_v3
          (oconfig_item_t.mk "Plugin" []
            [instance_block [oconfig_value_t.string "localhost"] [option_item "CollectCache" true],
             instance_block [] [option_item "CollectFetch" true]])
          (plugin_state.initial [])).2).2.reads.map
        (fun t => (t.name, t.data.«instance»)))
      = [("varnish/localhost", none), ("varnish/localhost", none)] := by
  decide

/-- C2, as amended: `varnish_config_instance` never consults `have_instance` or
the read tasks registered so far. From two states with the same allocations
ahead it returns the same status, leaves the same configuration and registers
the same new tasks, so a later block with the default identity is treated
exactly as a first one. Only `varnish_init` consults `have_instance`: once a
call of `varnish_config_instance` has returned 0, `have_instance` is set and
`varnish_init` returns 0 without registering anything. -/
theorem varnish_config_instance_ignores_registrations (env : Env) (ci : oconfig_item_t)
    (st st0 : plugin_state) (h : st.mallocs = st0.mallocs) :
    (varnish_config_instance env ci st).status = (varnish_config_instance env ci st0).status
    ∧ (varnish_config_instance env ci st).conf = (varnish_config_instance env ci st0).conf
    ∧ (∃ new, (varnish_config_instance env ci st).state.reads = st.reads ++ new
        ∧ (varnish_config_instance env ci st0).state.reads = st0.reads ++ new)
    ∧ ((varnish_config_instance env ci st).status = 0 →
        (varnish_config_instance env ci st).state.have_instance = true
        ∧ varnish_init (varnish_config_instance env ci st).state
            = (0, (varnish_config_instance env ci st).state)) := by
  obtain ⟨h1, h2, h3⟩ := config_instance_congr env ci st st0 h
  refine ⟨h1, h2, h3, ?_⟩
  intro hs
  have hi : (varnish_config_instance env ci st).state.have_instance = true := by
    rcases config_instance_cases env ci st with ⟨_, _, h | ⟨c0, _, _, he⟩⟩ | ⟨_, c0, _, _, _, _, hh⟩
    · exact absurd hs h.2
    · rw [he] at hs; exact absurd hs EINVAL_ne_zero
    · exact hh
  exact ⟨hi, varnish_init_of_have_instance _ hi⟩

/-- Witness for C2 as amended: the block `Instance` with `CollectFetch true`
gets the same status from the initial state and from the state in which
`Instance "localhost"` has already been registered. -/
theorem varnish_config_instance_ignores_registrations_witness :
    (varnish_config_instance env_v3 (instance_block [] [option_item "CollectFetch" true])
        (plugin_state.initial [])).status
      = (varnish_config_instance env_v3 (instance_block [] [option_item "CollectFetch" true])
          (varnish_config_instance env_v3
            (instance_block [oconfig_value_t.string "localhost"]
              [option_item "CollectCache" true])
            (plugin_state.initial [])).state).status :=
  (varnish_config_instance_ignores_registrations env_v3
    (instance_block [] [option_item "CollectFetch" true]) (plugin_state.initial [])
    (varnish_config_instance env_v3
      (instance_block [oconfig_value_t.string "localhost"] [option_item "CollectCache" true])
      (plugin_state.initial [])).state rfl).1

/-! ## C3: how the children set the category flags -/

theorem strcasecmp_eq_zero (a b : String) : strcasecmp a b = 0 ↔ lower a = lower b := by
  unfold strcasecmp
  split <;> simp_all

/-- The configuration keys are pairwise different, also up to case. -/
theorem option_key_inj (c d : Category) (h : lower (option_key c) = lower (option_key d)) :
    c = d := by
  revert h
  cases c <;> cases d <;> decide

/-- A child whose key is the key of a category of the generation sets the flag
of that category, through `cf_util_get_boolean`, and nothing else. -/
theorem child_of_key (gen : Generation) (conf : user_config_t) (child : oconfig_item_t)
    (c : Category) (hc : category_exists gen c = true)
    (h : lower (option_key c) = lower child.key) :
    varnish_config_instance_child gen conf child
      = set_flag conf c (cf_util_get_boolean child (category_flag conf c)).2 := by
  simp only [varnish_config_instance_child, strcasecmp_eq_zero, ← h]
  cases gen <;> cases c <;> first | rfl | (exfalso; revert hc; decide)

/-- A child whose key is the key of no category of the generation changes
nothing. -/
theorem child_of_unknown (gen : Generation) (conf : user_config_t) (child : oconfig_item_t)
    (h : ∀ c, category_exists gen c = true → lower (option_key c) ≠ lower child.key) :
    varnish_config_instance_child gen conf child = conf := by
  have h1 := h Category.cache
  have h2 := h Category.connections
  have h3 := h Category.esi
  have h4 := h Category.backend
  have h5 := h Category.fetch
  have h6 := h Category.hcb
  have h7 := h Category.shm
  have h8 := h Category.sms
  have h9 := h Category.sma
  have h10 := h Category.sm
  have h11 := h Category.totals
  have h12 := h Category.workers
  simp only [option_key, category_exists] at h1 h2 h3 h4 h5 h6 h7 h8 h9 h10 h11 h12
  cases gen <;> simp_all [varnish_config_instance_child, strcasecmp_eq_zero]

theorem category_flag_set_flag (conf : user_config_t) (c d : Category) (b : Bool) :
    category_flag (set_flag conf c b) d = if d = c then b else category_flag conf d := by
  cases c <;> cases d <;> simp [set_flag, category_flag]

theorem instance_set_flag (conf : user_config_t) (c : Category) (b : Bool) :
    (set_flag conf c b).«instance» = conf.«instance» := by
  cases c <;> rfl

theorem names_category_iff (gen : Generation) (c : Category) (child : oconfig_item_t) :
    names_category gen c child = true
      ↔ category_exists gen c = true ∧ lower (option_key c) = lower child.key := by
  simp [names_category, strcasecmp_eq_zero]

/-- The flag of a category after one child: the boolean of the child when the
child names the category, the flag as it was otherwise. -/
theorem child_flag (gen : Generation) (conf : user_config_t) (child : oconfig_item_t)
    (c : Category) :
    category_flag (varnish_config_instance_child gen conf child) c
      = if names_category gen c child = true
        then (cf_util_get_boolean child (category_flag conf c)).2
        else category_flag conf c := by
  by_cases hk : ∃ d, category_exists gen d = true ∧ lower (option_key d) = lower child.key
  · obtain ⟨d, hd, hl⟩ := hk
    rw [child_of_key gen conf child d hd hl, category_flag_set_flag]
    by_cases hcd : c = d
    · subst hcd
      have : names_category gen c child = true := (names_category_iff gen c child).2 ⟨hd, hl⟩
      simp [this]
    · have : ¬ names_category gen c child = true := by
        intro hn
        exact hcd (option_key_inj c d (((names_category_iff gen c child).1 hn).2.trans hl.symm))
      simp [this, hcd]
  · have hu : ∀ d, category_exists gen d = true → lower (option_key d) ≠ lower child.key :=
      fun d hd hl => hk ⟨d, hd, hl⟩
    rw [child_of_unknown gen conf child hu]
    have : ¬ names_category gen c child = true := by
      intro hn
      exact hk ⟨c, (names_category_iff gen c child).1 hn⟩
    simp [this]

theorem child_instance (gen : Generation) (conf : user_config_t) (child : oconfig_item_t) :
    (varnish_config_instance_child gen conf child).«instance» = conf.«instance» := by
  by_cases hk : ∃ d, category_exists gen d = true ∧ lower (option_key d) = lower child.key
  · obtain ⟨d, hd, hl⟩ := hk
    rw [child_of_key gen conf child d hd hl, instance_set_flag]
  · rw [child_of_unknown gen conf child (fun d hd hl => hk ⟨d, hd, hl⟩)]

theorem children_instance (gen : Generation) (children : List oconfig_item_t)
    (conf : user_config_t) :
    (varnish_config_instance_children gen conf children).«instance» = conf.«instance» := by
  induction children generalizing conf with
  | nil => rfl
  | cons ch rest ih =>
    show (varnish_config_instance_children gen (varnish_config_instance_child gen conf ch)
      rest).«instance» = _
    rw [ih, child_instance]

theorem children_append (gen : Generation) (conf : user_config_t)
    (pre post : List oconfig_item_t) :
    varnish_config_instance_children gen conf (pre ++ post)
      = varnish_config_instance_children gen
          (varnish_config_instance_children gen conf pre) post := by
  simp [varnish_config_instance_children, List.foldl_append]

/-- Children that do not name a category leave its flag alone. -/
theorem children_flag_unnamed (gen : Generation) (c : Category)
    (children : List oconfig_item_t) (conf : user_config_t)
    (h : ∀ ch ∈ children, names_category gen c ch = false) :
    category_flag (varnish_config_instance_children gen conf children) c
      = category_flag conf c := by
  induction children generalizing conf with
  | nil => rfl
  | cons ch rest ih =>
    show category_flag (varnish_config_instance_children gen
      (varnish_config_instance_child gen conf ch) rest) c = _
    rw [ih _ (fun x hx => h x (List.mem_cons_of_mem _ hx)), child_flag]
    simp [h ch (List.mem_cons_self _ _)]

/-- The flag of a category is the boolean of the last child that names it. -/
theorem children_flag_named (gen : Generation) (c : Category) (conf : user_config_t)
    (pre post : List oconfig_item_t) (ch : oconfig_item_t) (b : Bool)
    (hn : names_category gen c ch = true) (hb : ch.values = [oconfig_value_t.boolean b])
    (hp : ∀ x ∈ post, names_category gen c x = false) :
    category_flag (varnish_config_instance_children gen conf (pre ++ ch :: post)) c = b := by
  rw [children_append]
  show category_flag (varnish_config_instance_children gen
    (varnish_config_instance_child gen (varnish_config_instance_children gen conf pre) ch)
    post) c = b
  rw [children_flag_unnamed gen c post _ hp, child_flag]
  simp [hn, cf_util_get_boolean, hb]

/-- C3, evaluated where it fails: the block `Instance "cache1"` without
children does not end with cache, backend, connections and shm enabled: every
flag of its configuration is false, and the block is refused with `EINVAL`,
nothing being registered. And in the block `Instance "cache1"` with the single
option `CollectESI true`, the categories cache, backend, connections and shm,
which no child names, end disabled. The default settings that `varnish_init`
applies (lines 404-409) are not applied by `varnish_config_instance`. -/
theorem instance_block_starts_without_metric :
    (varnish_config_instance env_v3 (instance_block [oconfig_value_t.string "cache1"] [])
        (plugin_state.initial [])).conf
      = some { conf_zero with «instance» := some "cache1" }
    ∧ (varnish_config_instance env_v3 (instance_block [oconfig_value_t.string "cache1"] [])
        (plugin_state.initial [])).status = EINVAL
    ∧ (varnish_config_instance env_v3 (instance_block [oconfig_value_t.string "cache1"] [])
        (plugin_state.initial [])).state.reads = []
    ∧ (varnish_config_instance env_v3
        (instance_block [oconfig_value_t.string "cache1"] [option_item "CollectESI" true])
        (plugin_state.initial [])).conf
      = some { conf_zero with «instance» := some "cache1", monitor_esi := true } := by
  decide

/-- How `varnish_config_instance` builds the category selector: for a block
whose argument is absent or a string (allocations succeeding), the selector
starts with every category off. A category that no child names stays off. A
category named by a child that carries one boolean, and by no later child,
ends with that boolean. The instance is the one the block asks for. A block
without children ends with no category enabled and is refused with `EINVAL`:
nothing is registered and `have_instance` is left as it was. -/
theorem varnish_config_instance_flags (env : Env) (ci : oconfig_item_t) (st : plugin_state)
    (c : Category) (hm : st.mallocs = [])
    (hv : ci.values = [] ∨ ∃ s, ci.values = [oconfig_value_t.string s]) :
    ∃ conf, (varnish_config_instance env ci st).conf = some conf
      ∧ conf.«instance» = block_instance ci
      ∧ ((∀ ch ∈ ci.children, names_category env.gen c ch = false) →
          category_flag conf c = false)
      ∧ (∀ pre ch post b, ci.children = pre ++ ch :: post →
          names_category env.gen c ch = true → ch.values = [oconfig_value_t.boolean b] →
          (∀ x ∈ post, names_category env.gen c x = false) →
          category_flag conf c = b)
      ∧ (ci.children = [] →
          no_metric env.gen conf = true
          ∧ (varnish_config_instance env ci st).status = EINVAL
          ∧ (varnish_config_instance env ci st).state.reads = st.reads
          ∧ (varnish_config_instance env ci st).state.have_instance = st.have_instance) := by
  have hconf := config_instance_conf env ci st hm hv
  refine ⟨_, hconf, ?_, ?_, ?_, ?_⟩
  · rw [children_instance]
  · intro h
    rw [children_flag_unnamed env.gen c ci.children _ h]
    cases c <;> rfl
  · intro pre ch post b hch hn hb hp
    rw [hch]
    exact children_flag_named env.gen c _ pre post ch b hn hb hp
  · intro hnil
    have hno : no_metric env.gen (varnish_config_instance_children env.gen
        { conf_zero with «instance» := block_instance ci } ci.children) = true := by
      rw [hnil]
      cases env.gen <;> rfl
    refine ⟨hno, ?_⟩
    rcases config_instance_cases env ci st with ⟨hr, hh, h | ⟨c0, h0, _, hs⟩⟩ | ⟨_, c0, h0, hn0, _⟩
    · rw [h.1] at hconf; cases hconf
    · exact ⟨hs, hr, hh⟩
    · rw [h0] at hconf
      cases hconf
      rw [hno] at hn0
      cases hn0

/-- An instance of `varnish_config_instance_flags`: in the legacy generation,
in the block `Instance "cache1"` with the options `collectsma true`,
`CollectCache true` and `CollectCache false`, the category cache ends with the
boolean of the last child that names it. -/
theorem varnish_config_instance_flags_witness :
    ∃ conf, (varnish_config_instance env_v2
        (instance_block [oconfig_value_t.string "cache1"]
          [option_item "collectsma" true, option_item "CollectCache" true,
           option_item "CollectCache" false])
        (plugin_state.initial [])).conf = some conf
      ∧ category_flag conf Category.cache = false
      ∧ category_flag conf Category.sma = true
      ∧ category_flag conf Category.shm = false := by
  obtain ⟨conf, h1, _, _, h4, _⟩ := varnish_config_instance_flags env_v2
    (instance_block [oconfig_value_t.string "cache1"]
      [option_item "collectsma" true, option_item "CollectCache" true,
       option_item "CollectCache" false])
    (plugin_state.initial []) Category.cache rfl (Or.inr ⟨"cache1", rfl⟩)
  refine ⟨conf, h1, ?_, ?_, ?_⟩
  · exact h4 [option_item "collectsma" true, option_item "CollectCache" true]
      (option_item "CollectCache" false) [] false rfl (by decide) rfl (by simp)
  · have h := h1
    rw [show (varnish_config_instance env_v2
        (instance_block [oconfig_value_t.string "cache1"]
          [option_item "collectsma" true, option_item "CollectCache" true,
           option_item "CollectCache" false])
        (plugin_state.initial [])).conf
        = some { conf_zero with «instance» := some "cache1", monitor_sma := true } from by
          decide] at h
    cases h
    rfl
  · have h := h1
    rw [show (varnish_config_instance env_v2
        (instance_block [oconfig_value_t.string "cache1"]
          [option_item "collectsma" true, option_item "CollectCache" true,
           option_item "CollectCache" false])
        (plugin_state.initial [])).conf
        = some { conf_zero with «instance» := some "cache1", monitor_sma := true } from by
          decide] at h
    cases h
    rfl

/-! ## The metric mapping: lemmas -/

theorem monitor_eq_emit (env : Env) (conf : user_config_t) (stats : c_varnish_stats_t) :
    varnish_monitor env conf stats = emit env conf stats := by
  obtain ⟨gen, n, h⟩ := env
  cases gen <;>
  simp [varnish_monitor, emit, Category.all, emit_category, category_enabled, category_table,
    category_common, category_legacy, observation]

theorem sstrncpy_of_lt (s : String) (n : Nat) (h : s.length < n) : sstrncpy s n = s := by
  unfold sstrncpy
  have : s.data.length ≤ n - 1 := by
    have : s.data.length = s.length := rfl
    omega
  rw [List.take_of_length_le this]

theorem table_name_length (gen : Generation) (c : Category) (e : table_entry)
    (h : e ∈ category_table gen c) : e.name.length ≤ 33 := by
  revert e
  cases gen <;> cases c <;> decide

theorem count_select {α β : Type} [DecidableEq β] (f : α → List β) (p : α → Bool)
    (cs : List α) (hnd : ((cs.map f).flatten).Nodup) (a : α) (ha : a ∈ cs) (x : β)
    (hx : x ∈ f a) :
    List.count x ((cs.map (fun a => if p a then f a else [])).flatten)
      = if p a then 1 else 0 := by
  induction cs with
  | nil => cases ha
  | cons b rest ih =>
    simp only [List.map_cons, List.flatten_cons, List.nodup_append, List.count_append] at hnd ⊢
    obtain ⟨hb, hrest, hdis⟩ := hnd
    have hsub : ∀ y, y ∈ ((rest.map (fun a => if p a then f a else [])).flatten) →
        y ∈ (rest.map f).flatten := by
      intro y hy
      simp only [List.mem_flatten, List.mem_map] at hy ⊢
      obtain ⟨l, ⟨a0, ha0, rfl⟩, hyl⟩ := hy
      split at hyl
      · exact ⟨f a0, ⟨a0, ha0, rfl⟩, hyl⟩
      · cases hyl
    by_cases hxb : x ∈ f b
    · have hnot : x ∉ (rest.map f).flatten := fun h => hdis hxb h
      have hab : p a = p b := by
        rcases List.mem_cons.1 ha with h | h
        · rw [h]
        · exact absurd (List.mem_flatten.2 ⟨f a, List.mem_map.2 ⟨a, h, rfl⟩, hx⟩) hnot
      have h0 : List.count x ((rest.map (fun a => if p a then f a else [])).flatten) = 0 :=
        List.count_eq_zero.2 (fun h => hnot (hsub x h))
      rw [h0, hab]
      cases p b
      · simp
      · simp [List.count_eq_one_of_mem hb hxb]
    · have har : a ∈ rest := by
        rcases List.mem_cons.1 ha with h | h
        · exact absurd (h ▸ hx) hxb
        · exact h
      have h0 : List.count x (if p b then f b else []) = 0 := by
        split
        · exact List.count_eq_zero.2 hxb
        · simp
      rw [h0, ih hrest har, Nat.zero_add]

theorem names_nodup (gen : Generation) :
    ((Category.all.map (fun c => (category_table gen c).map table_entry.name)).flatten).Nodup := by
  cases gen <;> decide

theorem observation_type_instance (env : Env) (conf : user_config_t) (stats : c_varnish_stats_t)
    (hN : 34 ≤ env.DATA_MAX_NAME_LEN) (c : Category) (e : table_entry)
    (he : e ∈ category_table env.gen c) :
    (observation env conf stats e).type_instance = e.name := by
  have := table_name_length env.gen c e he
  exact sstrncpy_of_lt _ _ (by omega)

theorem emit_category_names (env : Env) (conf : user_config_t) (stats : c_varnish_stats_t)
    (hN : 34 ≤ env.DATA_MAX_NAME_LEN) (c : Category) :
    (emit_category env conf stats c).map value_list_t.type_instance
      = if category_enabled env.gen conf c then (category_table env.gen c).map table_entry.name
        else [] := by
  unfold emit_category
  split
  · rw [List.map_map]
    exact List.map_congr_left (fun e he => observation_type_instance env conf stats hN c e he)
  · rfl

theorem monitor_names (env : Env) (conf : user_config_t) (stats : c_varnish_stats_t)
    (hN : 34 ≤ env.DATA_MAX_NAME_LEN) :
    (varnish_monitor env conf stats).map value_list_t.type_instance
      = (Category.all.map (fun c => if category_enabled env.gen conf c
          then (category_table env.gen c).map table_entry.name else [])).flatten := by
  rw [monitor_eq_emit, emit, List.map_flatten, List.map_map]
  congr 1
  exact List.map_congr_left (fun c _ => emit_category_names env conf stats hN c)

theorem mem_all (c : Category) : c ∈ Category.all := by
  cases c <;> decide

theorem mem_emit (env : Env) (conf : user_config_t) (stats : c_varnish_stats_t)
    (vl : value_list_t) :
    vl ∈ emit env conf stats ↔ ∃ c e, category_enabled env.gen conf c = true
      ∧ e ∈ category_table env.gen c ∧ vl = observation env conf stats e := by
  unfold emit
  simp only [List.mem_flatten, List.mem_map]
  constructor
  · rintro ⟨l, ⟨c, _, rfl⟩, hvl⟩
    unfold emit_category at hvl
    split at hvl
    · obtain ⟨e, he, rfl⟩ := List.mem_map.1 hvl
      exact ⟨c, e, by assumption, he, rfl⟩
    · cases hvl
  · rintro ⟨c, e, hc, he, rfl⟩
    refine ⟨_, ⟨c, mem_all c, rfl⟩, ?_⟩
    unfold emit_category
    rw [if_pos hc]
    exact List.mem_map.2 ⟨e, he, rfl⟩

theorem table_ne_nil (gen : Generation) (conf : user_config_t) (c : Category)
    (h : category_enabled gen conf c = true) : category_table gen c ≠ [] := by
  revert h
  cases gen <;> cases c <;> simp [category_enabled, category_table, category_common, category_legacy]

theorem monitor_count (env : Env) (conf : user_config_t) (stats : c_varnish_stats_t)
    (hN : 34 ≤ env.DATA_MAX_NAME_LEN) (c : Category) (e : table_entry)
    (he : e ∈ category_table env.gen c) :
    List.count e.name ((varnish_monitor env conf stats).map value_list_t.type_instance)
      = if category_enabled env.gen conf c then 1 else 0 := by
  rw [monitor_names env conf stats hN]
  exact count_select (fun c => (category_table env.gen c).map table_entry.name)
    (category_enabled env.gen conf) Category.all (names_nodup env.gen) c (mem_all c) e.name
    (List.mem_map.2 ⟨e, he, rfl⟩)

/-! ## C4: the observations match the enabled categories -/

theorem table_nodup (gen : Generation) :
    ((Category.all.map (category_table gen)).flatten).Nodup := by
  apply List.Nodup.of_map table_entry.name
  rw [List.map_flatten, List.map_map]
  exact names_nodup gen

theorem monitor_eq_selected (env : Env) (conf : user_config_t) (stats : c_varnish_stats_t) :
    varnish_monitor env conf stats
      = (table_selected env.gen conf).map (observation env conf stats) := by
  rw [monitor_eq_emit, emit, table_selected, List.map_flatten, List.map_map]
  congr 1
  apply List.map_congr_left
  intro c _
  simp only [Function.comp, emit_category]
  split <;> rfl

/-- C4: for a selector with at least one enabled category, whatever the
snapshot, the sequence submitted by `varnish_monitor` is not empty. It is the
sequence of the observations of the selected table lines, in which each line
of each category of the generation occurs exactly once when the category is
enabled and not at all when it is disabled; every observation submitted is the
observation of a table line of an enabled category. When the name buffers hold
the metric names (the longest has 33 characters), the same count holds for the
metric names in the submitted sequence. -/
theorem varnish_monitor_matches_enabled (env : Env) (conf : user_config_t)
    (stats : c_varnish_stats_t) (hen : ∃ c, category_enabled env.gen conf c = true) :
    varnish_monitor env conf stats ≠ []
    ∧ varnish_monitor env conf stats
        = (table_selected env.gen conf).map (observation env conf stats)
    ∧ (∀ c e, e ∈ category_table env.gen c →
        List.count e (table_selected env.gen conf)
          = if category_enabled env.gen conf c then 1 else 0)
    ∧ (34 ≤ env.DATA_MAX_NAME_LEN → ∀ c e, e ∈ category_table env.gen c →
        List.count e.name ((varnish_monitor env conf stats).map value_list_t.type_instance)
          = if category_enabled env.gen conf c then 1 else 0)
    ∧ (∀ vl, vl ∈ varnish_monitor env conf stats →
        ∃ c e, category_enabled env.gen conf c = true ∧ e ∈ category_table env.gen c
          ∧ vl = observation env conf stats e) := by
  refine ⟨?_, monitor_eq_selected env conf stats, ?_, ?_, ?_⟩
  · obtain ⟨c, hc⟩ := hen
    obtain ⟨e, he⟩ := List.exists_mem_of_ne_nil _ (table_ne_nil env.gen conf c hc)
    have : observation env conf stats e ∈ varnish_monitor env conf stats := by
      rw [monitor_eq_emit]
      exact (mem_emit env conf stats _).2 ⟨c, e, hc, he, rfl⟩
    exact List.ne_nil_of_mem this
  · intro c e he
    exact count_select (category_table env.gen) (category_enabled env.gen conf) Category.all
      (table_nodup env.gen) c (mem_all c) e he
  · intro hN c e he
    exact monitor_count env conf stats hN c e he
  · intro vl hvl
    rw [monitor_eq_emit] at hvl
    exact (mem_emit env conf stats vl).1 hvl

/-- Witness for C4: the legacy generation, the selector with only the category
sma enabled, the snapshot with every member at 7. -/
theorem varnish_monitor_matches_enabled_witness :
    varnish_monitor env_v2 { conf_zero with monitor_sma := true } (fun _ => 7) ≠ []
    ∧ List.count "sma_req"
        ((varnish_monitor env_v2 { conf_zero with monitor_sma := true } (fun _ => 7)).map
          value_list_t.type_instance) = 1
    ∧ List.count "cache_hit"
        ((varnish_monitor env_v2 { conf_zero with monitor_sma := true } (fun _ => 7)).map
          value_list_t.type_instance) = 0 :=
  ⟨(varnish_monitor_matches_enabled env_v2 { conf_zero with monitor_sma := true } (fun _ => 7)
      ⟨Category.sma, rfl⟩).1,
   (varnish_monitor_matches_enabled env_v2 { conf_zero with monitor_sma := true } (fun _ => 7)
      ⟨Category.sma, rfl⟩).2.2.2.1 (by decide) Category.sma
      ⟨Field.sma_nreq, "derive", "sma_req"⟩ (by decide),
   (varnish_monitor_matches_enabled env_v2 { conf_zero with monitor_sma := true } (fun _ => 7)
      ⟨Category.sma, rfl⟩).2.2.2.1 (by decide) Category.cache
      ⟨Field.cache_hit, "derive", "cache_hit"⟩ (by decide)⟩

/-! ## C5: the order of the observations -/

theorem sublist_flatten_map {α β : Type} (f g : α → List β) (cs : List α)
    (h : ∀ c ∈ cs, List.Sublist (f c) (g c)) :
    List.Sublist ((cs.map f).flatten) ((cs.map g).flatten) := by
  induction cs with
  | nil => exact List.Sublist.refl _
  | cons c rest ih =>
    simp only [List.map_cons, List.flatten_cons]
    exact List.Sublist.append (h c (List.mem_cons_self _ _))
      (ih (fun d hd => h d (List.mem_cons_of_mem _ hd)))

theorem enabled_conf_all (gen : Generation) (conf : user_config_t) (c : Category)
    (h : category_enabled gen conf c = true) :
    category_enabled gen (conf_all conf.«instance») c = true := by
  revert h
  cases gen <;> cases c <;> simp [category_enabled, conf_all]

/-- C5: whatever the selector and the snapshot, the sequence submitted by
`varnish_monitor` is the concatenation, over the categories in the order
cache, connections, esi, backend, fetch, hcb, shm, sm, sma, sms, totals,
workers, of the observations of the table lines of the category, in table
order, when the category is enabled, and of nothing when it is disabled. So
the sequence is a subsequence of the one submitted for the selector with every
category enabled, and the observations of a category depend on the selector
only through the instance and the flag of that category. -/
theorem varnish_monitor_order (env : Env) (conf : user_config_t) (stats : c_varnish_stats_t) :
    varnish_monitor env conf stats
      = ([Category.cache, Category.connections, Category.esi, Category.backend,
          Category.fetch, Category.hcb, Category.shm, Category.sm, Category.sma,
          Category.sms, Category.totals, Category.workers].map
          (fun c => if category_enabled env.gen conf c = true
            then (category_table env.gen c).map
              (fun e => varnish_submit env conf.«instance» e.type e.name
                (uint64_to_gauge (stats e.field)))
            else [])).flatten
    ∧ List.Sublist (varnish_monitor env conf stats)
        (varnish_monitor env (conf_all conf.«instance») stats)
    ∧ (∀ conf0 c, conf0.«instance» = conf.«instance» →
        category_enabled env.gen conf0 c = category_enabled env.gen conf c →
        emit_category env conf0 stats c = emit_category env conf stats c) := by
  refine ⟨monitor_eq_emit env conf stats, ?_, ?_⟩
  · rw [monitor_eq_emit, monitor_eq_emit]
    apply sublist_flatten_map
    intro c _
    unfold emit_category
    split
    · rename_i h
      rw [if_pos (enabled_conf_all env.gen conf c h)]
      exact List.Sublist.refl _
    · exact List.nil_sublist _
  · intro conf0 c hi he
    unfold emit_category observation
    rw [he, hi]

/-! ## C8: names and kinds do not depend on the snapshot -/

theorem shape_observation (env : Env) (conf : user_config_t) (s1 s2 : c_varnish_stats_t)
    (e : table_entry) :
    (observation env conf s1 e).shape = (observation env conf s2 e).shape := by
  by_cases h : strcasecmp "gauge" e.type = 0 <;>
    simp [observation, varnish_submit, value_list_t.shape, value_t.is_gauge, h]

/-- C8: for every selector and any two snapshots, `varnish_monitor` submits
sequences of the same length that agree, position by position, on host,
plugin, plugin instance, kind, metric name and on the member of the union the
value is stored in: only the numbers differ. -/
theorem varnish_monitor_shape_constant (env : Env) (conf : user_config_t) (s1 s2 : c_varnish_stats_t) :
    (varnish_monitor env conf s1).length = (varnish_monitor env conf s2).length
    ∧ (varnish_monitor env conf s1).map value_list_t.shape = (varnish_monitor env conf s2).map value_list_t.shape := by
  have h : (varnish_monitor env conf s1).map value_list_t.shape = (varnish_monitor env conf s2).map value_list_t.shape := by
    rw [monitor_eq_emit, monitor_eq_emit, emit, emit, List.map_flatten, List.map_flatten,
      List.map_map, List.map_map]
    congr 1
    apply List.map_congr_left
    intro c _
    simp only [Function.comp, emit_category]
    split
    · rw [List.map_map, List.map_map]
      exact List.map_congr_left (fun e _ => shape_observation env conf s1 s2 e)
    · rfl
  exact ⟨by simpa using congrArg List.length h, h⟩

/-! ## C9: the collection cycle -/

/-- C9: when the counter block cannot be opened, `varnish_read` submits nothing
and returns a non-zero status; when it can, `varnish_read` returns 0 and
submits exactly the sequence of `varnish_monitor` for the configuration and
the snapshot; without user data (a NULL pointer, or NULL data) it returns
`EINVAL` and submits nothing. -/
theorem varnish_read_outcome (env : Env) (conf : user_config_t) (stats : c_varnish_stats_t)
    (source : Option c_varnish_stats_t) :
    ((varnish_read env (some { data := some conf }) none).status ≠ 0
      ∧ (varnish_read env (some { data := some conf }) none).dispatched = [])
    ∧ ((varnish_read env (some { data := some conf }) (some stats)).status = 0
      ∧ (varnish_read env (some { data := some conf }) (some stats)).dispatched
          = varnish_monitor env conf stats)
    ∧ ((varnish_read env none source).status = EINVAL
      ∧ (varnish_read env none source).dispatched = [])
    ∧ ((varnish_read env (some { data := none }) source).status = EINVAL
      ∧ (varnish_read env (some { data := none }) source).dispatched = []) := by
  obtain ⟨gen, n, h⟩ := env
  cases gen <;> simp [varnish_read]

/-! ## Values and the `gauge_t` parameter: lemmas -/

theorem uint64_to_gauge_of_lt (v : Nat) (h : v < 2 ^ 53) : uint64_to_gauge v = v := by
  have h0 : lost_bits 11 v = 0 := by
    unfold lost_bits
    rw [if_pos h]
  simp [uint64_to_gauge, h0, Nat.mod_one]

theorem gauge_to_counter_of_lt (v : Nat) (h : v < 2 ^ 64) : gauge_to_counter v = v :=
  Nat.mod_eq_of_lt h

theorem exact_in_double_of_lt (v : Nat) (h : v < 2 ^ 53) : exact_in_double v :=
  ⟨lt_of_lt_of_le h (by norm_num), uint64_to_gauge_of_lt v h⟩

theorem snapshot_of_uint64 (l : List (Field × Nat)) (h : ∀ p ∈ l, p.2 < 2 ^ 64) :
    uint64_snapshot (snapshot_of l) := by
  intro f
  induction l with
  | nil => simp [snapshot_of, List.lookup]
  | cons p rest ih =>
    obtain ⟨a, v⟩ := p
    have hv : v < 2 ^ 64 := h (a, v) (List.mem_cons_self _ _)
    have hr := ih (fun q hq => h q (List.mem_cons_of_mem _ hq))
    unfold snapshot_of at hr ⊢
    simp only [List.lookup]
    split
    · exact hv
    · exact hr

/-! ## C6: the instance "cache1" with only the category cache -/

/-- C6, counterexample: the instance "cache1" with only the category cache
enabled, on the snapshot with cache_hit = 2^53 + 1, cache_miss = 5 and
cache_hitpass = 2: the value submitted for cache_hit is 2^53, not the value of
the member, which a double does not hold (whichever way the conversion
rounds). Every member of the snapshot is a `uint64_t` value. -/
theorem varnish_monitor_cache1_rounds :
    (varnish_monitor env_v3 { conf_zero with «instance» := some "cache1", monitor_cache := true }
        (snapshot_of [(Field.cache_hit, 9007199254740993), (Field.cache_miss, 5),
          (Field.cache_hitpass, 2)])).map (fun vl => (vl.type_instance, vl.type, vl.values))
      = [("cache_hit", "derive", [value_t.counter 9007199254740992]),
         ("cache_miss", "derive", [value_t.counter 5]),
         ("cache_hitpass", "derive", [value_t.counter 2])]
    ∧ snapshot_of [(Field.cache_hit, 9007199254740993), (Field.cache_miss, 5),
        (Field.cache_hitpass, 2)] Field.cache_hit = 9007199254740993
    ∧ uint64_snapshot (snapshot_of [(Field.cache_hit, 9007199254740993),
        (Field.cache_miss, 5), (Field.cache_hitpass, 2)]) :=
  ⟨by decide, by decide, snapshot_of_uint64 _ (by decide)⟩

/-- C6, as amended: for the instance "cache1" with only the category cache
enabled and every snapshot whose members cache_hit, cache_miss and
cache_hitpass hold values h, m and p that a double holds exactly (every value
below 2^53 is one), `varnish_monitor` submits exactly three value lists, in
this order: cache_hit, cache_miss, cache_hitpass, each of kind "derive" with
its value (h, m, p) in the counter member, plugin "varnish" and plugin
instance "cache1". The name buffers are taken to hold the names, the longest
of which has 13 characters. -/
theorem varnish_monitor_cache1 (env : Env) (stats : c_varnish_stats_t) (hN : 14 ≤ env.DATA_MAX_NAME_LEN)
    (hh : exact_in_double (stats Field.cache_hit))
    (hm : exact_in_double (stats Field.cache_miss))
    (hp : exact_in_double (stats Field.cache_hitpass)) :
    varnish_monitor env { conf_zero with «instance» := some "cache1", monitor_cache := true }
        stats
      = [ { values := [value_t.counter (stats Field.cache_hit)],
            host := sstrncpy env.hostname_g env.DATA_MAX_NAME_LEN,
            plugin := "varnish", plugin_instance := "cache1",
            type := "derive", type_instance := "cache_hit" },
          { values := [value_t.counter (stats Field.cache_miss)],
            host := sstrncpy env.hostname_g env.DATA_MAX_NAME_LEN,
            plugin := "varnish", plugin_instance := "cache1",
            type := "derive", type_instance := "cache_miss" },
          { values := [value_t.counter (stats Field.cache_hitpass)],
            host := sstrncpy env.hostname_g env.DATA_MAX_NAME_LEN,
            plugin := "varnish", plugin_instance := "cache1",
            type := "derive", type_instance := "cache_hitpass" } ] := by
  have e1 : sstrncpy "varnish" env.DATA_MAX_NAME_LEN = "varnish" :=
    sstrncpy_of_lt _ _ (by have : "varnish".length = 7 := by decide
                           omega)
  have e2 : sstrncpy "cache1" env.DATA_MAX_NAME_LEN = "cache1" :=
    sstrncpy_of_lt _ _ (by have : "cache1".length = 6 := by decide
                           omega)
  have e3 : sstrncpy "derive" env.DATA_MAX_NAME_LEN = "derive" :=
    sstrncpy_of_lt _ _ (by have : "derive".length = 6 := by decide
                           omega)
  have e4 : sstrncpy "cache_hit" env.DATA_MAX_NAME_LEN = "cache_hit" :=
    sstrncpy_of_lt _ _ (by have : "cache_hit".length = 9 := by decide
                           omega)
  have e5 : sstrncpy "cache_miss" env.DATA_MAX_NAME_LEN = "cache_miss" :=
    sstrncpy_of_lt _ _ (by have : "cache_miss".length = 10 := by decide
                           omega)
  have e6 : sstrncpy "cache_hitpass" env.DATA_MAX_NAME_LEN = "cache_hitpass" :=
    sstrncpy_of_lt _ _ (by have : "cache_hitpass".length = 13 := by decide
                           omega)
  have hd : ¬ (strcasecmp "gauge" "derive" = 0) := by decide
  have g1 := gauge_to_counter_of_lt _ hh.1
  have g2 := gauge_to_counter_of_lt _ hm.1
  have g3 := gauge_to_counter_of_lt _ hp.1
  simp only [varnish_monitor, conf_zero, varnish_submit, hd, if_false, e1, e2, e3, e4, e5, e6,
    hh.2, hm.2, hp.2, g1, g2, g3]
  simp

/-- Witness for C6 as amended: the snapshot of the specification, with
cache_hit = 100, cache_miss = 5 and cache_hitpass = 2, in the current
generation. -/
theorem varnish_monitor_cache1_witness :
    (varnish_monitor env_v3 { conf_zero with «instance» := some "cache1", monitor_cache := true }
        (snapshot_of [(Field.cache_hit, 100), (Field.cache_miss, 5), (Field.cache_hitpass, 2)])).map
        (fun vl => (vl.type_instance, vl.type, vl.values, vl.plugin, vl.plugin_instance))
      = [("cache_hit", "derive", [value_t.counter 100], "varnish", "cache1"),
         ("cache_miss", "derive", [value_t.counter 5], "varnish", "cache1"),
         ("cache_hitpass", "derive", [value_t.counter 2], "varnish", "cache1")] := by
  rw [varnish_monitor_cache1 env_v3
    (snapshot_of [(Field.cache_hit, 100), (Field.cache_miss, 5), (Field.cache_hitpass, 2)])
    (by decide) (exact_in_double_of_lt _ (by decide)) (exact_in_double_of_lt _ (by decide))
    (exact_in_double_of_lt _ (by decide))]
  rfl

/-! ## C7: metrics of one generation only -/

theorem no_legacy_prefix (c : Category) (e : table_entry) (he : e ∈ category_common c)
    (l : String)
    (hl : l ∈ ["esi_parsed", "backend_connections-unused", "sm_nreq", "sm_nobj", "sm_balloc",
      "sm_bfree", "sma_req", "sma_nobj", "sma_nbytes", "sma_balloc", "sma_bfree",
      "requests_queued", "requests_overflowed"]) :
    ¬ (l.data <+: e.name.data) := by
  revert l e
  cases c <;> decide

theorem legacy_mem_table (c : Category) (e : table_entry) (he : e ∈ category_legacy c) :
    e ∈ category_table Generation.V2 c :=
  List.mem_append_right _ he

theorem mem_of_count_pos {α : Type} [DecidableEq α] (x : α) (l : List α) :
    x ∈ l ↔ List.count x l ≠ 0 := by
  rw [Ne, List.count_eq_zero, not_not]

/-- C7: in the current generation (V3), whatever the selector, the snapshot and
the size of the name buffers, no observation named esi_parsed,
backend_connections-unused, sm_nreq, sm_nobj, sm_balloc, sm_bfree, sma_req,
sma_nobj, sma_nbytes, sma_balloc, sma_bfree, requests_queued or
requests_overflowed is submitted, and the category workers yields exactly
threads, threads_created, threads_failed, threads_limited and
requests_dropped. In the legacy generation (V2) each of the thirteen names is
submitted exactly when the flag of its category is set. Where names are
compared with what is submitted, the name buffers are taken to hold the metric
names, the longest of which has 33 characters. -/
theorem varnish_monitor_generation_exclusive (env : Env) (conf : user_config_t) (stats : c_varnish_stats_t) :
    (env.gen = Generation.V3 →
      ∀ vl, vl ∈ varnish_monitor env conf stats →
        vl.type_instance ∉ ["esi_parsed", "backend_connections-unused", "sm_nreq", "sm_nobj",
          "sm_balloc", "sm_bfree", "sma_req", "sma_nobj", "sma_nbytes", "sma_balloc",
          "sma_bfree", "requests_queued", "requests_overflowed"])
    ∧ (env.gen = Generation.V3 → 34 ≤ env.DATA_MAX_NAME_LEN →
        (varnish_monitor env { conf_zero with monitor_workers := true, «instance» := conf.«instance» } stats).map value_list_t.type_instance
          = ["threads", "threads_created", "threads_failed", "threads_limited",
             "requests_dropped"])
    ∧ (env.gen = Generation.V2 → 34 ≤ env.DATA_MAX_NAME_LEN →
        ∀ c name, (c, name) ∈ [(Category.esi, "esi_parsed"),
            (Category.backend, "backend_connections-unused"),
            (Category.sm, "sm_nreq"), (Category.sm, "sm_nobj"), (Category.sm, "sm_balloc"),
            (Category.sm, "sm_bfree"), (Category.sma, "sma_req"), (Category.sma, "sma_nobj"),
            (Category.sma, "sma_nbytes"), (Category.sma, "sma_balloc"),
            (Category.sma, "sma_bfree"), (Category.workers, "requests_queued"),
            (Category.workers, "requests_overflowed")] →
          (name ∈ (varnish_monitor env conf stats).map value_list_t.type_instance
            ↔ category_flag conf c = true)) := by
  refine ⟨?_, ?_, ?_⟩
  · intro hg vl hvl hmem
    rw [monitor_eq_emit] at hvl
    obtain ⟨c, e, _, he, rfl⟩ := (mem_emit env conf stats vl).1 hvl
    rw [hg] at he
    apply no_legacy_prefix c e he _ hmem
    show (sstrncpy e.name env.DATA_MAX_NAME_LEN).data <+: e.name.data
    exact List.take_prefix _ _
  · intro hg hN
    rw [monitor_names env _ stats hN, hg]
    rfl
  · intro hg hN c name hmem
    have key := (by decide : ∀ p ∈ [(Category.esi, "esi_parsed"),
        (Category.backend, "backend_connections-unused"),
        (Category.sm, "sm_nreq"), (Category.sm, "sm_nobj"), (Category.sm, "sm_balloc"),
        (Category.sm, "sm_bfree"), (Category.sma, "sma_req"), (Category.sma, "sma_nobj"),
        (Category.sma, "sma_nbytes"), (Category.sma, "sma_balloc"),
        (Category.sma, "sma_bfree"), (Category.workers, "requests_queued"),
        (Category.workers, "requests_overflowed")],
        ∃ e ∈ category_legacy p.1, e.name = p.2) (c, name) hmem
    obtain ⟨e, he, rfl⟩ := key
    have het : e ∈ category_table env.gen c := by
      rw [hg]
      exact legacy_mem_table c e he
    have hcnt := monitor_count env conf stats hN c e het
    have hen : category_enabled env.gen conf c = category_flag conf c := by
      rw [hg]
      cases c <;> simp [category_enabled, category_flag]
    rw [mem_of_count_pos, hcnt, hen]
    cases category_flag conf c <;> simp
/-- Witness for C7: in the current generation with every category enabled, no
observation is named sma_req; in the legacy generation with only the category
workers enabled, requests_queued is submitted and sm_nreq is not. -/
theorem varnish_monitor_generation_exclusive_witness :
    (∀ vl, vl ∈ varnish_monitor env_v3 (conf_all none) (fun _ => 1) →
      vl.type_instance ≠ "sma_req")
    ∧ "requests_queued" ∈ (varnish_monitor env_v2 { conf_zero with monitor_workers := true }
        (fun _ => 1)).map value_list_t.type_instance
    ∧ "sm_nreq" ∉ (varnish_monitor env_v2 { conf_zero with monitor_workers := true }
        (fun _ => 1)).map value_list_t.type_instance :=
  ⟨fun vl hvl heq =>
      (varnish_monitor_generation_exclusive env_v3 (conf_all none) (fun _ => 1)).1 rfl vl hvl
        (by rw [heq]; decide),
   ((varnish_monitor_generation_exclusive env_v2 { conf_zero with monitor_workers := true }
      (fun _ => 1)).2.2 rfl (by decide) Category.workers "requests_queued" (by decide)).2 rfl,
   fun hmem => Bool.false_ne_true
     (((varnish_monitor_generation_exclusive env_v2 { conf_zero with monitor_workers := true }
      (fun _ => 1)).2.2 rfl (by decide) Category.sm "sm_nreq" (by decide)).1 hmem)⟩

/-! ## C10: values are forwarded as far as a double holds them -/

/-- C10, counterexample: in the current generation with the categories totals
and sms enabled, on the snapshot with s_sess = 2^60 + 1 and sms_nbytes =
2^53 + 1, the observation sessions carries 2^60 in its counter member and the
observation sms_nbytes carries 2^53 in its gauge member: neither is the value
of its member, which a double does not hold (whichever way the conversion
rounds). Every member of the snapshot is a `uint64_t` value. -/
theorem varnish_submit_rounds_large_values :
    snapshot_of [(Field.s_sess, 1152921504606846977), (Field.sms_nbytes, 9007199254740993)]
        Field.s_sess = 1152921504606846977
    ∧ ((varnish_monitor env_v3 { conf_zero with monitor_totals := true, monitor_sms := true }
          (snapshot_of [(Field.s_sess, 1152921504606846977),
            (Field.sms_nbytes, 9007199254740993)])).filter
        (fun vl => vl.type_instance = "sessions")).map value_list_t.values
      = [[value_t.counter 1152921504606846976]]
    ∧ snapshot_of [(Field.s_sess, 1152921504606846977), (Field.sms_nbytes, 9007199254740993)]
        Field.sms_nbytes = 9007199254740993
    ∧ ((varnish_monitor env_v3 { conf_zero with monitor_totals := true, monitor_sms := true }
          (snapshot_of [(Field.s_sess, 1152921504606846977),
            (Field.sms_nbytes, 9007199254740993)])).filter
        (fun vl => vl.type_instance = "sms_nbytes")).map value_list_t.values
      = [[value_t.gauge 9007199254740992]]
    ∧ uint64_snapshot (snapshot_of [(Field.s_sess, 1152921504606846977),
        (Field.sms_nbytes, 9007199254740993)]) :=
  ⟨by decide, by decide, by decide, by decide, snapshot_of_uint64 _ (by decide)⟩

theorem observation_values (env : Env) (conf : user_config_t) (stats : c_varnish_stats_t)
    (e : table_entry) (h : exact_in_double (stats e.field)) :
    (observation env conf stats e).values = [stored_verbatim e.type (stats e.field)] := by
  unfold observation varnish_submit stored_verbatim
  simp only []
  rw [h.2, gauge_to_counter_of_lt _ h.1]
  split <;> rfl

theorem mem_table_selected (gen : Generation) (conf : user_config_t) (c : Category)
    (e : table_entry) (hc : category_enabled gen conf c = true) (he : e ∈ category_table gen c) :
    e ∈ table_selected gen conf := by
  unfold table_selected
  simp only [List.mem_flatten, List.mem_map]
  exact ⟨category_table gen c, ⟨c, mem_all c, by rw [if_pos hc]⟩, he⟩

/-- C10, as amended: values are forwarded verbatim as far as a double holds
them. When the members read for the enabled categories hold values that a
double holds exactly, the values submitted by `varnish_monitor` are, in order,
the values of the members of the selected table lines, each stored unchanged
in the gauge member (kind "gauge") or in the counter member (any other kind).
Every value below 2^53 is held exactly. In the table, shm_contention carries
shm_cont, threads_limited carries n_wrk_max and sessions carries s_sess. -/
theorem varnish_monitor_values_verbatim (env : Env) (conf : user_config_t) (stats : c_varnish_stats_t)
    (h : ∀ e, e ∈ table_selected env.gen conf → exact_in_double (stats e.field)) :
    (varnish_monitor env conf stats).map value_list_t.values
        = (table_selected env.gen conf).map (fun e => [stored_verbatim e.type (stats e.field)])
    ∧ (∀ v, v < 2 ^ 53 → exact_in_double v)
    ∧ { field := Field.shm_cont, type := "derive", name := "shm_contention" }
        ∈ category_table env.gen Category.shm
    ∧ { field := Field.n_wrk_max, type := "derive", name := "threads_limited" }
        ∈ category_table env.gen Category.workers
    ∧ { field := Field.s_sess, type := "derive", name := "sessions" }
        ∈ category_table env.gen Category.totals := by
  refine ⟨?_, exact_in_double_of_lt, ?_, ?_, ?_⟩
  · rw [monitor_eq_emit, emit, table_selected, List.map_flatten, List.map_flatten,
      List.map_map, List.map_map]
    congr 1
    apply List.map_congr_left
    intro c _
    simp only [Function.comp, emit_category]
    split
    · rename_i hc
      rw [List.map_map]
      apply List.map_congr_left
      intro e he
      exact observation_values env conf stats e
        (h e (mem_table_selected env.gen conf c e hc he))
    · rfl
  · cases env.gen <;> decide
  · cases env.gen <;> decide
  · cases env.gen <;> decide
/-- Witness for C10 as amended: the legacy generation with the categories shm
and sma enabled, on a snapshot with shm_cont = 41 and sma_nbytes = 2^52. -/
theorem varnish_monitor_values_verbatim_witness :
    (varnish_monitor env_v2 { conf_zero with monitor_shm := true, monitor_sma := true }
        (snapshot_of [(Field.shm_cont, 41), (Field.sma_nbytes, 4503599627370496)])).map
        value_list_t.values
      = [[value_t.counter 0], [value_t.counter 0], [value_t.counter 0], [value_t.counter 41],
         [value_t.counter 0], [value_t.counter 0], [value_t.counter 0],
         [value_t.gauge 4503599627370496], [value_t.gauge 0], [value_t.gauge 0]] := by
  rw [(varnish_monitor_values_verbatim env_v2
    { conf_zero with monitor_shm := true, monitor_sma := true }
    (snapshot_of [(Field.shm_cont, 41), (Field.sma_nbytes, 4503599627370496)])
    (fun e he => exact_in_double_of_lt _ (by
      revert e
      decide))).1]
  decide

/-! ## C11: unknown keys are ignored -/

theorem recognised_false (gen : Generation) (child : oconfig_item_t)
    (h : recognised gen child = false) (c : Category) : names_category gen c child = false := by
  unfold recognised at h
  rw [List.any_eq_false] at h
  have := h c (mem_all c)
  simpa using this

theorem child_of_unrecognised (gen : Generation) (conf : user_config_t)
    (child : oconfig_item_t) (h : ∀ c, names_category gen c child = false) :
    varnish_config_instance_child gen conf child = conf := by
  apply child_of_unknown
  intro c hc hl
  have := h c
  rw [(names_category_iff gen c child).2 ⟨hc, hl⟩] at this
  cases this

theorem children_filter (gen : Generation) (p : oconfig_item_t → Bool)
    (children : List oconfig_item_t) (conf : user_config_t)
    (hp : ∀ ch ∈ children, p ch = false → ∀ c, names_category gen c ch = false) :
    varnish_config_instance_children gen conf (children.filter p)
      = varnish_config_instance_children gen conf children := by
  induction children generalizing conf with
  | nil => rfl
  | cons ch rest ih =>
    have hrest : ∀ x ∈ rest, p x = false → ∀ c, names_category gen c x = false :=
      fun x hx => hp x (List.mem_cons_of_mem _ hx)
    cases hpc : p ch
    · rw [List.filter_cons_of_neg (by simp [hpc]), ih conf hrest]
      show _ = varnish_config_instance_children gen (varnish_config_instance_child gen conf ch)
        rest
      rw [child_of_unrecognised gen conf ch (hp ch (List.mem_cons_self _ _) hpc)]
    · rw [List.filter_cons_of_pos (by simp [hpc])]
      show varnish_config_instance_children gen (varnish_config_instance_child gen conf ch)
        (rest.filter p) = varnish_config_instance_children gen
          (varnish_config_instance_child gen conf ch) rest
      exact ih _ hrest

theorem config_instance_with_children (env : Env) (ci : oconfig_item_t)
    (children : List oconfig_item_t) (st : plugin_state)
    (h : ∀ conf, varnish_config_instance_children env.gen conf children
      = varnish_config_instance_children env.gen conf ci.children) :
    varnish_config_instance env (ci.with_children children) st
      = varnish_config_instance env ci st := by
  obtain ⟨k, v, ch⟩ := ci
  simp only [oconfig_item_t.children] at h
  simp only [varnish_config_instance, varnish_config_instance_options,
    oconfig_item_t.with_children, oconfig_item_t.values_num, oconfig_item_t.values,
    oconfig_item_t.children, oconfig_item_t.key, cf_util_get_string, h]

theorem varnish_config_filter (env : Env) (children : List oconfig_item_t)
    (st : plugin_state) :
    (children.filter is_instance_key).foldl (varnish_config_child env) st
      = children.foldl (varnish_config_child env) st := by
  induction children generalizing st with
  | nil => rfl
  | cons ch rest ih =>
    cases hpc : is_instance_key ch
    · rw [List.filter_cons_of_neg (by simp [hpc]), ih]
      have : varnish_config_child env st ch = st := by
        unfold varnish_config_child
        unfold is_instance_key at hpc
        rw [if_neg (by simpa using hpc)]
      simp [List.foldl_cons, this]
    · rw [List.filter_cons_of_pos (by simp [hpc])]
      simp only [List.foldl_cons]
      exact ih _

/-- C11: unknown keys are ignored and never fatal. Deleting from an Instance
block the children whose key is not a recognised option of the generation
(or not one of the twelve `Collect` keys at all), compared without regard to
case, leaves the whole outcome of `varnish_config_instance` as it was: the
status, the configuration with its instance and flags, and the state with the
registered task and its name. `varnish_config` returns 0 for every
configuration, and deleting the children of the plugin block that are not
Instance blocks leaves its outcome as it was. -/
theorem unknown_keys_ignored (env : Env) (ci : oconfig_item_t) (st : plugin_state) :
    varnish_config_instance env (ci.with_children (ci.children.filter (recognised env.gen))) st
      = varnish_config_instance env ci st
    ∧ varnish_config_instance env
        (ci.with_children (ci.children.filter (recognised Generation.V2))) st
      = varnish_config_instance env ci st
    ∧ (varnish_config env ci st).1 = 0
    ∧ varnish_config env (ci.with_children (ci.children.filter is_instance_key)) st
      = varnish_config env ci st := by
  refine ⟨?_, ?_, rfl, ?_⟩
  · apply config_instance_with_children
    intro conf
    exact children_filter env.gen _ _ conf (fun ch _ h => recognised_false env.gen ch h)
  · apply config_instance_with_children
    intro conf
    apply children_filter
    intro ch _ h c
    have h2 := recognised_false Generation.V2 ch h c
    cases hn : names_category env.gen c ch
    · rfl
    · have := (names_category_iff env.gen c ch).1 hn
      have h3 : names_category Generation.V2 c ch = true :=
        (names_category_iff Generation.V2 c ch).2 ⟨by simp [category_exists], this.2⟩
      rw [h3] at h2
      cases h2
  · obtain ⟨k, v, ch⟩ := ci
    simp only [varnish_config, oconfig_item_t.with_children, oconfig_item_t.children]
    rw [varnish_config_filter]

/-! ## C12: the identity of an instance and the plugin instance -/

theorem options_instance (env : Env) (ci : oconfig_item_t) (conf c : user_config_t)
    (st : plugin_state) (h : (varnish_config_instance_options env ci conf st).conf = some c) :
    c.«instance» = conf.«instance» := by
  rw [options_conf] at h
  cases h
  exact children_instance _ _ _

/-- The instance of the configuration a call leaves is the one the block asks
for. -/
theorem config_instance_instance (env : Env) (ci : oconfig_item_t) (st : plugin_state)
    (c : user_config_t) (h : (varnish_config_instance env ci st).conf = some c) :
    c.«instance» = block_instance ci := by
  unfold varnish_config_instance at h
  simp only [] at h
  by_cases hm : (malloc st).1 = true
  · simp only [hm, Bool.not_true, Bool.false_eq_true, if_false] at h
    by_cases hv : ci.values_num = 1
    · simp only [hv, if_true] at h
      have hvals : ∃ x, ci.values = [x] := by
        have : ci.values.length = 1 := hv
        exact List.length_eq_one.1 this
      obtain ⟨x, hx⟩ := hvals
      cases x with
      | string s =>
        by_cases hok : (malloc (malloc st).2).1 = true
        · simp only [cf_util_get_string, hx, hok, if_true, ne_eq, not_true_eq_false,
            if_false] at h
          by_cases hl : s = "localhost"
          · subst hl
            simp only [strcmp, Option.elim, if_true, decide_True] at h
            rw [options_instance env ci _ c _ h]
            simp [block_instance, hx]
          · have hl2 : ¬ ("localhost" = s) := fun e => hl e.symm
            simp only [strcmp, Option.elim, hl2, if_false, one_ne_zero, decide_False,
              Bool.false_eq_true] at h
            rw [options_instance env ci _ c _ h]
            simp [block_instance, hx, hl]
        · simp [cf_util_get_string, hx, hok] at h
      | number n => simp [cf_util_get_string, hx] at h
      | boolean b => simp [cf_util_get_string, hx] at h
    · simp only [hv, if_false] at h
      have hb : block_instance ci = none := by
        unfold block_instance
        split
        · rename_i s hs
          exact absurd (show ci.values_num = 1 by simp [oconfig_item_t.values_num, hs]) hv
        · rfl
      by_cases hv2 : ci.values_num > 1
      · simp only [hv2, if_true] at h
        cases h
        rw [hb]
        rfl
      · simp only [hv2, if_false] at h
        rw [options_instance env ci _ c _ h, hb]
        rfl
  · simp [hm] at h

theorem observation_plugin (env : Env) (conf : user_config_t) (stats : c_varnish_stats_t)
    (e : table_entry) :
    (observation env conf stats e).plugin = sstrncpy "varnish" env.DATA_MAX_NAME_LEN
    ∧ (observation env conf stats e).plugin_instance
        = (match conf.«instance» with
           | some s => sstrncpy s env.DATA_MAX_NAME_LEN
           | none => "") :=
  ⟨rfl, rfl⟩

theorem sstrncpy_ne_of_le (s : String) (n : Nat) (h1 : 1 ≤ n) (h : n ≤ s.length) :
    sstrncpy s n ≠ s := by
  intro he
  have hl : (sstrncpy s n).length = s.length := by rw [he]
  have : (sstrncpy s n).length = n - 1 := by
    show (s.data.take (n - 1)).length = n - 1
    rw [List.length_take]
    have : s.data.length = s.length := rfl
    omega
  omega

/-- C12, counterexample: in a build with name buffers of 64 bytes, the block
`Instance` with a string argument of 82 characters and `CollectCache true`
yields that string as identity, and every observation submitted for it has as
plugin instance the first 63 characters of the string, not the string. -/
theorem long_identity_is_cut :
    (varnish_config_instance env_v3
        (instance_block [oconfig_value_t.string "cache-instance-with-a-name-longer-than-the-sixty-three-characters-of-a-name-buffer"] [option_item "CollectCache" true])
        (plugin_state.initial [])).conf
      = some { conf_zero with monitor_cache := true, «instance» := some "cache-instance-with-a-name-longer-than-the-sixty-three-characters-of-a-name-buffer" }
    ∧ (varnish_monitor env_v3
        { conf_zero with monitor_cache := true, «instance» := some "cache-instance-with-a-name-longer-than-the-sixty-three-characters-of-a-name-buffer" }
        (fun _ => 0)).map value_list_t.plugin_instance
      = ["cache-instance-with-a-name-longer-than-the-sixty-three-characte", "cache-instance-with-a-name-longer-than-the-sixty-three-characte", "cache-instance-with-a-name-longer-than-the-sixty-three-characte"]
    ∧ "cache-instance-with-a-name-longer-than-the-sixty-three-characte" ≠ "cache-instance-with-a-name-longer-than-the-sixty-three-characters-of-a-name-buffer" := by
  decide

/-- C12, as amended: in the configuration a call of `varnish_config_instance`
leaves, the identity is absent for a block without argument or with the single
argument "localhost", and is the string `s` for a block with any other single
string argument `s`. Every observation submitted for that configuration has
the plugin "varnish" (the name buffers holding at least 8 bytes); its plugin
instance is empty for the absent identity, and for the identity `s` it is the
first `DATA_MAX_NAME_LEN - 1` characters of `s`: `s` itself when `s` is shorter
than the name buffer, and a different string otherwise. -/
theorem identity_and_plugin_instance (env : Env) (ci : oconfig_item_t) (st : plugin_state) (c : user_config_t)
    (hc : (varnish_config_instance env ci st).conf = some c) :
    (ci.values = [] → c.«instance» = none)
    ∧ (ci.values = [oconfig_value_t.string "localhost"] → c.«instance» = none)
    ∧ (∀ s, s ≠ "localhost" → ci.values = [oconfig_value_t.string s] →
        c.«instance» = some s)
    ∧ (∀ stats vl, vl ∈ varnish_monitor env c stats →
        (8 ≤ env.DATA_MAX_NAME_LEN → vl.plugin = "varnish")
        ∧ (c.«instance» = none → vl.plugin_instance = "")
        ∧ (∀ s, c.«instance» = some s →
            vl.plugin_instance = String.mk (s.data.take (env.DATA_MAX_NAME_LEN - 1))
            ∧ (s.length < env.DATA_MAX_NAME_LEN → vl.plugin_instance = s)
            ∧ (1 ≤ env.DATA_MAX_NAME_LEN → env.DATA_MAX_NAME_LEN ≤ s.length →
                vl.plugin_instance ≠ s))) := by
  have hi := config_instance_instance env ci st c hc
  refine ⟨?_, ?_, ?_, ?_⟩
  · intro hv
    rw [hi]
    simp [block_instance, hv]
  · intro hv
    rw [hi]
    simp [block_instance, hv]
  · intro s hs hv
    rw [hi]
    simp [block_instance, hv, hs]
  · intro stats vl hvl
    rw [monitor_eq_emit] at hvl
    obtain ⟨_, e, _, _, rfl⟩ := (mem_emit env c stats vl).1 hvl
    obtain ⟨hp, hpi⟩ := observation_plugin env c stats e
    refine ⟨?_, ?_, ?_⟩
    · intro hN
      rw [hp]
      exact sstrncpy_of_lt _ _ (by
        have : "varnish".length = 7 := by decide
        omega)
    · intro hn
      rw [hpi, hn]
    · intro s hs
      rw [hpi, hs]
      exact ⟨rfl, fun hlt => sstrncpy_of_lt s _ hlt,
        fun h1 hle => sstrncpy_ne_of_le s _ h1 hle⟩
/-- Witness for C12 as amended: the block `Instance "cache1"` with
`CollectCache true` in the current generation: the observation cache_hit
submitted for it has the plugin "varnish" and the plugin instance "cache1". -/
theorem identity_and_plugin_instance_witness :
    (varnish_submit env_v3 (some "cache1") "derive" "cache_hit" (uint64_to_gauge 0)).plugin
      = "varnish"
    ∧ (varnish_submit env_v3 (some "cache1") "derive" "cache_hit"
        (uint64_to_gauge 0)).plugin_instance = "cache1" :=
  ⟨((identity_and_plugin_instance env_v3
        (instance_block [oconfig_value_t.string "cache1"] [option_item "CollectCache" true])
        (plugin_state.initial [])
        { conf_zero with monitor_cache := true, «instance» := some "cache1" }
        (by decide)).2.2.2 (fun _ => 0)
        (varnish_submit env_v3 (some "cache1") "derive" "cache_hit" (uint64_to_gauge 0))
        (by decide)).1 (by decide),
   (((identity_and_plugin_instance env_v3
        (instance_block [oconfig_value_t.string "cache1"] [option_item "CollectCache" true])
        (plugin_state.initial [])
        { conf_zero with monitor_cache := true, «instance» := some "cache1" }
        (by decide)).2.2.2 (fun _ => 0)
        (varnish_submit env_v3 (some "cache1") "derive" "cache_hit" (uint64_to_gauge 0))
        (by decide)).2.2 "cache1" rfl).2.1 (by decide)⟩

/-! ## C13: the name of the read task -/

theorem ssnprintf_varnish_of_lt (n : Nat) (arg : String) (h : 8 + arg.length < n) :
    ssnprintf_varnish n arg = "varnish/" ++ arg := by
  unfold ssnprintf_varnish
  have hl : ("varnish/".data ++ arg.data).length ≤ n - 1 := by
    rw [List.length_append]
    have h1 : "varnish/".data.length = 8 := by decide
    have h2 : arg.data.length = arg.length := rfl
    omega
  rw [List.take_of_length_le hl]
  rfl

theorem varnish_slash_inj (a b : String) (h : "varnish/" ++ a = "varnish/" ++ b) : a = b := by
  have hd : ("varnish/" ++ a).data = ("varnish/" ++ b).data := by rw [h]
  have ha : ("varnish/" ++ a).data = "varnish/".data ++ a.data := rfl
  have hb : ("varnish/" ++ b).data = "varnish/".data ++ b.data := rfl
  rw [ha, hb] at hd
  exact String.ext (List.append_cancel_left hd)

theorem block_instance_ne_localhost (ci : oconfig_item_t) :
    block_instance ci ≠ some "localhost" := by
  unfold block_instance
  split
  · split
    · simp
    · rename_i s _ hs
      intro h
      exact hs (Option.some.inj h)
  · simp

theorem accepted_of_status (env : Env) (ci : oconfig_item_t) (st : plugin_state)
    (h : (varnish_config_instance env ci st).status = 0) :
    accepted env st (varnish_config_instance env ci st) := by
  rcases config_instance_cases env ci st with ⟨_, _, h1 | ⟨c0, _, _, he⟩⟩ | ⟨_, ha⟩
  · exact absurd h h1.2
  · rw [he] at h
    exact absurd h EINVAL_ne_zero
  · exact ha

theorem callback_name_default (env : Env) (c : user_config_t)
    (hN : 18 ≤ env.DATA_MAX_NAME_LEN) (h : c.«instance» = none) :
    callback_name env c = "varnish/localhost" := by
  unfold callback_name
  rw [h]
  exact ssnprintf_varnish_of_lt _ "localhost" (by
    have : "localhost".length = 9 := by decide
    omega)

theorem callback_name_named (env : Env) (c : user_config_t) (s : String)
    (h : c.«instance» = some s) (hf : 8 + s.length < env.DATA_MAX_NAME_LEN) :
    callback_name env c = "varnish/" ++ s := by
  unfold callback_name
  rw [h]
  exact ssnprintf_varnish_of_lt _ _ hf

theorem callback_name_inj (env : Env) (c1 c2 : user_config_t)
    (hN : 18 ≤ env.DATA_MAX_NAME_LEN)
    (n1 : c1.«instance» ≠ some "localhost") (n2 : c2.«instance» ≠ some "localhost")
    (f1 : ∀ s, c1.«instance» = some s → 8 + s.length < env.DATA_MAX_NAME_LEN)
    (f2 : ∀ s, c2.«instance» = some s → 8 + s.length < env.DATA_MAX_NAME_LEN) :
    callback_name env c1 = callback_name env c2 ↔ c1.«instance» = c2.«instance» := by
  constructor
  · intro h
    cases h1 : c1.«instance» with
    | none =>
      cases h2 : c2.«instance» with
      | none => rfl
      | some s2 =>
        rw [callback_name_default env c1 hN h1, callback_name_named env c2 s2 h2 (f2 s2 h2)] at h
        have := varnish_slash_inj "localhost" s2 h
        rw [h2, ← this] at n2
        exact absurd rfl n2
    | some s1 =>
      cases h2 : c2.«instance» with
      | none =>
        rw [callback_name_named env c1 s1 h1 (f1 s1 h1), callback_name_default env c2 hN h2] at h
        have := varnish_slash_inj s1 "localhost" h
        rw [h1, this] at n1
        exact absurd rfl n1
      | some s2 =>
        rw [callback_name_named env c1 s1 h1 (f1 s1 h1),
          callback_name_named env c2 s2 h2 (f2 s2 h2)] at h
        rw [varnish_slash_inj s1 s2 h]
  · intro h
    unfold callback_name
    rw [h]

/-- C13: the name under which `varnish_config_instance` registers the read
task of an accepted block is derived from the identity of the instance alone:
"varnish/localhost" for the absent identity, and "varnish/" followed by the
identity when that fits the buffer of `DATA_MAX_NAME_LEN` bytes (the buffer
holding at least the 18 bytes of "varnish/localhost"). So two accepted blocks
whose identities fit register the same name exactly when their identities,
as normalised, are the same, whatever their category flags. -/
theorem task_name_from_identity (env : Env) (ci1 ci2 : oconfig_item_t) (st1 st2 : plugin_state)
    (hN : 18 ≤ env.DATA_MAX_NAME_LEN)
    (h1 : (varnish_config_instance env ci1 st1).status = 0)
    (h2 : (varnish_config_instance env ci2 st2).status = 0) :
    ∃ c1 c2 name1 name2,
      (varnish_config_instance env ci1 st1).state.reads
        = st1.reads ++ [{ group := "varnish", name := name1, data := c1 }]
      ∧ (varnish_config_instance env ci2 st2).state.reads
        = st2.reads ++ [{ group := "varnish", name := name2, data := c2 }]
      ∧ c1.«instance» = block_instance ci1
      ∧ c2.«instance» = block_instance ci2
      ∧ (c1.«instance» = none → name1 = "varnish/localhost")
      ∧ (∀ s, c1.«instance» = some s → 8 + s.length < env.DATA_MAX_NAME_LEN →
          name1 = "varnish/" ++ s)
      ∧ ((∀ s, c1.«instance» = some s → 8 + s.length < env.DATA_MAX_NAME_LEN) →
         (∀ s, c2.«instance» = some s → 8 + s.length < env.DATA_MAX_NAME_LEN) →
         (name1 = name2 ↔ c1.«instance» = c2.«instance»)) := by
  obtain ⟨c1, hc1, _, _, hr1, _⟩ := accepted_of_status env ci1 st1 h1
  obtain ⟨c2, hc2, _, _, hr2, _⟩ := accepted_of_status env ci2 st2 h2
  have i1 := config_instance_instance env ci1 st1 c1 hc1
  have i2 := config_instance_instance env ci2 st2 c2 hc2
  refine ⟨c1, c2, callback_name env c1, callback_name env c2, hr1, hr2, i1, i2,
    callback_name_default env c1 hN, fun s hs hf => callback_name_named env c1 s hs hf, ?_⟩
  intro f1 f2
  exact callback_name_inj env c1 c2 hN
    (by rw [i1]; exact block_instance_ne_localhost ci1)
    (by rw [i2]; exact block_instance_ne_localhost ci2) f1 f2
/-- Witness for C13: the blocks `Instance "cache1"` with `CollectCache true`
and `Instance "cache1"` with `CollectFetch true`, in the current generation
with name buffers of 64 bytes. -/
theorem task_name_from_identity_witness :
    ∃ c1 c2 name1 name2,
      (varnish_config_instance env_v3
          (instance_block [oconfig_value_t.string "cache1"] [option_item "CollectCache" true])
          (plugin_state.initial [])).state.reads
        = (plugin_state.initial []).reads ++ [{ group := "varnish", name := name1, data := c1 }]
      ∧ (varnish_config_instance env_v3
          (instance_block [oconfig_value_t.string "cache1"] [option_item "CollectFetch" true])
          (plugin_state.initial [])).state.reads
        = (plugin_state.initial []).reads ++ [{ group := "varnish", name := name2, data := c2 }]
      ∧ c1.«instance» = block_instance
          (instance_block [oconfig_value_t.string "cache1"] [option_item "CollectCache" true])
      ∧ c2.«instance» = block_instance
          (instance_block [oconfig_value_t.string "cache1"] [option_item "CollectFetch" true])
      ∧ (c1.«instance» = none → name1 = "varnish/localhost")
      ∧ (∀ s, c1.«instance» = some s → 8 + s.length < env_v3.DATA_MAX_NAME_LEN →
          name1 = "varnish/" ++ s)
      ∧ ((∀ s, c1.«instance» = some s → 8 + s.length < env_v3.DATA_MAX_NAME_LEN) →
         (∀ s, c2.«instance» = some s → 8 + s.length < env_v3.DATA_MAX_NAME_LEN) →
         (name1 = name2 ↔ c1.«instance» = c2.«instance»)) :=
  task_name_from_identity env_v3
    (instance_block [oconfig_value_t.string "cache1"] [option_item "CollectCache" true])
    (instance_block [oconfig_value_t.string "cache1"] [option_item "CollectFetch" true])
    (plugin_state.initial []) (plugin_state.initial []) (by decide) (by decide) (by decide)

/-! ## C14: the fallback default instance -/

theorem varnish_init_fresh (st : plugin_state) (h : st.have_instance = false)
    (hm : (malloc st).1 = true) :
    varnish_init st
      = (0, { (malloc st).2 with
          reads := (malloc st).2.reads
            ++ [{ group := "varnish", name := "varnish/localhost", data := conf_default }] }) := by
  unfold varnish_init
  simp [h, hm]
  rfl

theorem varnish_init_enomem (st : plugin_state) (h : st.have_instance = false)
    (hm : (malloc st).1 = false) :
    varnish_init st = (ENOMEM, (malloc st).2) := by
  unfold varnish_init
  simp [h, hm]

theorem rejected_of_status (env : Env) (ci : oconfig_item_t) (st : plugin_state)
    (h : (varnish_config_instance env ci st).status ≠ 0) :
    (varnish_config_instance env ci st).state.reads = st.reads
    ∧ (varnish_config_instance env ci st).state.have_instance = st.have_instance := by
  rcases config_instance_cases env ci st with ⟨hr, hh, _⟩ | ⟨_, c, _, _, hs, _⟩
  · exact ⟨hr, hh⟩
  · exact absurd hs h

/-- C14: when no Instance block has been registered (`have_instance` is false)
and the configuration can be allocated, `varnish_init` returns 0 and registers
exactly one read task, named "varnish/localhost", with the absent identity and
the selector cache, backend, connections, shm on and every other category off.
When an Instance block has been registered (`have_instance` is true),
`varnish_init` returns 0 and registers nothing. A refused Instance block does
not count: a call of `varnish_config_instance` with a non-zero status leaves
`have_instance` and the read tasks as they were, and a call with status 0 sets
`have_instance`. -/
theorem varnish_init_fallback (st : plugin_state) :
    (st.have_instance = false → (malloc st).1 = true →
      (varnish_init st).1 = 0
      ∧ (varnish_init st).2.reads
          = st.reads ++
            [{ group := "varnish", name := "varnish/localhost",
               data := { «instance» := none, monitor_cache := true,
                         monitor_connections := true, monitor_esi := false,
                         monitor_backend := true, monitor_fetch := false,
                         monitor_hcb := false, monitor_shm := true, monitor_sms := false,
                         monitor_sm := false, monitor_sma := false, monitor_totals := false,
                         monitor_workers := false } }])
    ∧ (st.have_instance = true → varnish_init st = (0, st))
    ∧ (∀ env ci, (varnish_config_instance env ci st).status ≠ 0 →
        (varnish_config_instance env ci st).state.have_instance = st.have_instance
        ∧ (varnish_config_instance env ci st).state.reads = st.reads)
    ∧ (∀ env ci, (varnish_config_instance env ci st).status = 0 →
        (varnish_config_instance env ci st).state.have_instance = true) := by
  refine ⟨?_, varnish_init_of_have_instance st, ?_, ?_⟩
  · intro h hm
    rw [varnish_init_fresh st h hm]
    exact ⟨rfl, by rw [malloc_reads]; rfl⟩
  · intro env ci h
    exact ⟨(rejected_of_status env ci st h).2, (rejected_of_status env ci st h).1⟩
  · intro env ci h
    obtain ⟨_, _, _, _, _, hh⟩ := accepted_of_status env ci st h
    exact hh

/-- Witness for C14: the state right after the plugin has been loaded, with no
Instance block configured and every allocation succeeding. -/
theorem varnish_init_fallback_witness :
    (varnish_init (plugin_state.initial [])).1 = 0
    ∧ (varnish_init (plugin_state.initial [])).2.reads.map read_task.name
        = ["varnish/localhost"] :=
  ⟨((varnish_init_fallback (plugin_state.initial [])).1 rfl rfl).1,
   by rw [((varnish_init_fallback (plugin_state.initial [])).1 rfl rfl).2]; rfl⟩

/-! ## C19: the invariant of the registry -/

theorem enabled_of_metric (gen : Generation) (conf : user_config_t)
    (h : no_metric gen conf = false) : ∃ c, category_enabled gen conf c = true := by
  by_contra hc
  have hall : ∀ c, category_enabled gen conf c = false := by
    intro c
    cases hb : category_enabled gen conf c
    · rfl
    · exact absurd ⟨c, hb⟩ hc
  have h1 := hall Category.cache
  have h2 := hall Category.connections
  have h3 := hall Category.esi
  have h4 := hall Category.backend
  have h5 := hall Category.fetch
  have h6 := hall Category.hcb
  have h7 := hall Category.shm
  have h8 := hall Category.sm
  have h9 := hall Category.sma
  have h10 := hall Category.sms
  have h11 := hall Category.totals
  have h12 := hall Category.workers
  simp only [category_enabled] at h1 h2 h3 h4 h5 h6 h7 h8 h9 h10 h11 h12
  cases gen <;> simp_all [no_metric]

theorem monitor_ne_nil (env : Env) (conf : user_config_t) (stats : c_varnish_stats_t)
    (hen : ∃ c, category_enabled env.gen conf c = true) :
    varnish_monitor env conf stats ≠ [] := by
  obtain ⟨c, hc⟩ := hen
  obtain ⟨e, he⟩ := List.exists_mem_of_ne_nil _ (table_ne_nil env.gen conf c hc)
  have : observation env conf stats e ∈ varnish_monitor env conf stats := by
    rw [monitor_eq_emit]
    exact (mem_emit env conf stats _).2 ⟨c, e, hc, he, rfl⟩
  exact List.ne_nil_of_mem this

theorem registry_ok_initial (env : Env) (mallocs : List Bool) :
    registry_ok env (plugin_state.initial mallocs) := by
  constructor
  · intro t ht
    cases ht
  · intro h
    cases h

theorem registry_ok_config_instance (env : Env) (ci : oconfig_item_t) (st : plugin_state)
    (h : registry_ok env st) : registry_ok env (varnish_config_instance env ci st).state := by
  rcases config_instance_cases env ci st with ⟨hr, hh, _⟩ | ⟨_, c, _, hn, _, hr, _⟩
  · exact ⟨by rw [hr]; exact h.1, by rw [hr, hh]; exact h.2⟩
  · constructor
    · intro t ht
      rw [hr] at ht
      rcases List.mem_append.1 ht with ht | ht
      · exact h.1 t ht
      · rw [List.mem_singleton.1 ht]
        exact hn
    · intro _
      rw [hr]
      simp

theorem registry_ok_configure (env : Env) (blocks : List oconfig_item_t) (st : plugin_state)
    (h : registry_ok env st) : registry_ok env (configure env blocks st) := by
  induction blocks generalizing st with
  | nil => exact h
  | cons b rest ih => exact ih _ (registry_ok_config_instance env b st h)

theorem no_metric_conf_default (gen : Generation) : no_metric gen conf_default = false := by
  cases gen <;> rfl

theorem registry_ok_init (env : Env) (st : plugin_state) (h : registry_ok env st) :
    (∀ t, t ∈ (varnish_init st).2.reads → no_metric env.gen t.data = false)
    ∧ ((varnish_init st).1 = 0 → (varnish_init st).2.reads ≠ []) := by
  cases hh : st.have_instance
  · cases hm : (malloc st).1
    · rw [varnish_init_enomem st hh hm]
      constructor
      · intro t ht
        rw [malloc_reads] at ht
        exact h.1 t ht
      · intro h0
        have hne : ENOMEM ≠ 0 := by decide
        exact absurd h0 hne
    · rw [varnish_init_fresh st hh hm]
      constructor
      · intro t ht
        simp only [malloc_reads] at ht
        rcases List.mem_append.1 ht with ht | ht
        · exact h.1 t ht
        · rw [List.mem_singleton.1 ht]
          exact no_metric_conf_default env.gen
      · intro _
        simp
  · rw [varnish_init_of_have_instance st hh]
    exact ⟨h.1, fun _ => h.2 hh⟩

theorem malloc_nil (st : plugin_state) (h : st.mallocs = []) : (malloc st).2.mallocs = [] := by
  rw [malloc_of_nil st h]
  exact h

theorem config_instance_mallocs_nil (env : Env) (ci : oconfig_item_t) (st : plugin_state)
    (h : st.mallocs = []) : (varnish_config_instance env ci st).state.mallocs = [] := by
  unfold varnish_config_instance varnish_config_instance_options cf_util_get_string
  simp only [malloc_of_nil st h]
  split_ifs <;> (try split) <;> simp_all

theorem configure_mallocs_nil (env : Env) (blocks : List oconfig_item_t) (st : plugin_state)
    (h : st.mallocs = []) : (configure env blocks st).mallocs = [] := by
  induction blocks generalizing st with
  | nil => exact h
  | cons b rest ih => exact ih _ (config_instance_mallocs_nil env b st h)

theorem varnish_init_status_of_nil (st : plugin_state) (h : st.mallocs = []) :
    (varnish_init st).1 = 0 := by
  cases hh : st.have_instance
  · rw [varnish_init_fresh st hh (by rw [malloc_of_nil st h])]
  · rw [varnish_init_of_have_instance st hh]

/-- C19: in every state reached from the initial state by a sequence of calls
of `varnish_config_instance`, and in the state `varnish_init` leaves after
them, every registered read task is bound to a configuration with at least
one enabled category, for which `varnish_monitor` submits something on every
snapshot. When `varnish_init` returns 0 at least one read task is registered,
and it returns 0 whenever the allocations succeed. -/
theorem registry_invariant (env : Env) (blocks : List oconfig_item_t) (mallocs : List Bool) :
    (∀ t, t ∈ (configure env blocks (plugin_state.initial mallocs)).reads →
      (∃ c, category_enabled env.gen t.data c = true)
      ∧ ∀ stats, varnish_monitor env t.data stats ≠ [])
    ∧ (∀ t, t ∈ (varnish_init (configure env blocks (plugin_state.initial mallocs))).2.reads →
      (∃ c, category_enabled env.gen t.data c = true)
      ∧ ∀ stats, varnish_monitor env t.data stats ≠ [])
    ∧ ((varnish_init (configure env blocks (plugin_state.initial mallocs))).1 = 0 →
      (varnish_init (configure env blocks (plugin_state.initial mallocs))).2.reads ≠ [])
    ∧ (mallocs = [] →
      (varnish_init (configure env blocks (plugin_state.initial mallocs))).1 = 0) := by
  have hok := registry_ok_configure env blocks _ (registry_ok_initial env mallocs)
  have hin := registry_ok_init env _ hok
  refine ⟨?_, ?_, hin.2, ?_⟩
  · intro t ht
    have hen := enabled_of_metric env.gen t.data (hok.1 t ht)
    exact ⟨hen, fun stats => monitor_ne_nil env t.data stats hen⟩
  · intro t ht
    have hen := enabled_of_metric env.gen t.data (hin.1 t ht)
    exact ⟨hen, fun stats => monitor_ne_nil env t.data stats hen⟩
  · intro hm
    exact varnish_init_status_of_nil _ (configure_mallocs_nil env blocks _ hm)
/-- Witness for C19: one refused block (no option), then `varnish_init`, every
allocation succeeding: a read task is registered. -/
theorem registry_invariant_witness :
    (varnish_init (configure env_v3 [instance_block [oconfig_value_t.string "cache1"] []]
      (plugin_state.initial []))).2.reads ≠ [] :=
  (registry_invariant env_v3 [instance_block [oconfig_value_t.string "cache1"] []] []).2.2.1
    ((registry_invariant env_v3 [instance_block [oconfig_value_t.string "cache1"] []] []).2.2.2
      rfl)

/-! ## C20: the positional arguments of an Instance block -/

theorem child_set_instance (gen : Generation) (conf : user_config_t) (i : Option String)
    (child : oconfig_item_t) :
    varnish_config_instance_child gen { conf with «instance» := i } child
      = { varnish_config_instance_child gen conf child with «instance» := i } := by
  by_cases hk : ∃ d, category_exists gen d = true ∧ lower (option_key d) = lower child.key
  · obtain ⟨d, hd, hl⟩ := hk
    rw [child_of_key gen _ child d hd hl, child_of_key gen conf child d hd hl]
    cases d <;> rfl
  · rw [child_of_unknown gen _ child (fun d hd hl => hk ⟨d, hd, hl⟩),
      child_of_unknown gen conf child (fun d hd hl => hk ⟨d, hd, hl⟩)]

theorem children_set_instance (gen : Generation) (children : List oconfig_item_t)
    (conf : user_config_t) (i : Option String) :
    varnish_config_instance_children gen { conf with «instance» := i } children
      = { varnish_config_instance_children gen conf children with «instance» := i } := by
  induction children generalizing conf with
  | nil => rfl
  | cons ch rest ih =>
    show varnish_config_instance_children gen
      (varnish_config_instance_child gen { conf with «instance» := i } ch) rest = _
    rw [child_set_instance, ih]
    rfl

theorem no_metric_children_instance (gen : Generation) (children : List oconfig_item_t)
    (conf : user_config_t) (i : Option String) :
    no_metric gen (varnish_config_instance_children gen { conf with «instance» := i } children)
      = no_metric gen (varnish_config_instance_children gen conf children) := by
  rw [children_set_instance]
  rfl

/-- With every allocation succeeding, the status of a block whose argument is
absent or a string is decided by its children alone. -/
theorem config_instance_status (env : Env) (ci : oconfig_item_t) (st : plugin_state)
    (hm : st.mallocs = [])
    (hv : ci.values = [] ∨ ∃ s, ci.values = [oconfig_value_t.string s]) :
    (varnish_config_instance env ci st).status
      = if no_metric env.gen (varnish_config_instance_children env.gen conf_zero ci.children)
        then EINVAL else 0 := by
  have hconf := config_instance_conf env ci st hm hv
  rw [← no_metric_children_instance env.gen ci.children conf_zero (block_instance ci)]
  rcases config_instance_cases env ci st with ⟨_, _, h | ⟨c, hc, hn, hs⟩⟩ | ⟨_, c, hc, hn, hs, _⟩
  · rw [h.1] at hconf
    cases hconf
  · rw [hc] at hconf
    cases hconf
    rw [hn, hs]
    rfl
  · rw [hc] at hconf
    cases hconf
    rw [hn, hs]
    rfl

theorem config_instance_too_many (env : Env) (ci : oconfig_item_t) (st : plugin_state)
    (hv : 1 < ci.values_num) (hm : (malloc st).1 = true) :
    (varnish_config_instance env ci st).status = EINVAL := by
  unfold varnish_config_instance
  have h1 : ¬ ci.values_num = 1 := by omega
  simp [hm, h1, hv]

theorem config_instance_too_many_rejected (env : Env) (ci : oconfig_item_t)
    (st : plugin_state) (hv : 1 < ci.values_num) :
    (varnish_config_instance env ci st).status ≠ 0 := by
  rcases config_instance_cases env ci st with ⟨_, _, h | ⟨c, _, _, hs⟩⟩ | ⟨hle, _⟩
  · exact h.2
  · rw [hs]
    exact EINVAL_ne_zero
  · omega

/-- C20: a block with more than one positional argument is refused whatever its
children: the status is non-zero, no read task is registered and
`have_instance` is left as it was; the status is `EINVAL` once the
configuration has been allocated. A block without argument or with one string
argument (allocations succeeding) is never refused because of its argument:
its status is the status of the same block without argument, it is 0 exactly
when the children leave a category enabled, and `EINVAL` otherwise. -/
theorem instance_block_arguments (env : Env) (ci : oconfig_item_t) (st : plugin_state) :
    (1 < ci.values_num →
      (varnish_config_instance env ci st).status ≠ 0
      ∧ (varnish_config_instance env ci st).state.reads = st.reads
      ∧ (varnish_config_instance env ci st).state.have_instance = st.have_instance
      ∧ ((malloc st).1 = true → (varnish_config_instance env ci st).status = EINVAL))
    ∧ (st.mallocs = [] → (ci.values = [] ∨ ∃ s, ci.values = [oconfig_value_t.string s]) →
      (varnish_config_instance env ci st).status
        = (varnish_config_instance env (oconfig_item_t.mk ci.key [] ci.children) st).status
      ∧ ((varnish_config_instance env ci st).status = 0
          ↔ no_metric env.gen
              (varnish_config_instance_children env.gen conf_zero ci.children) = false)
      ∧ ((varnish_config_instance env ci st).status ≠ 0 →
          (varnish_config_instance env ci st).status = EINVAL)) := by
  constructor
  · intro hv
    have hne := config_instance_too_many_rejected env ci st hv
    have hr := rejected_of_status env ci st hne
    exact ⟨hne, hr.1, hr.2, config_instance_too_many env ci st hv⟩
  · intro hm hv
    have h1 := config_instance_status env ci st hm hv
    have h2 : (varnish_config_instance env (oconfig_item_t.mk ci.key [] ci.children) st).status
        = if no_metric env.gen
            (varnish_config_instance_children env.gen conf_zero ci.children)
          then EINVAL else 0 :=
      config_instance_status env (oconfig_item_t.mk ci.key [] ci.children) st hm (Or.inl rfl)
    refine ⟨by rw [h1, h2], ?_, ?_⟩
    · rw [h1]
      cases no_metric env.gen (varnish_config_instance_children env.gen conf_zero ci.children)
      · simp
      · simp [EINVAL]
    · rw [h1]
      split
      · intro _; rfl
      · intro h; exact absurd rfl h
/-- Witness for C20: the block `Instance "a" "b"` with `CollectCache true` is
refused with `EINVAL`; the block `Instance "a"` with `CollectCache true` has
status 0. -/
theorem instance_block_arguments_witness :
    (varnish_config_instance env_v3
        (instance_block [oconfig_value_t.string "a", oconfig_value_t.string "b"]
          [option_item "CollectCache" true])
        (plugin_state.initial [])).status = EINVAL
    ∧ (varnish_config_instance env_v3
        (instance_block [oconfig_value_t.string "a"] [option_item "CollectCache" true])
        (plugin_state.initial [])).status = 0 :=
  ⟨((instance_block_arguments env_v3
        (instance_block [oconfig_value_t.string "a", oconfig_value_t.string "b"]
          [option_item "CollectCache" true])
        (plugin_state.initial [])).1 (by decide)).2.2.2 rfl,
   ((instance_block_arguments env_v3
        (instance_block [oconfig_value_t.string "a"] [option_item "CollectCache" true])
        (plugin_state.initial [])).2 rfl (Or.inr ⟨"a", rfl⟩)).2.1.2 (by decide)⟩

/-! ## C15: the default instance on a snapshot with only cache and connections values -/

/-- C15, counterexample: the default configuration (cache, backend, connections
and shm enabled, absent identity) on a snapshot that holds values for the
members of the categories cache and connections only, every other member
being 0: `varnish_monitor` submits eighteen observations, the six of cache and
connections and also the seven of backend and the five of shm, with the value
0. A snapshot is a C structure: none of its members can be absent. -/
theorem default_selector_submits_backend_and_shm :
    (varnish_monitor env_v3 conf_default
        (snapshot_of [(Field.cache_hit, 100), (Field.cache_miss, 5), (Field.cache_hitpass, 2),
          (Field.client_conn, 7), (Field.client_drop, 1), (Field.client_req, 9)])).map
        (fun vl => (vl.type_instance, vl.values))
      = [("cache_hit", [value_t.counter 100]), ("cache_miss", [value_t.counter 5]),
         ("cache_hitpass", [value_t.counter 2]),
         ("client_connections-accepted", [value_t.counter 7]),
         ("client_connections-dropped", [value_t.counter 1]),
         ("client_requests-received", [value_t.counter 9]),
         ("backend_connections-success", [value_t.counter 0]),
         ("backend_connections-not-attempted", [value_t.counter 0]),
         ("backend_connections-too-many", [value_t.counter 0]),
         ("backend_connections-failures", [value_t.counter 0]),
         ("backend_connections-reuses", [value_t.counter 0]),
         ("backend_connections-was-closed", [value_t.counter 0]),
         ("backend_connections-recycles", [value_t.counter 0]),
         ("shm_records", [value_t.counter 0]), ("shm_writes", [value_t.counter 0]),
         ("shm_flushes", [value_t.counter 0]), ("shm_contention", [value_t.counter 0]),
         ("shm_cycles", [value_t.counter 0])] := by
  decide

/-- C15, as amended: for the default configuration (absent identity; cache,
backend, connections and shm enabled) and every snapshot, `varnish_monitor`
submits the observations of the four enabled categories, in the order cache,
connections, backend, shm: thirteen names, then backend_connections-unused in
the legacy generation only, then the five names of shm, each with an empty
plugin instance. An enabled category always yields all the observations of its
table. The cycle is not an error: on an available source `varnish_read`
returns 0 and dispatches exactly that sequence. The name buffers are taken to
hold the metric names, the longest of which has 33 characters. -/
theorem default_instance_observations (env : Env) (stats : c_varnish_stats_t) (hN : 34 ≤ env.DATA_MAX_NAME_LEN) :
    (varnish_monitor env conf_default stats).map value_list_t.type_instance
      = ["cache_hit", "cache_miss", "cache_hitpass",
         "client_connections-accepted", "client_connections-dropped",
         "client_requests-received",
         "backend_connections-success", "backend_connections-not-attempted",
         "backend_connections-too-many", "backend_connections-failures",
         "backend_connections-reuses", "backend_connections-was-closed",
         "backend_connections-recycles"]
        ++ (if env.gen = Generation.V2 then ["backend_connections-unused"] else [])
        ++ ["shm_records", "shm_writes", "shm_flushes", "shm_contention", "shm_cycles"]
    ∧ (∀ vl, vl ∈ varnish_monitor env conf_default stats → vl.plugin_instance = "")
    ∧ (varnish_read env (some { data := some conf_default }) (some stats)).status = 0
    ∧ (varnish_read env (some { data := some conf_default }) (some stats)).dispatched
        = varnish_monitor env conf_default stats := by
  refine ⟨?_, ?_, ?_, ?_⟩
  · rw [monitor_names env conf_default stats hN]
    cases env.gen <;> rfl
  · intro vl hvl
    rw [monitor_eq_emit] at hvl
    obtain ⟨_, e, _, _, rfl⟩ := (mem_emit env conf_default stats vl).1 hvl
    rfl
  · obtain ⟨gen, n, h⟩ := env
    cases gen <;> rfl
  · obtain ⟨gen, n, h⟩ := env
    cases gen <;> rfl

/-- Witness for C15 as amended: the legacy generation with name buffers of 64
bytes, every member of the snapshot at 3: nineteen observations. -/
theorem default_instance_observations_witness :
    ((varnish_monitor env_v2 conf_default (fun _ => 3)).map
      value_list_t.type_instance).length = 19 := by
  rw [(default_instance_observations env_v2 (fun _ => 3) (by decide)).1]
  rfl

/-! ## C16: the header table and the members that are submitted -/

/-- C16, evaluated where it fails: the header table marks s_sess as not
monitored, yet in the legacy generation with the category totals enabled
`varnish_monitor` submits the observation sessions with the value of s_sess,
and six more for members marked N. The table and the code disagree on exactly
fourteen members, those of the categories totals and workers, all marked N
and all submitted; on every other member they agree (uptime, for one, is
marked N and never submitted). -/
theorem header_table_disagrees_with_monitor :
    header_monitored Field.s_sess = false
    ∧ (varnish_monitor env_v2 { conf_zero with monitor_totals := true }
        (snapshot_of [(Field.s_sess, 7)])).map (fun vl => (vl.type_instance, vl.values))
      = [("sessions", [value_t.counter 7]), ("requests", [value_t.counter 0]),
         ("pipe", [value_t.counter 0]), ("pass", [value_t.counter 0]),
         ("fetches", [value_t.counter 0]), ("header-bytes", [value_t.counter 0]),
         ("body-bytes", [value_t.counter 0])]
    ∧ (∀ f, f ∈ [Field.s_sess, Field.s_req, Field.s_pipe, Field.s_pass, Field.s_fetch,
          Field.s_hdrbytes, Field.s_bodybytes, Field.n_wrk, Field.n_wrk_create,
          Field.n_wrk_failed, Field.n_wrk_max, Field.n_wrk_queue, Field.n_wrk_overflow,
          Field.n_wrk_drop] →
        header_monitored f = false ∧ field_read Generation.V2 f = true)
    ∧ (∀ f, f ∉ [Field.s_sess, Field.s_req, Field.s_pipe, Field.s_pass, Field.s_fetch,
          Field.s_hdrbytes, Field.s_bodybytes, Field.n_wrk, Field.n_wrk_create,
          Field.n_wrk_failed, Field.n_wrk_max, Field.n_wrk_queue, Field.n_wrk_overflow,
          Field.n_wrk_drop] →
        field_read Generation.V2 f = header_monitored f)
    ∧ header_monitored Field.uptime = false ∧ field_read Generation.V2 Field.uptime = false := by
  refine ⟨rfl, by decide, by decide, ?_, rfl, by decide⟩
  intro f
  cases f <;> decide

/-! ## C17: release of the handle on the source -/

/-- C17, evaluated where it fails: in the current generation, when `VSC_Open`
reports an error, `varnish_read` has called `VSM_New`, `VSC_Setup` and
`VSC_Open` and returns -1 without calling `VSM_Close`; on the path where the
source is available the trace ends with `VSM_Close`. -/
theorem handle_not_released_on_failure :
    (varnish_read env_v3 (some { data := some conf_default }) none).calls
      = [api_call.VSM_New, api_call.VSC_Setup, api_call.VSC_Open]
    ∧ (varnish_read env_v3 (some { data := some conf_default }) none).status = -1
    ∧ api_call.VSM_Close ∉ (varnish_read env_v3 (some { data := some conf_default }) none).calls
    ∧ (varnish_read env_v3 (some { data := some conf_default }) (some (fun _ => 0))).calls
      = [api_call.VSM_New, api_call.VSC_Setup, api_call.VSC_Open, api_call.VSC_Main,
         api_call.VSM_Close] := by
  decide

/-! ## C21: the kind of each metric -/

theorem table_kinds (gen : Generation) (c : Category) (e : table_entry)
    (he : e ∈ category_table gen c) :
    (e.type = "gauge" ∨ e.type = "derive")
    ∧ (e.type = "gauge" ↔ e.name ∈ ["sm_balloc", "sm_bfree", "sma_nbytes", "sma_balloc",
        "sma_bfree", "sms_nbytes", "sms_balloc", "sms_bfree", "threads"])
    ∧ (e.type = "derive" ↔ e.name ∉ ["sm_balloc", "sm_bfree", "sma_nbytes", "sma_balloc",
        "sma_bfree", "sms_nbytes", "sms_balloc", "sms_bfree", "threads"]) := by
  revert e
  cases gen <;> cases c <;> decide

theorem observation_type (env : Env) (conf : user_config_t) (stats : c_varnish_stats_t)
    (hN : 34 ≤ env.DATA_MAX_NAME_LEN) (c : Category) (e : table_entry)
    (he : e ∈ category_table env.gen c) :
    (observation env conf stats e).type = e.type := by
  have hl : e.type.length ≤ 6 := by
    rcases (table_kinds env.gen c e he).1 with h | h <;> rw [h] <;> decide
  exact sstrncpy_of_lt _ _ (by omega)

theorem varnish_submit_values (env : Env) (plugin_instance : Option String)
    (type type_instance : String) (value : gauge_t) :
    (varnish_submit env plugin_instance type type_instance value).values
      = [if lower type = lower "gauge" then value_t.gauge value
         else value_t.counter (gauge_to_counter value)] := by
  unfold varnish_submit
  simp only []
  by_cases h : lower type = lower "gauge"
  · have : strcasecmp "gauge" type = 0 := (strcasecmp_eq_zero _ _).2 h.symm
    rw [if_pos this, if_pos h]
  · have : ¬ strcasecmp "gauge" type = 0 := fun h0 => h ((strcasecmp_eq_zero _ _).1 h0).symm
    rw [if_neg this, if_neg h]

theorem observation_slot (env : Env) (conf : user_config_t) (stats : c_varnish_stats_t)
    (c : Category) (e : table_entry) (he : e ∈ category_table env.gen c) :
    (observation env conf stats e).values.map value_t.is_gauge
      = [decide (e.type = "gauge")] := by
  have hv : (observation env conf stats e).values
      = [if lower e.type = lower "gauge" then value_t.gauge (uint64_to_gauge (stats e.field))
         else value_t.counter (gauge_to_counter (uint64_to_gauge (stats e.field)))] :=
    varnish_submit_values env _ _ _ _
  rw [hv]
  rcases (table_kinds env.gen c e he).1 with h | h
  · rw [h, if_pos rfl]
    have hd : decide ("gauge" = "gauge") = true := by decide
    rw [hd]
    rfl
  · have hne : ¬ lower "derive" = lower "gauge" := by decide
    have hd : decide ("derive" = "gauge") = false := by decide
    rw [h, if_neg hne, hd]
    rfl

/-- C21: the kind of each metric is fixed by the table. Every table line of
every category has the kind "gauge" or "derive"; the kind is "gauge" exactly
for the names sm_balloc, sm_bfree, sma_nbytes, sma_balloc, sma_bfree,
sms_nbytes, sms_balloc, sms_bfree and threads, and "derive" for every other
name; the observation of a line holds its value in the gauge member exactly
when the kind of the line is "gauge". When the name buffers hold the metric
names (the longest has 33 characters), the same holds for the kind and the
name read off every observation that `varnish_monitor` submits. For any kind
whatever, `varnish_submit` stores the value in the gauge member exactly when
the kind equals "gauge" up to case, and in the counter member otherwise. -/
theorem kind_table (env : Env) (conf : user_config_t) (stats : c_varnish_stats_t) :
    (∀ c e, e ∈ category_table env.gen c →
      (e.type = "gauge" ∨ e.type = "derive")
      ∧ (e.type = "gauge" ↔ e.name ∈ ["sm_balloc", "sm_bfree", "sma_nbytes", "sma_balloc",
          "sma_bfree", "sms_nbytes", "sms_balloc", "sms_bfree", "threads"])
      ∧ (e.type = "derive" ↔ e.name ∉ ["sm_balloc", "sm_bfree", "sma_nbytes", "sma_balloc",
          "sma_bfree", "sms_nbytes", "sms_balloc", "sms_bfree", "threads"])
      ∧ (observation env conf stats e).values.map value_t.is_gauge
          = [decide (e.type = "gauge")])
    ∧ (34 ≤ env.DATA_MAX_NAME_LEN → ∀ vl, vl ∈ varnish_monitor env conf stats →
      (vl.type = "gauge" ∨ vl.type = "derive")
      ∧ (vl.type = "gauge" ↔ vl.type_instance ∈ ["sm_balloc", "sm_bfree", "sma_nbytes",
          "sma_balloc", "sma_bfree", "sms_nbytes", "sms_balloc", "sms_bfree", "threads"])
      ∧ (vl.type = "derive" ↔ vl.type_instance ∉ ["sm_balloc", "sm_bfree", "sma_nbytes",
          "sma_balloc", "sma_bfree", "sms_nbytes", "sms_balloc", "sms_bfree", "threads"])
      ∧ vl.values.map value_t.is_gauge = [decide (vl.type = "gauge")])
    ∧ (∀ plugin_instance type type_instance value,
        (varnish_submit env plugin_instance type type_instance value).values
          = [if lower type = lower "gauge" then value_t.gauge value
             else value_t.counter (gauge_to_counter value)]) := by
  refine ⟨?_, ?_, varnish_submit_values env⟩
  · intro c e he
    obtain ⟨k1, k2, k3⟩ := table_kinds env.gen c e he
    exact ⟨k1, k2, k3, observation_slot env conf stats c e he⟩
  · intro hN vl hvl
    rw [monitor_eq_emit] at hvl
    obtain ⟨c, e, _, he, rfl⟩ := (mem_emit env conf stats vl).1 hvl
    obtain ⟨k1, k2, k3⟩ := table_kinds env.gen c e he
    rw [observation_type env conf stats hN c e he,
      observation_type_instance env conf stats hN c e he]
    exact ⟨k1, k2, k3, observation_slot env conf stats c e he⟩

/-- Witness for C21: in the legacy generation with every category enabled and
name buffers of 64 bytes, the observation threads is a gauge held in the gauge
member, and `varnish_submit` stores a value of kind "GAUGE" in the gauge
member as well. -/
theorem kind_table_witness :
    (varnish_submit env_v2 none "gauge" "threads" (uint64_to_gauge 5)).type = "gauge"
    ∧ (varnish_submit env_v2 none "gauge" "threads" (uint64_to_gauge 5)).values.map
        value_t.is_gauge = [true]
    ∧ (varnish_submit env_v2 none "GAUGE" "threads" 5).values = [value_t.gauge 5] :=
  ⟨(((kind_table env_v2 (conf_all none) (fun _ => 5)).2.1 (by decide)
      (varnish_submit env_v2 none "gauge" "threads" (uint64_to_gauge 5)) (by decide)).2.1).2
      (by decide),
   ((kind_table env_v2 (conf_all none) (fun _ => 5)).2.1 (by decide)
      (varnish_submit env_v2 none "gauge" "threads" (uint64_to_gauge 5)) (by decide)).2.2.2,
   (kind_table env_v2 (conf_all none) (fun _ => 5)).2.2 none "GAUGE" "threads" 5⟩

/-! ## C22: no metric is submitted twice in one cycle -/

theorem selected_names_sublist (gen : Generation) (conf : user_config_t) :
    List.Sublist
      ((Category.all.map (fun c => if category_enabled gen conf c
          then (category_table gen c).map table_entry.name else [])).flatten)
      ((Category.all.map (fun c => (category_table gen c).map table_entry.name)).flatten) := by
  apply sublist_flatten_map
  intro c _
  split
  · exact List.Sublist.refl _
  · exact List.nil_sublist _

theorem monitor_names_nodup (env : Env) (conf : user_config_t) (stats : c_varnish_stats_t)
    (hN : 34 ≤ env.DATA_MAX_NAME_LEN) :
    ((varnish_monitor env conf stats).map value_list_t.type_instance).Nodup := by
  rw [monitor_names env conf stats hN]
  exact List.Nodup.sublist (selected_names_sublist env.gen conf) (names_nodup env.gen)

theorem table_selected_names (gen : Generation) (conf : user_config_t) :
    (table_selected gen conf).map table_entry.name
      = (Category.all.map (fun c => if category_enabled gen conf c
          then (category_table gen c).map table_entry.name else [])).flatten := by
  rw [table_selected, List.map_flatten, List.map_map]
  congr 1
  apply List.map_congr_left
  intro c _
  simp only [Function.comp]
  split <;> rfl

/-- C22: whatever the selector and the snapshot, in both generations, the table
lines that one call of `varnish_monitor` passes to `varnish_submit` have
pairwise distinct (kind, metric name) pairs, indeed pairwise distinct metric
names. When the name buffers hold the metric names (the longest has 33
characters), the observations submitted have pairwise distinct (kind, metric
name) pairs and pairwise distinct metric names: none is submitted twice, even
with every category enabled. -/
theorem metric_identities_distinct (env : Env) (conf : user_config_t)
    (stats : c_varnish_stats_t) :
    ((table_selected env.gen conf).map (fun e => (e.type, e.name))).Nodup
    ∧ ((table_selected env.gen conf).map table_entry.name).Nodup
    ∧ varnish_monitor env conf stats
        = (table_selected env.gen conf).map (observation env conf stats)
    ∧ (34 ≤ env.DATA_MAX_NAME_LEN →
        ((varnish_monitor env conf stats).map (fun vl => (vl.type, vl.type_instance))).Nodup
        ∧ ((varnish_monitor env conf stats).map value_list_t.type_instance).Nodup
        ∧ (varnish_monitor env conf stats).Nodup) := by
  have ht : ((table_selected env.gen conf).map table_entry.name).Nodup := by
    rw [table_selected_names]
    exact List.Nodup.sublist (selected_names_sublist env.gen conf) (names_nodup env.gen)
  refine ⟨?_, ht, monitor_eq_selected env conf stats, ?_⟩
  · apply List.Nodup.of_map Prod.snd
    rw [List.map_map]
    exact ht
  · intro hN
    have hn := monitor_names_nodup env conf stats hN
    refine ⟨?_, hn, List.Nodup.of_map value_list_t.type_instance hn⟩
    apply List.Nodup.of_map Prod.snd
    rw [List.map_map]
    exact hn

/-- Witness for C22: the legacy generation with every category enabled and
name buffers of 64 bytes, every member of the snapshot at 1: sixty-one
observations, no (kind, metric name) pair twice. -/
theorem metric_identities_distinct_witness :
    ((varnish_monitor env_v2 (conf_all none) (fun _ => 1)).map
      (fun vl => (vl.type, vl.type_instance))).Nodup
    ∧ (varnish_monitor env_v2 (conf_all none) (fun _ => 1)).length = 61 :=
  ⟨((metric_identities_distinct env_v2 (conf_all none) (fun _ => 1)).2.2.2 (by decide)).1,
   by decide⟩

/-! ## C18: a collection cycle leaves the instance as it was -/

theorem mem_eta (mem : cycle_memory) :
    ({ mem with dispatched := mem.dispatched ++ [] } : cycle_memory) = mem := by
  cases mem
  simp

theorem varnish_monitor_cache_eq (env : Env) (stats : c_varnish_stats_t) (mem : cycle_memory) :
    varnish_monitor_cache env stats mem
      = { mem with
          dispatched := mem.dispatched ++ emit_category env mem.conf stats Category.cache } := by
  obtain ⟨gen, n, h⟩ := env
  cases gen <;> cases hf : mem.conf.monitor_cache <;>
    simp [varnish_monitor_cache, emit_category, category_enabled, category_table,
      category_common, category_legacy, observation, varnish_submit_mem,
      plugin_dispatch_values, hf, mem_eta]

theorem varnish_monitor_connections_eq (env : Env) (stats : c_varnish_stats_t) (mem : cycle_memory) :
    varnish_monitor_connections env stats mem
      = { mem with
          dispatched := mem.dispatched ++ emit_category env mem.conf stats Category.connections } := by
  obtain ⟨gen, n, h⟩ := env
  cases gen <;> cases hf : mem.conf.monitor_connections <;>
    simp [varnish_monitor_connections, emit_category, category_enabled, category_table,
      category_common, category_legacy, observation, varnish_submit_mem,
      plugin_dispatch_values, hf, mem_eta]

theorem varnish_monitor_esi_eq (env : Env) (stats : c_varnish_stats_t) (mem : cycle_memory) :
    varnish_monitor_esi env stats mem
      = { mem with
          dispatched := mem.dispatched ++ emit_category env mem.conf stats Category.esi } := by
  obtain ⟨gen, n, h⟩ := env
  cases gen <;> cases hf : mem.conf.monitor_esi <;>
    simp [varnish_monitor_esi, emit_category, category_enabled, category_table,
      category_common, category_legacy, observation, varnish_submit_mem,
      plugin_dispatch_values, hf, mem_eta]

theorem varnish_monitor_backend_eq (env : Env) (stats : c_varnish_stats_t) (mem : cycle_memory) :
    varnish_monitor_backend env stats mem
      = { mem with
          dispatched := mem.dispatched ++ emit_category env mem.conf stats Category.backend } := by
  obtain ⟨gen, n, h⟩ := env
  cases gen <;> cases hf : mem.conf.monitor_backend <;>
    simp [varnish_monitor_backend, emit_category, category_enabled, category_table,
      category_common, category_legacy, observation, varnish_submit_mem,
      plugin_dispatch_values, hf, mem_eta]

theorem varnish_monitor_fetch_eq (env : Env) (stats : c_varnish_stats_t) (mem : cycle_memory) :
    varnish_monitor_fetch env stats mem
      = { mem with
          dispatched := mem.dispatched ++ emit_category env mem.conf stats Category.fetch } := by
  obtain ⟨gen, n, h⟩ := env
  cases gen <;> cases hf : mem.conf.monitor_fetch <;>
    simp [varnish_monitor_fetch, emit_category, category_enabled, category_table,
      category_common, category_legacy, observation, varnish_submit_mem,
      plugin_dispatch_values, hf, mem_eta]

theorem varnish_monitor_hcb_eq (env : Env) (stats : c_varnish_stats_t) (mem : cycle_memory) :
    varnish_monitor_hcb env stats mem
      = { mem with
          dispatched := mem.dispatched ++ emit_category env mem.conf stats Category.hcb } := by
  obtain ⟨gen, n, h⟩ := env
  cases gen <;> cases hf : mem.conf.monitor_hcb <;>
    simp [varnish_monitor_hcb, emit_category, category_enabled, category_table,
      category_common, category_legacy, observation, varnish_submit_mem,
      plugin_dispatch_values, hf, mem_eta]

theorem varnish_monitor_shm_eq (env : Env) (stats : c_varnish_stats_t) (mem : cycle_memory) :
    varnish_monitor_shm env stats mem
      = { mem with
          dispatched := mem.dispatched ++ emit_category env mem.conf stats Category.shm } := by
  obtain ⟨gen, n, h⟩ := env
  cases gen <;> cases hf : mem.conf.monitor_shm <;>
    simp [varnish_monitor_shm, emit_category, category_enabled, category_table,
      category_common, category_legacy, observation, varnish_submit_mem,
      plugin_dispatch_values, hf, mem_eta]

theorem varnish_monitor_sm_eq (env : Env) (stats : c_varnish_stats_t) (mem : cycle_memory) :
    varnish_monitor_sm env stats mem
      = { mem with
          dispatched := mem.dispatched ++ emit_category env mem.conf stats Category.sm } := by
  obtain ⟨gen, n, h⟩ := env
  cases gen <;> cases hf : mem.conf.monitor_sm <;>
    simp [varnish_monitor_sm, emit_category, category_enabled, category_table,
      category_common, category_legacy, observation, varnish_submit_mem,
      plugin_dispatch_values, hf, mem_eta]

theorem varnish_monitor_sma_eq (env : Env) (stats : c_varnish_stats_t) (mem : cycle_memory) :
    varnish_monitor_sma env stats mem
      = { mem with
          dispatched := mem.dispatched ++ emit_category env mem.conf stats Category.sma } := by
  obtain ⟨gen, n, h⟩ := env
  cases gen <;> cases hf : mem.conf.monitor_sma <;>
    simp [varnish_monitor_sma, emit_category, category_enabled, category_table,
      category_common, category_legacy, observation, varnish_submit_mem,
      plugin_dispatch_values, hf, mem_eta]

theorem varnish_monitor_sms_eq (env : Env) (stats : c_varnish_stats_t) (mem : cycle_memory) :
    varnish_monitor_sms env stats mem
      = { mem with
          dispatched := mem.dispatched ++ emit_category env mem.conf stats Category.sms } := by
  obtain ⟨gen, n, h⟩ := env
  cases gen <;> cases hf : mem.conf.monitor_sms <;>
    simp [varnish_monitor_sms, emit_category, category_enabled, category_table,
      category_common, category_legacy, observation, varnish_submit_mem,
      plugin_dispatch_values, hf, mem_eta]

theorem varnish_monitor_totals_eq (env : Env) (stats : c_varnish_stats_t) (mem : cycle_memory) :
    varnish_monitor_totals env stats mem
      = { mem with
          dispatched := mem.dispatched ++ emit_category env mem.conf stats Category.totals } := by
  obtain ⟨gen, n, h⟩ := env
  cases gen <;> cases hf : mem.conf.monitor_totals <;>
    simp [varnish_monitor_totals, emit_category, category_enabled, category_table,
      category_common, category_legacy, observation, varnish_submit_mem,
      plugin_dispatch_values, hf, mem_eta]

theorem varnish_monitor_workers_eq (env : Env) (stats : c_varnish_stats_t) (mem : cycle_memory) :
    varnish_monitor_workers env stats mem
      = { mem with
          dispatched := mem.dispatched ++ emit_category env mem.conf stats Category.workers } := by
  obtain ⟨gen, n, h⟩ := env
  cases gen <;> cases hf : mem.conf.monitor_workers <;>
    simp [varnish_monitor_workers, emit_category, category_enabled, category_table,
      category_common, category_legacy, observation, varnish_submit_mem,
      plugin_dispatch_values, hf, mem_eta]

theorem varnish_monitor_mem_eq (env : Env) (stats : c_varnish_stats_t) (mem : cycle_memory) :
    varnish_monitor_mem env stats mem
      = { mem with dispatched := mem.dispatched ++ varnish_monitor env mem.conf stats } := by
  rw [monitor_eq_emit]
  simp only [varnish_monitor_mem, varnish_monitor_cache_eq, varnish_monitor_connections_eq, varnish_monitor_esi_eq, varnish_monitor_backend_eq, varnish_monitor_fetch_eq, varnish_monitor_hcb_eq, varnish_monitor_shm_eq, varnish_monitor_sm_eq, varnish_monitor_sma_eq, varnish_monitor_sms_eq, varnish_monitor_totals_eq, varnish_monitor_workers_eq, emit, Category.all, List.map_cons, List.map_nil,
    List.flatten_cons, List.flatten_nil, List.append_assoc, List.append_nil]

theorem varnish_read_mem_eq (env : Env) (ud : user_data_pointer)
    (source : Option c_varnish_stats_t) (mem : cycle_memory) :
    varnish_read_mem env ud source mem
      = ((varnish_read env (ud.deref mem) source).status,
         { mem with
           dispatched := mem.dispatched ++ (varnish_read env (ud.deref mem) source).dispatched,
           calls := mem.calls ++ (varnish_read env (ud.deref mem) source).calls }) := by
  obtain ⟨gen, n, h⟩ := env
  cases ud <;> cases gen <;> cases source <;>
    simp [varnish_read_mem, varnish_read, user_data_pointer.deref, varnish_api,
      varnish_monitor_mem_eq]

theorem varnish_read_mem_frame (env : Env) (ud : user_data_pointer)
    (source : Option c_varnish_stats_t) (mem : cycle_memory) :
    (varnish_read_mem env ud source mem).2.conf = mem.conf
    ∧ (varnish_read_mem env ud source mem).2.have_instance = mem.have_instance := by
  rw [varnish_read_mem_eq]
  exact ⟨rfl, rfl⟩

theorem collection_cycles_frame (env : Env) (ud : user_data_pointer)
    (sources : List (Option c_varnish_stats_t)) (mem : cycle_memory) :
    (collection_cycles env ud sources mem).2.conf = mem.conf
    ∧ (collection_cycles env ud sources mem).2.have_instance = mem.have_instance := by
  induction sources generalizing mem with
  | nil => exact ⟨rfl, rfl⟩
  | cons s rest ih =>
    have h1 := varnish_read_mem_frame env ud s mem
    have h2 := ih (varnish_read_mem env ud s mem).2
    exact ⟨h2.1.trans h1.1, h2.2.trans h1.2⟩

theorem varnish_read_mem_available (env : Env) (stats : c_varnish_stats_t)
    (mem : cycle_memory) :
    (varnish_read_mem env user_data_pointer.valid (some stats) mem).1 = 0
    ∧ (varnish_read_mem env user_data_pointer.valid (some stats) mem).2.dispatched
        = mem.dispatched ++ varnish_monitor env mem.conf stats := by
  rw [varnish_read_mem_eq]
  obtain ⟨gen, n, h⟩ := env
  cases gen <;> exact ⟨rfl, rfl⟩

theorem varnish_read_mem_unavailable (env : Env) (mem : cycle_memory) :
    (varnish_read_mem env user_data_pointer.valid none mem).1 ≠ 0
    ∧ (varnish_read_mem env user_data_pointer.valid none mem).2.dispatched
        = mem.dispatched := by
  rw [varnish_read_mem_eq]
  obtain ⟨gen, n, h⟩ := env
  have hne : (-1 : Int) ≠ 0 := by decide
  cases gen <;> exact ⟨hne, by simp [varnish_read, user_data_pointer.deref]⟩

/-- C18: a collection cycle leaves the instance as it was. On the memory it
runs on, `varnish_read` changes nothing but the records of the calls it makes:
its status and what it dispatches and calls are those of `varnish_read` on the
user data found in the memory. So `varnish_monitor` and `varnish_read` leave
the configuration (identity and category flags) and `have_instance` as they
found them, whatever the user data and whether the source is available or
not, and so does every sequence of cycles. The cycle that follows any history
of cycles, failed or not, on an available source dispatches exactly the
sequence of `varnish_monitor` for the configuration as it was before the
history; the cycle after a failed cycle leaves dispatched what the same cycle
leaves dispatched without the failure before it. -/
theorem collection_cycle_stateless (env : Env) (ud : user_data_pointer) (mem : cycle_memory)
    (history : List (Option c_varnish_stats_t)) (source : Option c_varnish_stats_t)
    (stats : c_varnish_stats_t) :
    varnish_read_mem env ud source mem
      = ((varnish_read env (ud.deref mem) source).status,
         { mem with
           dispatched := mem.dispatched ++ (varnish_read env (ud.deref mem) source).dispatched,
           calls := mem.calls ++ (varnish_read env (ud.deref mem) source).calls })
    ∧ ((varnish_monitor_mem env stats mem).conf = mem.conf
      ∧ (varnish_monitor_mem env stats mem).have_instance = mem.have_instance)
    ∧ ((varnish_read_mem env ud source mem).2.conf = mem.conf
      ∧ (varnish_read_mem env ud source mem).2.have_instance = mem.have_instance)
    ∧ ((collection_cycles env ud history mem).2.conf = mem.conf
      ∧ (collection_cycles env ud history mem).2.have_instance = mem.have_instance)
    ∧ (varnish_read_mem env user_data_pointer.valid (some stats)
          (collection_cycles env user_data_pointer.valid history mem).2).2.dispatched
        = (collection_cycles env user_data_pointer.valid history mem).2.dispatched
          ++ varnish_monitor env mem.conf stats
    ∧ (varnish_read_mem env user_data_pointer.valid (some stats)
          (varnish_read_mem env user_data_pointer.valid none mem).2).2.dispatched
        = (varnish_read_mem env user_data_pointer.valid (some stats) mem).2.dispatched := by
  refine ⟨varnish_read_mem_eq env ud source mem, ?_, varnish_read_mem_frame env ud source mem,
    collection_cycles_frame env ud history mem, ?_, ?_⟩
  · rw [varnish_monitor_mem_eq]
    exact ⟨rfl, rfl⟩
  · rw [(varnish_read_mem_available env stats _).2,
      (collection_cycles_frame env user_data_pointer.valid history mem).1]
  · rw [(varnish_read_mem_available env stats _).2, (varnish_read_mem_available env stats mem).2,
      (varnish_read_mem_frame env user_data_pointer.valid none mem).1,
      (varnish_read_mem_unavailable env mem).2]

/-- An instance of C18: in the current generation, on a memory with the
default configuration and `have_instance` unset, a failed cycle followed by a
cycle on an available source returns the statuses -1 and 0, leaves the
configuration and `have_instance` as they were, and leaves dispatched the
eighteen observations of the second cycle only. -/
theorem collection_cycle_stateless_witness :
    (collection_cycles env_v3 user_data_pointer.valid [none, some (fun _ => 4)]
        { have_instance := false, conf := conf_default, dispatched := [], calls := [] }).1
      = [-1, 0]
    ∧ (collection_cycles env_v3 user_data_pointer.valid [none, some (fun _ => 4)]
        { have_instance := false, conf := conf_default, dispatched := [], calls := [] }).2.conf
      = conf_default
    ∧ (collection_cycles env_v3 user_data_pointer.valid [none, some (fun _ => 4)]
        { have_instance := false, conf := conf_default, dispatched := [],
          calls := [] }).2.have_instance = false
    ∧ (collection_cycles env_v3 user_data_pointer.valid [none, some (fun _ => 4)]
        { have_instance := false, conf := conf_default, dispatched := [],
          calls := [] }).2.dispatched
      = varnish_monitor env_v3 conf_default (fun _ => 4) :=
  ⟨by decide,
   (collection_cycle_stateless env_v3 user_data_pointer.valid
      { have_instance := false, conf := conf_default, dispatched := [], calls := [] }
      [none, some (fun _ => 4)] none (fun _ => 4)).2.2.2.1.1,
   (collection_cycle_stateless env_v3 user_data_pointer.valid
      { have_instance := false, conf := conf_default, dispatched := [], calls := [] }
      [none, some (fun _ => 4)] none (fun _ => 4)).2.2.2.1.2,
   by decide⟩

end Varnish
